import Mathlib

/-!
# Peripheral registry (`xbmc/peripherals/Peripherals.cpp`)

A shallow embedding of `CPeripherals`: the mapping table loaded from
`peripherals.xml`, the mapping resolver, the peripheral construction pipeline
and the registry life cycle.  Functions of the translation unit are embedded
one by one, with the names of the source.  Everything the translation unit
only calls (string helpers, type translators, bus and peripheral classes) is
collected in the record `Externals` and stays a parameter of the embedding.
-/

namespace PERIPHERALS

/-! ## Data model -/

/-- Bus types.  The enumeration is declared in PeripheralTypes.h; the
translation unit refers to `PERIPHERAL_BUS_UNKNOWN` (the wildcard), to the USB
bus and to `PERIPHERAL_BUS_CEC`, the other enumerators stand for the rest of
the enumeration. -/
inductive PeripheralBusType
  | PERIPHERAL_BUS_UNKNOWN
  | PERIPHERAL_BUS_USB
  | PERIPHERAL_BUS_PCI
  | PERIPHERAL_BUS_RPI
  | PERIPHERAL_BUS_CEC
  deriving DecidableEq, Repr

/-- Peripheral types: the cases of the `switch` in `CreatePeripheral`, and
`PERIPHERAL_UNKNOWN` (the wildcard, handled by the `default` case). -/
inductive PeripheralType
  | PERIPHERAL_UNKNOWN
  | PERIPHERAL_HID
  | PERIPHERAL_NIC
  | PERIPHERAL_DISK
  | PERIPHERAL_NYXBOARD
  | PERIPHERAL_CEC
  | PERIPHERAL_BLUETOOTH
  | PERIPHERAL_TUNER
  | PERIPHERAL_IMON
  deriving DecidableEq, Repr

/-- Capability tags.  The enumeration is declared in PeripheralTypes.h; the
translation unit only ever asks for `FEATURE_CEC`, the other enumerators stand
for the rest of the enumeration. -/
inductive PeripheralFeature
  | FEATURE_UNKNOWN
  | FEATURE_HID
  | FEATURE_NIC
  | FEATURE_DISK
  | FEATURE_NYXBOARD
  | FEATURE_CEC
  | FEATURE_BLUETOOTH
  | FEATURE_TUNER
  | FEATURE_IMON
  deriving DecidableEq, Repr

/-- Requested CEC state change.  The enumeration is declared with the CEC
adapter; `STATE_SWITCH_TOGGLE` is the default argument of `ToggleDeviceState`,
the other enumerators stand for the rest of the enumeration. -/
inductive CecStateChange
  | STATE_SWITCH_TOGGLE
  | STATE_STANDBY
  | STATE_ACTIVATE_SOURCE
  deriving DecidableEq, Repr

/-- The result of `atof` on an attribute, kept symbolic: the text that was
handed to `atof`, or the literal default `0` of the source. -/
inductive FloatValue
  | atof (text : String)
  | zero
  deriving DecidableEq, Repr

/-- The typed payload of a `CSetting`, one case per constructor call in
`GetSettingsFromMappingsFile`. -/
inductive SettingValue
  | bool (bValue : Bool)
  | int (iValue iMin iStep iMax : Int) (strFormat : String)
  | number (fValue fMin fStep fMax : FloatValue)
  | enum (iValue : Int) (enums : List (Int × Int))
  | string (strValue : String)
  deriving DecidableEq, Repr

/-- A setting object: key, label id, visibility flag and typed payload. -/
structure CSetting where
  id : String
  label : Int
  visible : Bool
  value : SettingValue
  deriving DecidableEq, Repr

/-- Lexicographic order on character codes, the order of `std::string`. -/
def charsLess : List Char → List Char → Bool
  | [], [] => false
  | [], _ :: _ => true
  | _ :: _, [] => false
  | a :: as, b :: bs =>
    if a.toNat < b.toNat then true
    else if a.toNat = b.toNat then charsLess as bs
    else false

/-- The comparison `operator<` of two strings. -/
def stringLess (a b : String) : Bool :=
  charsLess a.toList b.toList

/-- The text with its ASCII upper-case letters replaced by lower-case ones. -/
def toLowerAscii (text : String) : String :=
  String.mk (text.toList.map Char.toLower)

/-- A `std::map<CStdString, CSetting *>`, as the list of its entries. -/
abbrev SettingsMap := List (String × CSetting)

/-- The search `map::find`: the setting stored under `key`, if any. -/
def SettingsMap.find (m : SettingsMap) (key : String) : Option CSetting :=
  match m with
  | [] => none
  | (k, s) :: rest => if key = k then some s else SettingsMap.find rest key

/-- The assignment `m[key] = setting`: replaces the entry stored under `key`
or adds one, keeping the entries in key order. -/
def SettingsMap.set (m : SettingsMap) (key : String) (setting : CSetting) : SettingsMap :=
  match m with
  | [] => [(key, setting)]
  | (k, s) :: rest =>
    if stringLess key k then (key, setting) :: (k, s) :: rest
    else if key = k then (key, setting) :: rest
    else (k, s) :: SettingsMap.set rest key setting

/-- The keys of a map are pairwise distinct (what `std::map` guarantees). -/
def SettingsMap.UniqueKeys (m : SettingsMap) : Prop :=
  (m.map Prod.fst).Nodup

instance (m : SettingsMap) : Decidable m.UniqueKeys :=
  inferInstanceAs (Decidable (m.map Prod.fst).Nodup)

/-- A vendor/product pair of a rule. -/
structure PeripheralID where
  m_iVendorId : Int
  m_iProductId : Int
  deriving DecidableEq, Repr

/-- One rule of the mapping table (`PeripheralDeviceMapping`). -/
structure PeripheralDeviceMapping where
  m_PeripheralID : List PeripheralID
  m_busType : PeripheralBusType
  m_class : PeripheralType
  m_strDeviceName : String
  m_mappedTo : PeripheralType
  m_settings : SettingsMap
  deriving DecidableEq, Repr

/-- A scan result; `m_mappedType` and `m_strDeviceName` are filled in by the
resolver. -/
structure PeripheralScanResult where
  m_type : PeripheralType
  m_strLocation : String
  m_iVendorId : Int
  m_iProductId : Int
  m_mappedType : PeripheralType
  m_strDeviceName : String
  m_busType : PeripheralBusType
  deriving DecidableEq, Repr

/-- Modelled from the spec: the class `CPeripheral` (devices/Peripheral.h); the
fields are the ones the spec lists for a Peripheral, read here through
`Type()`, `GetBusType()`, `VendorId()`, `ProductId()`. -/
structure CPeripheral where
  m_type : PeripheralType
  m_busType : PeripheralBusType
  m_strLocation : String
  m_strDeviceName : String
  m_iVendorId : Int
  m_iProductId : Int
  m_settings : SettingsMap
  m_features : List PeripheralFeature
  deriving DecidableEq, Repr

/-- Modelled from the spec: the class `CPeripheralBus` (bus/PeripheralBus.h); a
bus has a stable type and owns the peripherals registered on it. -/
structure CPeripheralBus where
  m_type : PeripheralBusType
  m_peripherals : List CPeripheral
  deriving DecidableEq, Repr

/-- An XML element as TinyXML presents it: tag, attributes, child elements. -/
inductive TiXmlElement
  | mk (value : String) (attributes : List (String × String)) (children : List TiXmlElement)

/-- The tag of an element (`Value()`). -/
def TiXmlElement.Value : TiXmlElement → String
  | .mk v _ _ => v

/-- The call `Attribute(name)`: the attribute text, or `none` for a null
pointer when the element has no such attribute. -/
def TiXmlElement.Attribute : TiXmlElement → String → Option String
  | .mk _ attrs _, name => attrs.lookup name

/-- The child elements with tag `name`, in document order: the elements that
`FirstChildElement(name)` followed by `NextSiblingElement(name)` visits. -/
def TiXmlElement.ChildElements : TiXmlElement → String → List TiXmlElement
  | .mk _ _ children, name => children.filter (fun c => c.Value = name)

/-- A successfully loaded document; `RootElement()` may be null. -/
structure CXBMCTinyXML where
  RootElement : Option TiXmlElement

/-- Ways in which a run of the embedded code fails to return. -/
inductive Fault
  | outOfFuel
  | nullDereference
  | outOfRange
  deriving DecidableEq, Repr

/-- Observable effects on collaborators, in the order they happen. -/
inductive Event
  | CreateDirectory (path : String)
  | LoadMappings
  | BusCreated (type : PeripheralBusType)
  | BusInitialise (bus : CPeripheralBus) (success : Bool)
  | BusDeleted (bus : CPeripheralBus)
  | MissingLibCecWarning
  | CecToggleDeviceState (device : CPeripheral) (mode : CecStateChange)
  | BusTriggerDeviceScan (bus : CPeripheralBus)
  | BusGetByPath (bus : CPeripheralBus) (path : String)
  | BusGetDirectory (bus : CPeripheralBus) (path : String)
  | CecToggleMute (device : CPeripheral)
  | CecVolumeUp (device : CPeripheral)
  | CecVolumeDown (device : CPeripheral)
  | CecResetButton (device : CPeripheral)
  deriving DecidableEq, Repr

/-- A `CFileItemList`, as the paths of its items. -/
abbrev CFileItemList := List String

/-- The identifier of an input action (guilib/Key.h); the translation unit
tests for the three named ones. -/
inductive ActionId
  | ACTION_MUTE
  | ACTION_VOLUME_UP
  | ACTION_VOLUME_DOWN
  | other (id : Nat)
  deriving DecidableEq, Repr

/-- A `CAction`: its identifier, and whether `GetAmount()` is non-zero. -/
structure CAction where
  GetID : ActionId
  amountNonZero : Bool
  deriving DecidableEq, Repr

/-- A `CKey` built from a button code and a hold time. -/
structure CKey where
  button : Nat
  held : Nat
  deriving DecidableEq, Repr

/-- Everything `Peripherals.cpp` calls but does not define, and the
compile-time switches it is built with. -/
structure Externals where
  /-- Preprocessor switch `HAVE_PERIPHERAL_BUS_USB`. -/
  HAVE_PERIPHERAL_BUS_USB : Bool
  /-- Preprocessor switch `HAVE_LIBCEC`. -/
  HAVE_LIBCEC : Bool
  /-- Result of `xmlDoc.LoadFile("special://xbmc/system/peripherals.xml")`:
  `none` when the file cannot be loaded. -/
  LoadFile : Option CXBMCTinyXML
  /-- The helper `StringUtils::SplitString(input, delimiter, results)`: the
  contents of `results` after the call. -/
  SplitString : String → String → List String
  /-- The comparison `CStdString::Equals(text)` (StdString.h). -/
  Equals : String → String → Bool
  /-- The helper `CUtil::Tokenize(input, tokens, delimiters)`: the contents of
  `tokens` after the call. -/
  Tokenize : String → String → List String
  /-- The translator `PeripheralTypeTranslator::HexStringToInt`. -/
  HexStringToInt : String → Int
  /-- The translator `PeripheralTypeTranslator::GetBusTypeFromString`. -/
  GetBusTypeFromString : Option String → PeripheralBusType
  /-- The translator `PeripheralTypeTranslator::GetTypeFromString`. -/
  GetTypeFromString : Option String → PeripheralType
  /-- The call `CPeripheralBus::Initialise()`. -/
  BusInitialise : CPeripheralBus → Bool
  /-- The call `CPeripheralBus::Register(peripheral)`. -/
  Register : CPeripheralBus → CPeripheral → CPeripheralBus
  /-- The call `CPeripheralBus::GetPeripheralsWithFeature(results, feature)`: the
  new contents of `results` and the returned count. -/
  BusGetPeripheralsWithFeature :
    CPeripheralBus → List CPeripheral → PeripheralFeature → List CPeripheral × Int
  /-- The constructors `new CPeripheralHID(mappedResult)` and siblings, by
  resolved type. -/
  Construct : PeripheralType → PeripheralScanResult → CPeripheral
  /-- The call `CPeripheral::Initialise()`, which can read the rule table of
  the registry: success flag and the peripheral afterwards. -/
  PeripheralInitialise : List PeripheralDeviceMapping → CPeripheral → Bool × CPeripheral
  /-- The call `CPeripheral::AddSetting(key, setting)`. -/
  AddSetting : CPeripheral → String → CSetting → CPeripheral
  /-- The query `CPeripherals::SupportsCEC()` (declared in Peripherals.h). -/
  SupportsCEC : Bool
  /-- The call `CPeripheralCecAdapter::ToggleDeviceState(mode)`. -/
  CecToggleDeviceState : CPeripheral → CecStateChange → Bool
  /-- The translator `PeripheralTypeTranslator::BusTypeToString`. -/
  BusTypeToString : PeripheralBusType → String
  /-- The call `CPeripheralBus::GetPeripheral(location)`, `none` for null. -/
  BusGetPeripheral : CPeripheralBus → String → Option CPeripheral
  /-- The call `CPeripheralBus::HasPeripheral(location)`. -/
  BusHasPeripheral : CPeripheralBus → String → Bool
  /-- The call `CPeripheralBus::GetByPath(path)`, `none` for null. -/
  BusGetByPath : CPeripheralBus → String → Option CPeripheral
  /-- The call `CPeripheralBus::GetDirectory(path, items)`: the contents of
  `items` after the call. -/
  BusGetDirectory : CPeripheralBus → String → CFileItemList → CFileItemList
  /-- The query `CPeripheralCecAdapter::HasAudioControl()`. -/
  CecHasAudioControl : CPeripheral → Bool
  /-- The query `CPeripheralCecAdapter::IsMuted()`. -/
  CecIsMuted : CPeripheral → Bool
  /-- The query `CPeripheralCecAdapter::GetButton()`; zero for no button. -/
  CecGetButton : CPeripheral → Nat
  /-- The query `CPeripheralCecAdapter::GetHoldTime()`. -/
  CecGetHoldTime : CPeripheral → Nat

/-- The members of `CPeripherals`. -/
structure CPeripherals where
  m_bIsStarted : Bool
  m_bInitialised : Bool
  m_bMissingLibCecWarningDisplayed : Bool
  m_busses : List CPeripheralBus
  m_mappings : List PeripheralDeviceMapping
  deriving DecidableEq, Repr

/-! ## Mapping resolver -/

/-- The inner loop of `GetMappingForDevice` over `m_PeripheralID`, from index
`i` on: `bProductMatch` is set as soon as one pair equals the device's. -/
def productMatchLoop (ids : List PeripheralID) (iVendorId iProductId : Int) (bProductMatch : Bool) :
    Bool :=
  match ids with
  | [] => bProductMatch
  | id :: rest =>
    if id.m_iVendorId = iVendorId ∧ id.m_iProductId = iProductId then
      productMatchLoop rest iVendorId iProductId true
    else
      productMatchLoop rest iVendorId iProductId bProductMatch

/-- The three flags computed per rule in `GetMappingForDevice`, and their
conjunction: `bProductMatch && bBusMatch && bClassMatch`. -/
def mappingMatches (mapping : PeripheralDeviceMapping) (busType : PeripheralBusType)
    (iVendorId iProductId : Int) (type : PeripheralType) : Bool :=
  let bProductMatch :=
    if mapping.m_PeripheralID.length = 0 then true
    else productMatchLoop mapping.m_PeripheralID iVendorId iProductId false
  let bBusMatch :=
    decide (mapping.m_busType = .PERIPHERAL_BUS_UNKNOWN ∨ mapping.m_busType = busType)
  let bClassMatch :=
    decide (mapping.m_class = .PERIPHERAL_UNKNOWN ∨ mapping.m_class = type)
  bProductMatch && bBusMatch && bClassMatch

/-- The loop of `CPeripherals::GetMappingForDevice` over the rules not yet
visited: the return value and the scan result afterwards. -/
def GetMappingForDevice (m_mappings : List PeripheralDeviceMapping) (bus : CPeripheralBus)
    (result : PeripheralScanResult) : Bool × PeripheralScanResult :=
  match m_mappings with
  | [] => (false, result)
  | mapping :: rest =>
    if mappingMatches mapping bus.m_type result.m_iVendorId result.m_iProductId result.m_type then
      (true, { result with m_mappedType := mapping.m_mappedTo,
                           m_strDeviceName := mapping.m_strDeviceName })
    else
      GetMappingForDevice rest bus result

/-- The settings pass computes its own three flags, from the accessors of the
peripheral: `bBusMatch && bProductMatch && bClassMatch`. -/
def settingsMappingMatches (mapping : PeripheralDeviceMapping) (peripheral : CPeripheral) : Bool :=
  let bProductMatch :=
    if mapping.m_PeripheralID.length = 0 then true
    else productMatchLoop mapping.m_PeripheralID peripheral.m_iVendorId peripheral.m_iProductId false
  let bBusMatch :=
    decide (mapping.m_busType = .PERIPHERAL_BUS_UNKNOWN ∨ mapping.m_busType = peripheral.m_busType)
  let bClassMatch :=
    decide (mapping.m_class = .PERIPHERAL_UNKNOWN ∨ mapping.m_class = peripheral.m_type)
  bBusMatch && bProductMatch && bClassMatch

/-- The iteration over `mapping->m_settings` in `GetSettingsFromMapping`: one
`AddSetting` call per entry, in map order. -/
def addSettingsLoop (AddSetting : CPeripheral → String → CSetting → CPeripheral)
    (settings : SettingsMap) (peripheral : CPeripheral) : CPeripheral :=
  match settings with
  | [] => peripheral
  | (key, setting) :: rest => addSettingsLoop AddSetting rest (AddSetting peripheral key setting)

/-- The loop of `CPeripherals::GetSettingsFromMapping`: the peripheral after the
settings of every matching rule have been handed to `AddSetting`. -/
def GetSettingsFromMapping (AddSetting : CPeripheral → String → CSetting → CPeripheral)
    (m_mappings : List PeripheralDeviceMapping) (peripheral : CPeripheral) : CPeripheral :=
  match m_mappings with
  | [] => peripheral
  | mapping :: rest =>
    if settingsMappingMatches mapping peripheral then
      GetSettingsFromMapping AddSetting rest (addSettingsLoop AddSetting mapping.m_settings peripheral)
    else
      GetSettingsFromMapping AddSetting rest peripheral

/-! ## Loading the mapping table -/

/-- The C library `isspace` in the "C" locale. -/
def isspace (c : Char) : Bool :=
  c = ' ' || c = '\t' || c = '\n' || c = '\r' || c.toNat = 11 || c.toNat = 12

/-- The conversion of a `long` to the 32-bit `int` that `atoi` returns: the value
modulo 2^32, in the range from -2^31 to 2^31 - 1. -/
def toInt32 (value : Int) : Int :=
  (value + 2147483648) % 4294967296 - 2147483648

/-- The C library `atoi`: optional white space, optional sign, decimal digits.
The digits are read as `strtol` reads them, saturating at the bounds of a
64-bit `long`, and the result is converted to `int`; a value that fits an
`int` is returned as it is. -/
def atoi (text : String) : Int :=
  let cs := text.toList.dropWhile isspace
  let signed : Bool × List Char :=
    match cs with
    | '-' :: t => (true, t)
    | '+' :: t => (false, t)
    | t => (false, t)
  let n : Nat := (signed.2.takeWhile Char.isDigit).foldl (fun a c => 10 * a + (c.toNat - 48)) 0
  let value : Int := if signed.1 then - (n : Int) else (n : Int)
  let asLong : Int :=
    if value < -9223372036854775808 then -9223372036854775808
    else if 9223372036854775807 < value then 9223372036854775807
    else value
  toInt32 asLong

/-- The C library `strcmp`, as far as its sign. -/
def strcmp (a b : String) : Int :=
  if a = b then 0 else if stringLess a b then -1 else 1

/-- The C library `strcmpi`: comparison ignoring ASCII case. -/
def strcmpi (a b : String) : Int :=
  strcmp (toLowerAscii a) (toLowerAscii b)

/-- A `CStdString` built from a `const char *`: a null pointer gives the empty
string. -/
def CStdString (text : Option String) : String :=
  text.getD ""

/-- The method `CStdString::Left(nCount)` (StdString.h): the first `nCount`
characters, the count being clamped to the length of the text. -/
def Left (text : String) (nCount : Int) : String :=
  String.mk (text.toList.take nCount.toNat)

/-- The method `CStdString::Right(nCount)` (StdString.h): the last `nCount`
characters, the count being clamped to the length of the text. -/
def Right (text : String) (nCount : Int) : String :=
  String.mk (text.toList.drop (text.toList.length - nCount.toNat))

/-- The position of the first `ch` in `cs`, counted from `i`, or -1. -/
def findChar (ch : Char) (cs : List Char) (i : Int) : Int :=
  match cs with
  | [] => -1
  | c :: rest => if c = ch then i else findChar ch rest (i + 1)

/-- The method `CStdString::Find(ch)` (StdString.h): the position of the first
`ch`, or -1. -/
def Find (text : String) (ch : Char) : Int :=
  findChar ch text.toList 0

/-- The flag `bConfigurable` of `GetSettingsFromMappingsFile`. -/
def bConfigurable (currentNode : TiXmlElement) : Bool :=
  match currentNode.Attribute "configurable" with
  | none => true
  | some c =>
    decide (strcmp c "" = 0) ||
      (decide (strcmp c "no" ≠ 0) && decide (strcmp c "false" ≠ 0) && decide (strcmp c "0" ≠ 0))

/-- The body of the `while` loop of `GetSettingsFromMappingsFile` after the key
test: the `CSetting` built for the element (visibility not yet set), `none`
when `setting` stays null, or a fault when a null attribute is dereferenced. -/
def newSetting (ext : Externals) (currentNode : TiXmlElement) (strKey : String) :
    Except Fault (Option CSetting) :=
  let strSettingsType := CStdString (currentNode.Attribute "type")
  let iLabelId : Int :=
    match currentNode.Attribute "label" with
    | some l => atoi l
    | none => -1
  let atoiOr (name : String) (dflt : Int) : Int :=
    match currentNode.Attribute name with
    | some v => atoi v
    | none => dflt
  let atofOr (name : String) : FloatValue :=
    match currentNode.Attribute name with
    | some v => .atof v
    | none => .zero
  if ext.Equals strSettingsType "bool" then
    match currentNode.Attribute "value" with
    | none => .error .nullDereference
    | some v =>
      let bValue :=
        decide (strcmp v "no" ≠ 0) && decide (strcmp v "false" ≠ 0) && decide (strcmp v "0" ≠ 0)
      .ok (some { id := strKey, label := iLabelId, visible := true, value := .bool bValue })
  else if ext.Equals strSettingsType "int" then
    .ok (some { id := strKey, label := iLabelId, visible := true,
                value := .int (atoiOr "value" 0) (atoiOr "min" 0) (atoiOr "step" 1)
                  (atoiOr "max" 255) (CStdString (currentNode.Attribute "format")) })
  else if ext.Equals strSettingsType "float" then
    .ok (some { id := strKey, label := iLabelId, visible := true,
                value := .number (atofOr "value") (atofOr "min") (atofOr "step") (atofOr "max") })
  else if ext.Equals strSettingsType "enum" then
    let strEnums := CStdString (currentNode.Attribute "lvalues")
    if !strEnums.isEmpty then
      let valuesVec := ext.Tokenize strEnums "|"
      let enums := valuesVec.map (fun v => (atoi v, atoi v))
      .ok (some { id := strKey, label := iLabelId, visible := true,
                  value := .enum (atoiOr "value" 0) enums })
    else
      .ok none
  else
    .ok (some { id := strKey, label := iLabelId, visible := true,
                value := .string (CStdString (currentNode.Attribute "value")) })

/-- The `while (currentNode)` loop of `GetSettingsFromMappingsFile`.  The list
holds `currentNode` and the `setting` siblings after it; one unit of fuel is
spent per iteration.  On an empty key the source executes `continue`, which
skips the assignment `currentNode = currentNode->NextSiblingElement("setting")`
at the end of the body: the next iteration sees the same element. -/
def settingsLoop (ext : Externals) (fuel : Nat) (nodes : List TiXmlElement)
    (m_settings : SettingsMap) : Except Fault SettingsMap :=
  match fuel, nodes with
  | _, [] => .ok m_settings
  | 0, _ :: _ => .error .outOfFuel
  | fuel + 1, currentNode :: siblings =>
    let strKey := CStdString (currentNode.Attribute "key")
    if strKey.isEmpty then
      settingsLoop ext fuel (currentNode :: siblings) m_settings
    else
      match newSetting ext currentNode strKey with
      | .error f => .error f
      | .ok none => settingsLoop ext fuel siblings m_settings
      | .ok (some setting) =>
        settingsLoop ext fuel siblings
          (m_settings.set strKey { setting with visible := bConfigurable currentNode })

/-- The function `CPeripherals::GetSettingsFromMappingsFile(xmlNode, m_settings)`. -/
def GetSettingsFromMappingsFile (ext : Externals) (fuel : Nat) (xmlNode : TiXmlElement)
    (m_settings : SettingsMap) : Except Fault SettingsMap :=
  settingsLoop ext fuel (xmlNode.ChildElements "setting") m_settings

/-- The loop over `vpArray` in `LoadMappings`: an entry that does not split
into exactly two tokens is skipped (`continue`), any other entry is appended
to `mapping.m_PeripheralID`. -/
def vendorProductLoop (ext : Externals) (vpArray : List String) (ids : List PeripheralID) :
    List PeripheralID :=
  match vpArray with
  | [] => ids
  | vp :: rest =>
    match ext.SplitString vp ":" with
    | [vendor, product] =>
      vendorProductLoop ext rest
        (ids ++ [{ m_iVendorId := ext.HexStringToInt vendor,
                   m_iProductId := ext.HexStringToInt product }])
    | _ => vendorProductLoop ext rest ids

/-- The body of the `for` loop of `LoadMappings`: the rule built from one
`peripheral` element. -/
def loadMapping (ext : Externals) (fuel : Nat) (currentNode : TiXmlElement) :
    Except Fault PeripheralDeviceMapping :=
  let m_strDeviceName :=
    match currentNode.Attribute "name" with
    | some n => n
    | none => ""
  let m_PeripheralID :=
    match currentNode.Attribute "vendor_product" with
    | some vp => vendorProductLoop ext (ext.SplitString vp ",") []
    | none => []
  match GetSettingsFromMappingsFile ext fuel currentNode [] with
  | .error f => .error f
  | .ok m_settings =>
    .ok { m_PeripheralID := m_PeripheralID
          m_busType := ext.GetBusTypeFromString (currentNode.Attribute "bus")
          m_class := ext.GetTypeFromString (currentNode.Attribute "class")
          m_strDeviceName := m_strDeviceName
          m_mappedTo := ext.GetTypeFromString (currentNode.Attribute "mapTo")
          m_settings := m_settings }

/-- The `for` loop of `LoadMappings` over the `peripheral` elements: each rule
is pushed to the back of `m_mappings`. -/
def loadMappingsLoop (ext : Externals) (fuel : Nat) (nodes : List TiXmlElement)
    (m_mappings : List PeripheralDeviceMapping) : Except Fault (List PeripheralDeviceMapping) :=
  match nodes with
  | [] => .ok m_mappings
  | currentNode :: rest =>
    match loadMapping ext fuel currentNode with
    | .error f => .error f
    | .ok mapping => loadMappingsLoop ext fuel rest (m_mappings ++ [mapping])

/-- The function `CPeripherals::LoadMappings()`: the return value and `m_mappings`
afterwards.  `fuel` bounds the iterations of each settings loop. -/
def LoadMappings (ext : Externals) (fuel : Nat) (m_mappings : List PeripheralDeviceMapping) :
    Except Fault (Bool × List PeripheralDeviceMapping) :=
  match ext.LoadFile with
  | none => .ok (true, m_mappings)
  | some xmlDoc =>
    match xmlDoc.RootElement with
    | none => .error .nullDereference
    | some pRootElement =>
      if strcmpi pRootElement.Value "peripherals" ≠ 0 then
        .ok (false, m_mappings)
      else
        match loadMappingsLoop ext fuel (pRootElement.ChildElements "peripheral") m_mappings with
        | .error f => .error f
        | .ok mappings => .ok (true, mappings)

/-! ## Peripheral construction -/

/-- The `switch` of `CreatePeripheral`: the new peripheral (if any), the
registry afterwards and the warning it may have raised. -/
def constructPeripheral (ext : Externals) (self : CPeripherals) (bus : CPeripheralBus)
    (mappedResult : PeripheralScanResult) : Option CPeripheral × CPeripherals × List Event :=
  match mappedResult.m_mappedType with
  | .PERIPHERAL_HID => (some (ext.Construct .PERIPHERAL_HID mappedResult), self, [])
  | .PERIPHERAL_NIC => (some (ext.Construct .PERIPHERAL_NIC mappedResult), self, [])
  | .PERIPHERAL_DISK => (some (ext.Construct .PERIPHERAL_DISK mappedResult), self, [])
  | .PERIPHERAL_NYXBOARD => (some (ext.Construct .PERIPHERAL_NYXBOARD mappedResult), self, [])
  | .PERIPHERAL_TUNER => (some (ext.Construct .PERIPHERAL_TUNER mappedResult), self, [])
  | .PERIPHERAL_BLUETOOTH => (some (ext.Construct .PERIPHERAL_BLUETOOTH mappedResult), self, [])
  | .PERIPHERAL_CEC =>
    if ext.HAVE_LIBCEC then
      if bus.m_type = .PERIPHERAL_BUS_CEC then
        (some (ext.Construct .PERIPHERAL_CEC mappedResult), self, [])
      else
        (none, self, [])
    else if !self.m_bMissingLibCecWarningDisplayed then
      (none, { self with m_bMissingLibCecWarningDisplayed := true }, [.MissingLibCecWarning])
    else
      (none, self, [])
  | .PERIPHERAL_IMON => (some (ext.Construct .PERIPHERAL_IMON mappedResult), self, [])
  | _ => (none, self, [])

/-- The function `CPeripherals::CreatePeripheral(bus, result)`: the returned
peripheral (`none` for a null pointer), the registry and the bus afterwards,
and the effects. -/
def CreatePeripheral (ext : Externals) (self : CPeripherals) (bus : CPeripheralBus)
    (result : PeripheralScanResult) :
    Option CPeripheral × CPeripherals × CPeripheralBus × List Event :=
  let mappedResult :=
    if result.m_busType = .PERIPHERAL_BUS_UNKNOWN then { result with m_busType := bus.m_type }
    else result
  match GetMappingForDevice self.m_mappings bus mappedResult with
  | (false, _) => (none, self, bus, [])
  | (true, mappedResult) =>
    match constructPeripheral ext self bus mappedResult with
    | (none, self, events) => (none, self, bus, events)
    | (some peripheral, self, events) =>
      match ext.PeripheralInitialise self.m_mappings peripheral with
      | (true, peripheral) => (some peripheral, self, ext.Register bus peripheral, events)
      | (false, _) => (none, self, bus, events)

/-! ## Registry life cycle -/

/-- The loop `for (iBusPtr = size - 1; iBusPtr >= 0; iBusPtr--)` of `Initialise`;
`n` is `iBusPtr + 1`.  A bus whose `Initialise()` fails is deleted and erased
from `m_busses`. -/
def initialiseBusses (ext : Externals) (n : Nat) (m_busses : List CPeripheralBus)
    (events : List Event) : Except Fault (List CPeripheralBus × List Event) :=
  match n with
  | 0 => .ok (m_busses, events)
  | iBusPtr + 1 =>
    match m_busses.get? iBusPtr with
    | none => .error .outOfRange
    | some bus =>
      if !ext.BusInitialise bus then
        initialiseBusses ext iBusPtr (m_busses.eraseIdx iBusPtr)
          (events ++ [.BusInitialise bus false, .BusDeleted bus])
      else
        initialiseBusses ext iBusPtr m_busses (events ++ [.BusInitialise bus true])

/-- The busses pushed by `Initialise`, as selected by the preprocessor. -/
def newBusses (ext : Externals) : List CPeripheralBus :=
  (if ext.HAVE_PERIPHERAL_BUS_USB then
    [{ m_type := .PERIPHERAL_BUS_USB, m_peripherals := [] }] else []) ++
  (if ext.HAVE_LIBCEC then
    [{ m_type := .PERIPHERAL_BUS_CEC, m_peripherals := [] }] else [])

/-- The function `CPeripherals::Initialise()`: the registry afterwards and the
effects, in order.  The value returned by `LoadMappings()` is not used. -/
def Initialise (ext : Externals) (fuel : Nat) (self : CPeripherals) :
    Except Fault (CPeripherals × List Event) :=
  if !self.m_bIsStarted then
    match LoadMappings ext fuel self.m_mappings with
    | .error f => .error f
    | .ok (_, m_mappings) =>
      let m_busses := self.m_busses ++ newBusses ext
      match initialiseBusses ext m_busses.length m_busses [] with
      | .error f => .error f
      | .ok (m_busses, events) =>
        .ok ({ self with m_bIsStarted := true, m_bInitialised := true,
                         m_busses := m_busses, m_mappings := m_mappings },
             [.CreateDirectory "special://profile/peripheral_data", .LoadMappings] ++
               (newBusses ext).map (fun b => .BusCreated b.m_type) ++ events)
  else
    .ok (self, [])

/-- The function `CPeripherals::Clear()`: busses and mappings are released and
the flags reset; the warning flag is only reset when built without libCEC. -/
def Clear (ext : Externals) (self : CPeripherals) : CPeripherals × List Event :=
  ({ m_bIsStarted := false
     m_bInitialised := false
     m_bMissingLibCecWarningDisplayed :=
       if !ext.HAVE_LIBCEC then false else self.m_bMissingLibCecWarningDisplayed
     m_busses := []
     m_mappings := [] },
   self.m_busses.map (fun b => .BusDeleted b))

/-! ## Feature queries -/

/-- The loop of `CPeripherals::GetPeripheralsWithFeature`: busses that fail the
type filter are skipped, the others append to `results`; `iReturn` adds up
the counts the busses return. -/
def GetPeripheralsWithFeature (ext : Externals) (m_busses : List CPeripheralBus)
    (results : List CPeripheral) (feature : PeripheralFeature) (busType : PeripheralBusType)
    (iReturn : Int) : List CPeripheral × Int :=
  match m_busses with
  | [] => (results, iReturn)
  | bus :: rest =>
    if busType ≠ .PERIPHERAL_BUS_UNKNOWN ∧ bus.m_type ≠ busType then
      GetPeripheralsWithFeature ext rest results feature busType iReturn
    else
      let r := ext.BusGetPeripheralsWithFeature bus results feature
      GetPeripheralsWithFeature ext rest r.1 feature busType (iReturn + r.2)

/-- The `for` loop of `ToggleDeviceState` over `peripherals`, from
`iPeripheralPtr` on (`remaining` are the entries at `iPeripheralPtr` and after
it): every visited device receives the state change, and the loop is left
after the first one when `iPeripheral` is not zero.  The entries are the
non-null pointers the busses appended, so the test `if (cecDevice)` holds. -/
def toggleLoop (ext : Externals) (mode : CecStateChange) (iPeripheral : Nat)
    (remaining : List CPeripheral) (ret : Bool) (events : List Event) : Bool × List Event :=
  match remaining with
  | [] => (ret, events)
  | cecDevice :: rest =>
    let ret := ext.CecToggleDeviceState cecDevice mode
    let events := events ++ [.CecToggleDeviceState cecDevice mode]
    if iPeripheral ≠ 0 then (ret, events)
    else toggleLoop ext mode iPeripheral rest ret events

/-- The function `CPeripherals::ToggleDeviceState(mode, iPeripheral)`: the return
value and the state changes forwarded to devices, in order. -/
def ToggleDeviceState (ext : Externals) (self : CPeripherals) (mode : CecStateChange)
    (iPeripheral : Nat) : Bool × List Event :=
  let query :=
    GetPeripheralsWithFeature ext self.m_busses [] .FEATURE_CEC .PERIPHERAL_BUS_UNKNOWN 0
  if ext.SupportsCEC && decide (query.2 ≠ 0) then
    toggleLoop ext mode iPeripheral (query.1.drop iPeripheral) false []
  else
    (false, [])

/-- The function `CPeripherals::HasPeripheralWithFeature(feature, busType)`. -/
def HasPeripheralWithFeature (ext : Externals) (self : CPeripherals) (feature : PeripheralFeature)
    (busType : PeripheralBusType) : Bool :=
  decide ((GetPeripheralsWithFeature ext self.m_busses [] feature busType 0).2 > 0)

/-! ## CEC operations -/

/-- The `for` loop of `IsMuted`: true at the first device that reports mute. -/
def isMutedLoop (ext : Externals) (peripherals : List CPeripheral) : Bool :=
  match peripherals with
  | [] => false
  | cecDevice :: rest => if ext.CecIsMuted cecDevice then true else isMutedLoop ext rest

/-- The function `CPeripherals::IsMuted()`. -/
def IsMuted (ext : Externals) (self : CPeripherals) : Bool :=
  let query :=
    GetPeripheralsWithFeature ext self.m_busses [] .FEATURE_CEC .PERIPHERAL_BUS_UNKNOWN 0
  if ext.SupportsCEC && decide (query.2 ≠ 0) then isMutedLoop ext query.1 else false

/-- The `for` loop of `ToggleMute`: the first device with audio control has its
mute toggled, and the function returns true. -/
def toggleMuteLoop (ext : Externals) (peripherals : List CPeripheral) : Bool × List Event :=
  match peripherals with
  | [] => (false, [])
  | cecDevice :: rest =>
    if ext.CecHasAudioControl cecDevice then (true, [.CecToggleMute cecDevice])
    else toggleMuteLoop ext rest

/-- The function `CPeripherals::ToggleMute()`: the return value and the calls
forwarded to devices. -/
def ToggleMute (ext : Externals) (self : CPeripherals) : Bool × List Event :=
  let query :=
    GetPeripheralsWithFeature ext self.m_busses [] .FEATURE_CEC .PERIPHERAL_BUS_UNKNOWN 0
  if ext.SupportsCEC && decide (query.2 ≠ 0) then toggleMuteLoop ext query.1 else (false, [])

/-- The `for` loop of `GetNextKeypress`: the first device with a pending button
gives the key and has its button reset. -/
def getNextKeypressLoop (ext : Externals) (peripherals : List CPeripheral) (key : CKey) :
    Bool × CKey × List Event :=
  match peripherals with
  | [] => (false, key, [])
  | cecDevice :: rest =>
    if ext.CecGetButton cecDevice ≠ 0 then
      (true, { button := ext.CecGetButton cecDevice, held := ext.CecGetHoldTime cecDevice },
       [.CecResetButton cecDevice])
    else getNextKeypressLoop ext rest key

/-- The function `CPeripherals::GetNextKeypress(frameTime, key)`: the return
value, the caller's key afterwards and the calls forwarded to devices
(`frameTime` is not used by the body). -/
def GetNextKeypress (ext : Externals) (self : CPeripherals) (key : CKey) :
    Bool × CKey × List Event :=
  let query :=
    GetPeripheralsWithFeature ext self.m_busses [] .FEATURE_CEC .PERIPHERAL_BUS_UNKNOWN 0
  if ext.SupportsCEC && decide (query.2 ≠ 0) then getNextKeypressLoop ext query.1 key
  else (false, key, [])

/-- The `for` loop of `OnAction` for a volume action: the first device with
audio control has its volume changed, and the function returns true. -/
def volumeLoop (ext : Externals) (action : CAction) (peripherals : List CPeripheral) :
    Bool × List Event :=
  match peripherals with
  | [] => (false, [])
  | cecDevice :: rest =>
    if ext.CecHasAudioControl cecDevice then
      if action.GetID = .ACTION_VOLUME_UP then (true, [.CecVolumeUp cecDevice])
      else (true, [.CecVolumeDown cecDevice])
    else volumeLoop ext action rest

/-- The function `CPeripherals::OnAction(action)`: the return value and the calls
forwarded to devices. -/
def OnAction (ext : Externals) (self : CPeripherals) (action : CAction) : Bool × List Event :=
  if action.GetID = .ACTION_MUTE then ToggleMute ext self
  else if ext.SupportsCEC && action.amountNonZero &&
      decide (action.GetID = .ACTION_VOLUME_UP ∨ action.GetID = .ACTION_VOLUME_DOWN) then
    let query :=
      GetPeripheralsWithFeature ext self.m_busses [] .FEATURE_CEC .PERIPHERAL_BUS_UNKNOWN 0
    if query.2 ≠ 0 then volumeLoop ext action query.1 else (false, [])
  else (false, [])

/-! ## Bus lookups -/

/-- The loop of `CPeripherals::TriggerDeviceScan(type)`: the scans asked of the
busses, in order; after a scan the loop is left when a specific type was
asked for. -/
def triggerDeviceScanLoop (type : PeripheralBusType) (m_busses : List CPeripheralBus) :
    List Event :=
  match m_busses with
  | [] => []
  | bus :: rest =>
    if type = .PERIPHERAL_BUS_UNKNOWN ∨ bus.m_type = type then
      if type ≠ .PERIPHERAL_BUS_UNKNOWN then [.BusTriggerDeviceScan bus]
      else .BusTriggerDeviceScan bus :: triggerDeviceScanLoop type rest
    else triggerDeviceScanLoop type rest

/-- The function `CPeripherals::TriggerDeviceScan(type)`. -/
def TriggerDeviceScan (self : CPeripherals) (type : PeripheralBusType) : List Event :=
  triggerDeviceScanLoop type self.m_busses

/-- The loop of `CPeripherals::GetBusByType(type)`. -/
def GetBusByType (m_busses : List CPeripheralBus) (type : PeripheralBusType) :
    Option CPeripheralBus :=
  match m_busses with
  | [] => none
  | bus :: rest => if bus.m_type = type then some bus else GetBusByType rest type

/-- The loop of `CPeripherals::GetPeripheralAtLocation(strLocation, busType)`: a
bus that fails the type filter is skipped (`continue`), and the loop is left
at the first bus whose `GetPeripheral` is not null. -/
def GetPeripheralAtLocation (ext : Externals) (m_busses : List CPeripheralBus)
    (strLocation : String) (busType : PeripheralBusType) : Option CPeripheral :=
  match m_busses with
  | [] => none
  | bus :: rest =>
    if busType ≠ .PERIPHERAL_BUS_UNKNOWN ∧ bus.m_type ≠ busType then
      GetPeripheralAtLocation ext rest strLocation busType
    else
      match ext.BusGetPeripheral bus strLocation with
      | some peripheral => some peripheral
      | none => GetPeripheralAtLocation ext rest strLocation busType

/-- The function `CPeripherals::HasPeripheralAtLocation(strLocation, busType)`. -/
def HasPeripheralAtLocation (ext : Externals) (m_busses : List CPeripheralBus)
    (strLocation : String) (busType : PeripheralBusType) : Bool :=
  match GetPeripheralAtLocation ext m_busses strLocation busType with
  | some _ => true
  | none => false

/-- The loop of `CPeripherals::GetBusWithDevice(strLocation)`. -/
def GetBusWithDevice (ext : Externals) (m_busses : List CPeripheralBus) (strLocation : String) :
    Option CPeripheralBus :=
  match m_busses with
  | [] => none
  | bus :: rest =>
    if ext.BusHasPeripheral bus strLocation then some bus
    else GetBusWithDevice ext rest strLocation

/-! ## Virtual paths -/

/-- The bus segment `strBus` that `GetDirectory` and `GetByPath` cut out of a
path: the text between the 14 characters of the scheme and the next `/`. -/
def busSegment (strPath : String) : String :=
  let strPathCut := Right strPath ((strPath.toList.length : Int) - 14)
  Left strPathCut (Find strPathCut '/')

/-- The loop of `CPeripherals::GetDirectory`: the path is forwarded to every
bus when the segment equals `all`, else to the busses whose type name equals
the segment. -/
def getDirectoryLoop (ext : Externals) (strBus strPath : String)
    (m_busses : List CPeripheralBus) (items : CFileItemList) (events : List Event) :
    CFileItemList × List Event :=
  match m_busses with
  | [] => (items, events)
  | bus :: rest =>
    if ext.Equals strBus "all" || ext.Equals strBus (ext.BusTypeToString bus.m_type) then
      getDirectoryLoop ext strBus strPath rest (ext.BusGetDirectory bus strPath items)
        (events ++ [.BusGetDirectory bus strPath])
    else
      getDirectoryLoop ext strBus strPath rest items events

/-- The function `CPeripherals::GetDirectory(strPath, items)`: the items
afterwards and the busses the path was forwarded to. -/
def GetDirectory (ext : Externals) (self : CPeripherals) (strPath : String)
    (items : CFileItemList) : CFileItemList × List Event :=
  if !ext.Equals (Left strPath 14) "peripherals://" then (items, [])
  else getDirectoryLoop ext (busSegment strPath) strPath self.m_busses items []

/-- The loop of `CPeripherals::GetByPath`: the answer of the first bus whose type
name equals the segment is returned; the segment is not compared with `all`. -/
def getByPathLoop (ext : Externals) (strBus strPath : String) (m_busses : List CPeripheralBus) :
    Option CPeripheral × List Event :=
  match m_busses with
  | [] => (none, [])
  | bus :: rest =>
    if ext.Equals strBus (ext.BusTypeToString bus.m_type) then
      (ext.BusGetByPath bus strPath, [.BusGetByPath bus strPath])
    else
      getByPathLoop ext strBus strPath rest

/-- The function `CPeripherals::GetByPath(strPath)`: the returned peripheral
(`none` for null) and the bus that was consulted, if any. -/
def GetByPath (ext : Externals) (self : CPeripherals) (strPath : String) :
    Option CPeripheral × List Event :=
  if !ext.Equals (Left strPath 14) "peripherals://" then (none, [])
  else getByPathLoop ext (busSegment strPath) strPath self.m_busses

/-! ## The collaborators as the specification describes them -/

/-- Modelled from the spec: `StringUtils::SplitString` for a one-character
delimiter on a list of characters; the pieces between consecutive delimiters,
`current` being the piece under construction. -/
def splitChars (delimiter : Char) (input : List Char) (current : List Char) : List String :=
  match input with
  | [] => [String.mk current]
  | c :: rest =>
    if c = delimiter then String.mk current :: splitChars delimiter rest []
    else splitChars delimiter rest (current ++ [c])

/-- Modelled from the spec: `StringUtils::SplitString` (utils/StringUtils.cpp),
used for the "comma-separated list" of "vendor:product" pairs: the pieces of
`input` between delimiters. -/
def specSplitString (input delimiter : String) : List String :=
  match delimiter.toList with
  | [d] => splitChars d input.toList []
  | _ => [input]

/-- Modelled from the spec: `CUtil::Tokenize` (Util.cpp), used for the
"pipe-separated" `lvalues`: the non-empty pieces between delimiters. -/
def specTokenize (input delimiters : String) : List String :=
  (specSplitString input delimiters).filter (fun t => !t.isEmpty)

/-- The value of a hexadecimal digit. -/
def hexDigit (c : Char) : Option Nat :=
  if c.isDigit then some (c.toNat - 48)
  else if 'a' ≤ c ∧ c ≤ 'f' then some (c.toNat - 87)
  else if 'A' ≤ c ∧ c ≤ 'F' then some (c.toNat - 55)
  else none

/-- Reads hexadecimal digits from the front of `cs`, `acc` being the value
read so far. -/
def hexChars (cs : List Char) (acc : Nat) : Nat :=
  match cs with
  | [] => acc
  | c :: rest =>
    match hexDigit c with
    | some d => hexChars rest (16 * acc + d)
    | none => acc

/-- Modelled from the spec: `PeripheralTypeTranslator::HexStringToInt`
(PeripheralTypes.h), the value of a "hex" vendor or product id. -/
def specHexStringToInt (text : String) : Int :=
  (hexChars text.toList 0 : Nat)

/-- Modelled from the spec: `PeripheralTypeTranslator::GetBusTypeFromString`
(PeripheralTypes.h), "symbolic name → enum lookup; unrecognized names resolve
to the Unknown/wildcard sentinel". -/
def specGetBusTypeFromString (text : Option String) : PeripheralBusType :=
  match text.map toLowerAscii with
  | some "usb" => .PERIPHERAL_BUS_USB
  | some "pci" => .PERIPHERAL_BUS_PCI
  | some "rpi" => .PERIPHERAL_BUS_RPI
  | some "cec" => .PERIPHERAL_BUS_CEC
  | _ => .PERIPHERAL_BUS_UNKNOWN

/-- Modelled from the spec: `PeripheralTypeTranslator::GetTypeFromString`
(PeripheralTypes.h), "symbolic name → enum lookup; unrecognized names resolve
to the Unknown/wildcard sentinel". -/
def specGetTypeFromString (text : Option String) : PeripheralType :=
  match text.map toLowerAscii with
  | some "hid" => .PERIPHERAL_HID
  | some "nic" => .PERIPHERAL_NIC
  | some "disk" => .PERIPHERAL_DISK
  | some "nyxboard" => .PERIPHERAL_NYXBOARD
  | some "cec" => .PERIPHERAL_CEC
  | some "bluetooth" => .PERIPHERAL_BLUETOOTH
  | some "tuner" => .PERIPHERAL_TUNER
  | some "imon" => .PERIPHERAL_IMON
  | _ => .PERIPHERAL_UNKNOWN

/-- Modelled from the spec: `CPeripheral::AddSetting` (devices/Peripheral.cpp);
settings are accumulated "keyed by setting key, later matches overwriting
earlier ones". -/
def specAddSetting (peripheral : CPeripheral) (key : String) (setting : CSetting) : CPeripheral :=
  { peripheral with m_settings := peripheral.m_settings.set key setting }

/-- Modelled from the spec: the constructors of the peripheral classes
(devices/Peripheral*.h); a Peripheral carries the bus type, device class,
vendor and product id, location and friendly name of the scan result it is
created from, and no setting yet. -/
def specConstruct (_type : PeripheralType) (scanResult : PeripheralScanResult) : CPeripheral :=
  { m_type := scanResult.m_type
    m_busType := scanResult.m_busType
    m_strLocation := scanResult.m_strLocation
    m_strDeviceName := scanResult.m_strDeviceName
    m_iVendorId := scanResult.m_iVendorId
    m_iProductId := scanResult.m_iProductId
    m_settings := []
    m_features := [] }

/-- Modelled from the spec: `PeripheralTypeTranslator::BusTypeToString`
(PeripheralTypes.h), the "literal bus-type name" of a bus type. -/
def specBusTypeToString (type : PeripheralBusType) : String :=
  match type with
  | .PERIPHERAL_BUS_USB => "usb"
  | .PERIPHERAL_BUS_PCI => "pci"
  | .PERIPHERAL_BUS_RPI => "rpi"
  | .PERIPHERAL_BUS_CEC => "cec"
  | .PERIPHERAL_BUS_UNKNOWN => "unknown"

/-- Modelled from the spec: `CPeripheralBus::GetPeripheral` (bus/PeripheralBus.cpp),
"getPeripheral(location) -> Peripheral?" on a bus "indexed by location". -/
def specBusGetPeripheral (bus : CPeripheralBus) (location : String) : Option CPeripheral :=
  bus.m_peripherals.find? (fun p => decide (p.m_strLocation = location))

/-- Modelled from the spec: `CPeripheralBus::GetByPath` (bus/PeripheralBus.cpp); a
path has the form "<scheme>//<busName>/<rest>", and the bus resolves it to
its peripheral located at `<rest>`. -/
def specBusGetByPath (bus : CPeripheralBus) (path : String) : Option CPeripheral :=
  let strPathCut := Right path ((path.toList.length : Int) - 14)
  let rest := String.mk (strPathCut.toList.drop (Find strPathCut '/' + 1).toNat)
  specBusGetPeripheral bus rest

/-- Modelled from the spec: the collaborators of `Peripherals.cpp` as the
specification describes them, for a build with the USB bus and without
libCEC, reading the mapping document `xmlDoc`.  Settings "from the matching
rule(s)" are applied when the peripheral initialises itself; `register` "takes
ownership" of the peripheral; a bus appends its peripherals with the feature
and returns the "count added"; a directory listing of a bus adds one
item per peripheral it holds. -/
def specExternals (xmlDoc : Option CXBMCTinyXML) : Externals :=
  { HAVE_PERIPHERAL_BUS_USB := true
    HAVE_LIBCEC := false
    LoadFile := xmlDoc
    SplitString := specSplitString
    Equals := fun a b => decide (strcmpi a b = 0)
    Tokenize := specTokenize
    HexStringToInt := specHexStringToInt
    GetBusTypeFromString := specGetBusTypeFromString
    GetTypeFromString := specGetTypeFromString
    BusInitialise := fun _ => true
    Register := fun bus peripheral =>
      { bus with m_peripherals := bus.m_peripherals ++ [peripheral] }
    BusGetPeripheralsWithFeature := fun bus results feature =>
      let found := bus.m_peripherals.filter (fun p => decide (feature ∈ p.m_features))
      (results ++ found, (found.length : Int))
    Construct := specConstruct
    PeripheralInitialise := fun m_mappings peripheral =>
      (true, GetSettingsFromMapping specAddSetting m_mappings peripheral)
    AddSetting := specAddSetting
    SupportsCEC := false
    CecToggleDeviceState := fun _ _ => true
    BusTypeToString := specBusTypeToString
    BusGetPeripheral := specBusGetPeripheral
    BusHasPeripheral := fun bus location => (specBusGetPeripheral bus location).isSome
    BusGetByPath := specBusGetByPath
    BusGetDirectory := fun bus _ items => items ++ bus.m_peripherals.map (fun p => p.m_strLocation)
    CecHasAudioControl := fun _ => true
    CecIsMuted := fun _ => false
    CecGetButton := fun _ => 0
    CecGetHoldTime := fun _ => 0 }

/-! ## Sample data -/

/-- A bare scan result for a device `vendor:product` of class `type`. -/
def scanResult (busType : PeripheralBusType) (type : PeripheralType) (vendor product : Int) :
    PeripheralScanResult :=
  { m_type := type, m_strLocation := "1-1", m_iVendorId := vendor, m_iProductId := product,
    m_mappedType := .PERIPHERAL_UNKNOWN, m_strDeviceName := "", m_busType := busType }

/-- An empty USB bus. -/
def usbBus : CPeripheralBus :=
  { m_type := .PERIPHERAL_BUS_USB, m_peripherals := [] }

/-- An integer setting with the default bounds of the loader. -/
def intSetting (key : String) (value : Int) : CSetting :=
  { id := key, label := -1, visible := true, value := .int value 0 1 255 "" }

/-- Wildcard rule A of the merge scenario: no identity, settings x = 1, y = 2. -/
def ruleA : PeripheralDeviceMapping :=
  { m_PeripheralID := [], m_busType := .PERIPHERAL_BUS_UNKNOWN, m_class := .PERIPHERAL_UNKNOWN,
    m_strDeviceName := "generic", m_mappedTo := .PERIPHERAL_HID,
    m_settings := [("x", intSetting "x" 1), ("y", intSetting "y" 2)] }

/-- Specific rule B of the merge scenario: device 1234:abcd, setting y = 9. -/
def ruleB : PeripheralDeviceMapping :=
  { m_PeripheralID := [{ m_iVendorId := 0x1234, m_iProductId := 0xabcd }],
    m_busType := .PERIPHERAL_BUS_USB, m_class := .PERIPHERAL_UNKNOWN,
    m_strDeviceName := "specific", m_mappedTo := .PERIPHERAL_DISK,
    m_settings := [("y", intSetting "y" 9)] }

/-- A peripheral 1234:abcd on the USB bus, without settings. -/
def samplePeripheral : CPeripheral :=
  { m_type := .PERIPHERAL_HID, m_busType := .PERIPHERAL_BUS_USB, m_strLocation := "1-1",
    m_strDeviceName := "specific", m_iVendorId := 0x1234, m_iProductId := 0xabcd,
    m_settings := [], m_features := [] }

/-- A rule for device 1234:abcd on the USB bus only. -/
def ruleUsb1234 : PeripheralDeviceMapping :=
  { m_PeripheralID := [{ m_iVendorId := 0x1234, m_iProductId := 0xabcd }],
    m_busType := .PERIPHERAL_BUS_USB, m_class := .PERIPHERAL_UNKNOWN,
    m_strDeviceName := "", m_mappedTo := .PERIPHERAL_HID,
    m_settings := [("foo", { id := "foo", label := -1, visible := true, value := .bool true })] }

/-- A started registry whose rule table is `m_mappings`, with one USB bus. -/
def sampleRegistry (m_mappings : List PeripheralDeviceMapping) : CPeripherals :=
  { m_bIsStarted := true, m_bInitialised := true, m_bMissingLibCecWarningDisplayed := false,
    m_busses := [usbBus], m_mappings := m_mappings }

/-- The value a key has after the settings pass, computed rule by rule:
`base` is the value so far, and a matching rule that declares the key
replaces it. -/
def mergedFind (m_mappings : List PeripheralDeviceMapping) (peripheral : CPeripheral)
    (key : String) (base : Option CSetting) : Option CSetting :=
  match m_mappings with
  | [] => base
  | mapping :: rest =>
    mergedFind rest peripheral key
      (if settingsMappingMatches mapping peripheral then
        (match mapping.m_settings.find key with
         | some s => some s
         | none => base)
       else base)

/-- A `setting` element with the given key, of type bool. -/
def boolSettingElement (key value : String) : TiXmlElement :=
  .mk "setting" [("key", key), ("type", "bool"), ("value", value)] []

/-- A `peripheral` element whose first `setting` has an empty key and whose
second `setting` is the well-formed `foo`. -/
def emptyKeyRule : TiXmlElement :=
  .mk "peripheral" [("vendor_product", "1234:abcd"), ("bus", "usb"), ("mapTo", "hid")]
    [boolSettingElement "" "yes", boolSettingElement "foo" "yes"]

/-- The conditions under which the loop body returns for a `setting` element:
its key is not empty, and a bool setting has a `value` attribute. -/
def settingReturns (ext : Externals) (node : TiXmlElement) : Bool :=
  !(CStdString (node.Attribute "key")).isEmpty &&
    (!(ext.Equals (CStdString (node.Attribute "type")) "bool") ||
      (node.Attribute "value").isSome)

/-- The settings `GetSettingsFromMappingsFile` returns for a `peripheral` element
(the empty map when it does not return). -/
def settingsOf (ext : Externals) (fuel : Nat) (xmlNode : TiXmlElement) : SettingsMap :=
  match GetSettingsFromMappingsFile ext fuel xmlNode [] with
  | .ok m => m
  | .error _ => []

/-- The effects of initialising one bus in `Initialise`: a failing bus is
deleted right away. -/
def busEvents (ext : Externals) (bus : CPeripheralBus) : List Event :=
  if ext.BusInitialise bus then [.BusInitialise bus true]
  else [.BusInitialise bus false, .BusDeleted bus]

/-- The effects of initialising the busses from the last one to the first. -/
def initialiseEvents (ext : Externals) : List CPeripheralBus → List Event
  | [] => []
  | bus :: rest => initialiseEvents ext rest ++ busEvents ext bus

/-- The registry as the constructor leaves it. -/
def emptyRegistry : CPeripherals :=
  { m_bIsStarted := false, m_bInitialised := false, m_bMissingLibCecWarningDisplayed := false,
    m_busses := [], m_mappings := [] }

/-- A mapping document whose root element is `devices`, with one rule. -/
def badRootDocument : CXBMCTinyXML :=
  { RootElement := some (.mk "devices" []
      [.mk "peripheral" [("vendor_product", "1234:abcd"), ("bus", "usb"), ("mapTo", "hid")] []]) }

/-- The mapping document of the end-to-end scenario: one rule for 1234:abcd on
the USB bus, mapped to hid, with the bool setting foo = yes. -/
def sampleDocument : CXBMCTinyXML :=
  { RootElement := some (.mk "peripherals" []
      [.mk "peripheral" [("vendor_product", "1234:abcd"), ("bus", "usb"), ("mapTo", "hid")]
        [boolSettingElement "foo" "yes"]]) }

/-- A registry in use: started, warning shown, a bus holding a peripheral, and
the rules A and B in its table. -/
def usedRegistry : CPeripherals :=
  { m_bIsStarted := true, m_bInitialised := true, m_bMissingLibCecWarningDisplayed := true,
    m_busses := [{ m_type := .PERIPHERAL_BUS_USB, m_peripherals := [samplePeripheral] }],
    m_mappings := [ruleA, ruleB] }

/-- The collaborators of `specExternals` for a build with libCEC. -/
def cecExternals : Externals :=
  { specExternals none with HAVE_LIBCEC := true, SupportsCEC := true }

/-- A CEC adapter at the given location. -/
def cecAdapter (location : String) : CPeripheral :=
  { m_type := .PERIPHERAL_CEC, m_busType := .PERIPHERAL_BUS_CEC, m_strLocation := location,
    m_strDeviceName := "CEC adapter", m_iVendorId := 0x2548, m_iProductId := 0x1001,
    m_settings := [], m_features := [.FEATURE_CEC] }

/-- A registry whose CEC bus holds three adapters. -/
def cecRegistry : CPeripherals :=
  { m_bIsStarted := true, m_bInitialised := true, m_bMissingLibCecWarningDisplayed := false,
    m_busses := [{ m_type := .PERIPHERAL_BUS_CEC,
                   m_peripherals := [cecAdapter "a", cecAdapter "b", cecAdapter "c"] }],
    m_mappings := [] }

/-- The identity a `vendor_product` entry stands for, in the words of the spec:
an entry that splits into exactly two `:`-separated tokens gives the pair of
their hexadecimal values, any other entry gives nothing. -/
def twoTokenIdentity (ext : Externals) (entry : String) : Option PeripheralID :=
  match ext.SplitString entry ":" with
  | [vendor, product] =>
    some { m_iVendorId := ext.HexStringToInt vendor, m_iProductId := ext.HexStringToInt product }
  | _ => none

/-- A mapping document with two rules: the first lists the entries `0451`,
`1234:abcd` and `12:34:56` and has the setting foo, the second lists `0451`
only. -/
def malformedIdentityDocument : CXBMCTinyXML :=
  { RootElement := some (.mk "peripherals" []
      [.mk "peripheral"
         [("name", "first"), ("vendor_product", "0451,1234:abcd,12:34:56"), ("bus", "usb"),
          ("class", "hid"), ("mapTo", "hid")]
         [boolSettingElement "foo" "yes"],
       .mk "peripheral"
         [("name", "second"), ("vendor_product", "0451"), ("bus", "usb"), ("mapTo", "disk")]
         []]) }

/-- A mapping document declaring a single rule with the attributes
`vendor_product`, `bus` and `mapTo`, and one setting of type bool. -/
def singleRuleDocument (vp bus mapTo key value : String) : CXBMCTinyXML :=
  { RootElement := some (.mk "peripherals" []
      [.mk "peripheral" [("vendor_product", vp), ("bus", bus), ("mapTo", mapTo)]
        [boolSettingElement key value]]) }

/-- The rule of `singleRuleDocument` once loaded, `vendor` and `product` being
the two tokens of its identity pair. -/
def singleRule (ext : Externals) (vendor product bus mapTo key value : String) :
    PeripheralDeviceMapping :=
  { m_PeripheralID :=
      [{ m_iVendorId := ext.HexStringToInt vendor, m_iProductId := ext.HexStringToInt product }]
    m_busType := ext.GetBusTypeFromString (some bus)
    m_class := ext.GetTypeFromString none
    m_strDeviceName := ""
    m_mappedTo := ext.GetTypeFromString (some mapTo)
    m_settings :=
      [(key, { id := key, label := -1, visible := true,
               value := .bool (decide (strcmp value "no" ≠ 0) &&
                 decide (strcmp value "false" ≠ 0) && decide (strcmp value "0" ≠ 0)) })] }

/-! ## Sequences of calls and registered locations -/

/-- The resolution step at the head of `CreatePeripheral`: the bus type of the
scan result is defaulted to the type of the bus, then the rule table is
consulted. -/
def resolve (m_mappings : List PeripheralDeviceMapping) (bus : CPeripheralBus)
    (result : PeripheralScanResult) : Bool × PeripheralScanResult :=
  GetMappingForDevice m_mappings bus
    (if result.m_busType = .PERIPHERAL_BUS_UNKNOWN then { result with m_busType := bus.m_type }
     else result)

/-- The scan result resolves, and to the peripheral type `type`. -/
def resolvesTo (m_mappings : List PeripheralDeviceMapping) (bus : CPeripheralBus)
    (result : PeripheralScanResult) (type : PeripheralType) : Bool :=
  (resolve m_mappings bus result).1 && decide ((resolve m_mappings bus result).2.m_mappedType = type)

/-- The resolved types for which the `switch` of `CreatePeripheral` constructs a
peripheral: every named type but CEC, and CEC on the CEC bus of a build with
libCEC. -/
def constructible (ext : Externals) (bus : CPeripheralBus) (type : PeripheralType) : Bool :=
  match type with
  | .PERIPHERAL_UNKNOWN => false
  | .PERIPHERAL_CEC => ext.HAVE_LIBCEC && decide (bus.m_type = .PERIPHERAL_BUS_CEC)
  | _ => true

/-- A sequence of `CreatePeripheral` calls on one registry, each with the bus and
the scan result it is made for: the registry afterwards and, per call, the
returned peripheral, the bus afterwards and the effects. -/
def createPeripherals (ext : Externals) (self : CPeripherals)
    (calls : List (CPeripheralBus × PeripheralScanResult)) :
    CPeripherals × List (Option CPeripheral × CPeripheralBus × List Event) :=
  match calls with
  | [] => (self, [])
  | call :: rest =>
    let r := CreatePeripheral ext self call.1 call.2
    let t := createPeripherals ext r.2.1 rest
    (t.1, (r.1, r.2.2.1, r.2.2.2) :: t.2)

/-- The call `CreatePeripheral(*this, result)` made by the bus at index `iBusPtr` of
`m_busses`: the returned peripheral and the registry afterwards, the bus
being written back in place. -/
def CreatePeripheralAt (ext : Externals) (self : CPeripherals) (iBusPtr : Nat)
    (result : PeripheralScanResult) : Option CPeripheral × CPeripherals :=
  match self.m_busses.get? iBusPtr with
  | none => (none, self)
  | some bus =>
    let r := CreatePeripheral ext self bus result
    (r.1, { r.2.1 with m_busses := r.2.1.m_busses.set iBusPtr r.2.2.1 })

/-- The number of peripherals a bus holds at `location`. -/
def registeredOn (bus : CPeripheralBus) (location : String) : Nat :=
  bus.m_peripherals.countP (fun p => decide (p.m_strLocation = location))

/-- The number of peripherals the busses hold at `location`. -/
def registrations (m_busses : List CPeripheralBus) (location : String) : Nat :=
  match m_busses with
  | [] => 0
  | bus :: rest => registeredOn bus location + registrations rest location

/-- Every location is registered on at most one bus, and at most once there. -/
def LocationsUnique (self : CPeripherals) : Prop :=
  ∀ location : String, registrations self.m_busses location ≤ 1

/-- The states of the registry reached from the one the constructor leaves
through `Initialise`, `Clear` and `CreatePeripheral` calls of the busses, where
every `CreatePeripheral` call is made for a location that no bus holds. -/
inductive ReachableFresh (ext : Externals) : CPeripherals → Prop
  | constructed : ReachableFresh ext emptyRegistry
  | initialise (fuel : Nat) (self s : CPeripherals) (events : List Event) :
      ReachableFresh ext self → Initialise ext fuel self = .ok (s, events) →
      ReachableFresh ext s
  | clear (self : CPeripherals) :
      ReachableFresh ext self → ReachableFresh ext (Clear ext self).1
  | create (self : CPeripherals) (iBusPtr : Nat) (result : PeripheralScanResult) :
      ReachableFresh ext self → registrations self.m_busses result.m_strLocation = 0 →
      ReachableFresh ext (CreatePeripheralAt ext self iBusPtr result).2

/-- A rule that maps every device to the CEC adapter type. -/
def ruleCec : PeripheralDeviceMapping :=
  { m_PeripheralID := [], m_busType := .PERIPHERAL_BUS_UNKNOWN, m_class := .PERIPHERAL_UNKNOWN,
    m_strDeviceName := "CEC adapter", m_mappedTo := .PERIPHERAL_CEC, m_settings := [] }

/-- The collaborators of `specExternals` with a peripheral `Initialise()` that
fails. -/
def failingInitExternals : Externals :=
  { specExternals none with PeripheralInitialise := fun _ peripheral => (false, peripheral) }

/-- The collaborators of `specExternals` for a build with libCEC, reading the
mapping document `xmlDoc`. -/
def cecBuildExternals (xmlDoc : Option CXBMCTinyXML) : Externals :=
  { specExternals xmlDoc with HAVE_LIBCEC := true, SupportsCEC := true }

/-- A mapping document with one wildcard rule mapping every device to hid. -/
def wildcardDocument : CXBMCTinyXML :=
  { RootElement := some (.mk "peripherals" []
      [.mk "peripheral" [("name", "generic"), ("mapTo", "hid")] []]) }

/-- A USB bus holding the peripheral 1234:abcd at location 1-1. -/
def usbBusWithDevice : CPeripheralBus :=
  { m_type := .PERIPHERAL_BUS_USB, m_peripherals := [samplePeripheral] }

/-- A started registry whose USB bus holds one peripheral without CEC. -/
def usbRegistry : CPeripherals :=
  { m_bIsStarted := true, m_bInitialised := true, m_bMissingLibCecWarningDisplayed := false,
    m_busses := [usbBusWithDevice], m_mappings := [ruleUsb1234] }

/-- A `peripheral` element with three enum settings: `mode` lists only a
separator, `empty` lists nothing, `level` lists three values. -/
def enumRule : TiXmlElement :=
  .mk "peripheral" [("name", "enums"), ("mapTo", "hid")]
    [.mk "setting" [("key", "mode"), ("type", "enum"), ("value", "1"), ("lvalues", "|")] [],
     .mk "setting" [("key", "empty"), ("type", "enum"), ("value", "1"), ("lvalues", "")] [],
     .mk "setting" [("key", "level"), ("type", "enum"), ("value", "2"), ("lvalues", "1|2|3")] []]

/-- A mapping document with one wildcard rule mapping every device to cec. -/
def cecDocument : CXBMCTinyXML :=
  { RootElement := some (.mk "peripherals" []
      [.mk "peripheral" [("name", "CEC adapter"), ("mapTo", "cec")] []]) }

/-- An empty CEC bus. -/
def cecBus : CPeripheralBus :=
  { m_type := .PERIPHERAL_BUS_CEC, m_peripherals := [] }

/-- A started registry with an empty USB bus and an empty CEC bus, whose rule
table is `m_mappings`. -/
def twoBusRegistry (m_mappings : List PeripheralDeviceMapping) : CPeripherals :=
  { m_bIsStarted := true, m_bInitialised := true, m_bMissingLibCecWarningDisplayed := false,
    m_busses := [usbBus, cecBus], m_mappings := m_mappings }

/-- The peripheral the collaborators of `specExternals` build and initialise
for the device 1234:abcd under the rule `ruleUsb1234`. -/
def createdPeripheral : CPeripheral :=
  { m_type := .PERIPHERAL_UNKNOWN, m_busType := .PERIPHERAL_BUS_USB, m_strLocation := "1-1",
    m_strDeviceName := "", m_iVendorId := 0x1234, m_iProductId := 0xabcd,
    m_settings := [("foo", { id := "foo", label := -1, visible := true, value := .bool true })],
    m_features := [] }

/-- The rule of `wildcardDocument` once loaded. -/
def ruleGeneric : PeripheralDeviceMapping :=
  { m_PeripheralID := [], m_busType := .PERIPHERAL_BUS_UNKNOWN, m_class := .PERIPHERAL_UNKNOWN,
    m_strDeviceName := "generic", m_mappedTo := .PERIPHERAL_HID, m_settings := [] }

/-- The peripheral the collaborators of `specExternals` build for the device
0001:0002 at location 1-1 under the rule `ruleGeneric`, on a bus of type
`busType`. -/
def genericPeripheral (busType : PeripheralBusType) : CPeripheral :=
  { m_type := .PERIPHERAL_UNKNOWN, m_busType := busType, m_strLocation := "1-1",
    m_strDeviceName := "generic", m_iVendorId := 1, m_iProductId := 2,
    m_settings := [], m_features := [] }

/-- The type filter of the bus loops: `busType` is the wildcard or the type of
the bus. -/
def passesFilter (busType : PeripheralBusType) (bus : CPeripheralBus) : Bool :=
  decide (busType = .PERIPHERAL_BUS_UNKNOWN ∨ bus.m_type = busType)

/-- One query of a bus in `GetPeripheralsWithFeature`: the bus works on the
results so far, and its count is added to the running count. -/
def queryBus (ext : Externals) (feature : PeripheralFeature)
    (acc : List CPeripheral × Int) (bus : CPeripheralBus) : List CPeripheral × Int :=
  ((ext.BusGetPeripheralsWithFeature bus acc.1 feature).1,
   acc.2 + (ext.BusGetPeripheralsWithFeature bus acc.1 feature).2)

/-- A USB bus holding a CEC adapter and the peripheral 1234:abcd. -/
def mixedUsbBus : CPeripheralBus :=
  { m_type := .PERIPHERAL_BUS_USB, m_peripherals := [cecAdapter "u", samplePeripheral] }

/-- A registry with the mixed USB bus and a CEC bus holding two adapters. -/
def mixedRegistry : CPeripherals :=
  { m_bIsStarted := true, m_bInitialised := true, m_bMissingLibCecWarningDisplayed := false,
    m_busses := [mixedUsbBus,
                 { m_type := .PERIPHERAL_BUS_CEC,
                   m_peripherals := [cecAdapter "a", cecAdapter "b"] }],
    m_mappings := [] }

/-- The peripherals of a bus that carry `feature`. -/
def featurePeripherals (feature : PeripheralFeature) (bus : CPeripheralBus) : List CPeripheral :=
  bus.m_peripherals.filter (fun p => decide (feature ∈ p.m_features))

/-! ## Resolver and settings pass side by side -/

/-- The settings of the given rules handed to `AddSetting`, rule after rule: what
the settings pass does for "every matching rule" once the matching rules are
known. -/
def applyRules (AddSetting : CPeripheral → String → CSetting → CPeripheral)
    (rules : List PeripheralDeviceMapping) (peripheral : CPeripheral) : CPeripheral :=
  match rules with
  | [] => peripheral
  | rule :: rest =>
    applyRules AddSetting rest (addSettingsLoop AddSetting rule.m_settings peripheral)

/-- The bus type a scan result carries into the constructor: its own, or the
type of the calling bus when it is unset. -/
def defaultedBusType (bus : CPeripheralBus) (result : PeripheralScanResult) : PeripheralBusType :=
  if result.m_busType = .PERIPHERAL_BUS_UNKNOWN then bus.m_type else result.m_busType

/-- The peripheral the collaborators of `specExternals` build for the device
1234:abcd when its scan result names the CEC bus: no setting is applied. -/
def cecTypedPeripheral : CPeripheral :=
  { m_type := .PERIPHERAL_UNKNOWN, m_busType := .PERIPHERAL_BUS_CEC, m_strLocation := "1-1",
    m_strDeviceName := "", m_iVendorId := 0x1234, m_iProductId := 0xabcd,
    m_settings := [], m_features := [] }

/-- The element with its attribute `name` removed: the same declaration
written without that attribute. -/
def withoutAttribute (node : TiXmlElement) (name : String) : TiXmlElement :=
  match node with
  | .mk value attributes children =>
    .mk value (attributes.filter (fun a => a.1 != name)) children

/-- A `peripheral` element whose `vendor_product` attribute is the single
malformed entry `0451`. -/
def malformedOnlyRule : TiXmlElement :=
  .mk "peripheral"
    [("name", "second"), ("vendor_product", "0451"), ("bus", "usb"), ("mapTo", "disk")] []

/-- The `Initialise()` calls made on busses, with their results, in the order
they happen. -/
def initialiseCalls (events : List Event) : List (CPeripheralBus × Bool) :=
  events.filterMap (fun e =>
    match e with
    | .BusInitialise bus success => some (bus, success)
    | _ => none)

/-- The busses deleted, in the order they are deleted. -/
def deletedBusses (events : List Event) : List CPeripheralBus :=
  events.filterMap (fun e =>
    match e with
    | .BusDeleted bus => some bus
    | _ => none)

/-- The collaborators of `cecBuildExternals` with a USB bus whose `Initialise()`
fails. -/
def usbFailsExternals (xmlDoc : Option CXBMCTinyXML) : Externals :=
  { cecBuildExternals xmlDoc with
    BusInitialise := fun bus => decide (bus.m_type = PeripheralBusType.PERIPHERAL_BUS_CEC) }

/-- The collaborators of `cecBuildExternals` with busses whose `Initialise()`
fails. -/
def allFailExternals (xmlDoc : Option CXBMCTinyXML) : Externals :=
  { cecBuildExternals xmlDoc with BusInitialise := fun _ => false }

/-- A mapping document rooted at `peripherals` whose only rule is
`emptyKeyRule`, the rule with an empty-key setting. -/
def emptyKeyDocument : CXBMCTinyXML :=
  { RootElement := some (.mk "peripherals" [] [emptyKeyRule]) }

/-- The collaborators `ext`, reading the mapping document `xmlDoc`. -/
def withDocument (ext : Externals) (xmlDoc : CXBMCTinyXML) : Externals :=
  { ext with LoadFile := some xmlDoc }

/-! ## Mapping resolver: first match wins -/

theorem productMatchLoop_eq (ids : List PeripheralID) (v p : Int) (b : Bool) :
    productMatchLoop ids v p b =
      (b || decide (({ m_iVendorId := v, m_iProductId := p } : PeripheralID) ∈ ids)) := by
  induction ids generalizing b with
  | nil => simp [productMatchLoop]
  | cons id rest ih =>
    obtain ⟨iv, ip⟩ := id
    by_cases h : iv = v ∧ ip = p
    · obtain ⟨rfl, rfl⟩ := h
      simp [productMatchLoop, ih]
    · have hne : ¬ (v = iv ∧ p = ip) := fun h2 => h ⟨h2.1.symm, h2.2.symm⟩
      simp [productMatchLoop, ih, h, hne]

theorem mappingMatches_iff (mapping : PeripheralDeviceMapping) (busType : PeripheralBusType)
    (v p : Int) (t : PeripheralType) :
    mappingMatches mapping busType v p t = true ↔
      (mapping.m_PeripheralID = [] ∨
        ({ m_iVendorId := v, m_iProductId := p } : PeripheralID) ∈ mapping.m_PeripheralID) ∧
      (mapping.m_busType = .PERIPHERAL_BUS_UNKNOWN ∨ mapping.m_busType = busType) ∧
      (mapping.m_class = .PERIPHERAL_UNKNOWN ∨ mapping.m_class = t) := by
  unfold mappingMatches
  by_cases h : mapping.m_PeripheralID = []
  · simp [h, and_assoc]
  · have hl : mapping.m_PeripheralID.length ≠ 0 := by
      simpa [List.length_eq_zero] using h
    simp [h, hl, productMatchLoop_eq, and_assoc]

theorem GetMappingForDevice_none (m_mappings : List PeripheralDeviceMapping) (bus : CPeripheralBus)
    (result : PeripheralScanResult)
    (h : ∀ mapping ∈ m_mappings,
      mappingMatches mapping bus.m_type result.m_iVendorId result.m_iProductId result.m_type
        = false) :
    GetMappingForDevice m_mappings bus result = (false, result) := by
  induction m_mappings with
  | nil => rfl
  | cons m rest ih =>
    have hm := h m (List.mem_cons_self _ _)
    simp only [GetMappingForDevice, hm]
    exact ih (fun x hx => h x (List.mem_cons_of_mem _ hx))

theorem GetMappingForDevice_at (m_mappings : List PeripheralDeviceMapping) (bus : CPeripheralBus)
    (result : PeripheralScanResult) (i : Nat) (hi : i < m_mappings.length)
    (hmatch : mappingMatches m_mappings[i] bus.m_type result.m_iVendorId result.m_iProductId
      result.m_type = true)
    (hfirst : ∀ j (hj : j < i),
      mappingMatches (m_mappings[j]) bus.m_type result.m_iVendorId result.m_iProductId
        result.m_type = false) :
    GetMappingForDevice m_mappings bus result =
      (true, { result with m_mappedType := m_mappings[i].m_mappedTo,
                           m_strDeviceName := m_mappings[i].m_strDeviceName }) := by
  induction m_mappings generalizing i with
  | nil => simp at hi
  | cons m rest ih =>
    cases i with
    | zero =>
      simp only [List.getElem_cons_zero] at hmatch
      simp [GetMappingForDevice, hmatch]
    | succ k =>
      have h0 := hfirst 0 (Nat.succ_pos k)
      simp only [List.getElem_cons_zero] at h0
      simp only [List.getElem_cons_succ] at hmatch
      simp only [GetMappingForDevice, h0, List.getElem_cons_succ]
      have hk : k < rest.length := by simpa using hi
      refine ih k hk hmatch ?_
      intro j hj
      have := hfirst (j + 1) (Nat.succ_lt_succ hj)
      simpa using this

/-- C1: a rule matches iff its identity list is empty or holds the device's
vendor/product pair, its bus filter is Unknown or the type of the bus, and its
class filter is Unknown or the device class; when the rule at index `i`
matches and no rule before it does, `GetMappingForDevice` returns true and
writes the mapped type and device name of rule `i` into the scan result,
whatever the rules after it declare. -/
theorem GetMappingForDevice_first_match_wins (m_mappings : List PeripheralDeviceMapping)
    (bus : CPeripheralBus) (result : PeripheralScanResult) :
    (∀ mapping : PeripheralDeviceMapping,
      mappingMatches mapping bus.m_type result.m_iVendorId result.m_iProductId result.m_type
          = true ↔
        (mapping.m_PeripheralID = [] ∨
          ({ m_iVendorId := result.m_iVendorId, m_iProductId := result.m_iProductId } :
            PeripheralID) ∈ mapping.m_PeripheralID) ∧
        (mapping.m_busType = .PERIPHERAL_BUS_UNKNOWN ∨ mapping.m_busType = bus.m_type) ∧
        (mapping.m_class = .PERIPHERAL_UNKNOWN ∨ mapping.m_class = result.m_type)) ∧
    (∀ (i : Nat) (hi : i < m_mappings.length),
      mappingMatches m_mappings[i] bus.m_type result.m_iVendorId result.m_iProductId
          result.m_type = true →
      (∀ j (hj : j < i),
        mappingMatches (m_mappings[j]) bus.m_type result.m_iVendorId result.m_iProductId
          result.m_type = false) →
      GetMappingForDevice m_mappings bus result =
        (true, { result with m_mappedType := m_mappings[i].m_mappedTo,
                             m_strDeviceName := m_mappings[i].m_strDeviceName })) :=
  ⟨fun mapping => mappingMatches_iff mapping _ _ _ _,
   fun i hi hmatch hfirst => GetMappingForDevice_at m_mappings bus result i hi hmatch hfirst⟩

/-- C1 at a concrete table: rules A and B both match the device 1234:abcd on
the USB bus; the result carries the type and name of A, not those of B. -/
theorem GetMappingForDevice_first_match_wins_witness :
    mappingMatches ruleA .PERIPHERAL_BUS_USB 0x1234 0xabcd .PERIPHERAL_UNKNOWN = true ∧
    mappingMatches ruleB .PERIPHERAL_BUS_USB 0x1234 0xabcd .PERIPHERAL_UNKNOWN = true ∧
    GetMappingForDevice [ruleA, ruleB] usbBus
        (scanResult .PERIPHERAL_BUS_USB .PERIPHERAL_UNKNOWN 0x1234 0xabcd) =
      (true, { scanResult .PERIPHERAL_BUS_USB .PERIPHERAL_UNKNOWN 0x1234 0xabcd with
                 m_mappedType := .PERIPHERAL_HID, m_strDeviceName := "generic" }) :=
  ⟨by decide, by decide,
   (GetMappingForDevice_first_match_wins [ruleA, ruleB] usbBus
      (scanResult .PERIPHERAL_BUS_USB .PERIPHERAL_UNKNOWN 0x1234 0xabcd)).2 0 (by decide)
      (by decide) (fun j hj => absurd hj (Nat.not_lt_zero j))⟩

/-! ## Unmapped devices are not created -/

theorem CreatePeripheral_no_match (ext : Externals) (self : CPeripherals)
    (bus : CPeripheralBus) (result : PeripheralScanResult)
    (h : ∀ mapping ∈ self.m_mappings,
      mappingMatches mapping bus.m_type result.m_iVendorId result.m_iProductId result.m_type
        = false) :
    CreatePeripheral ext self bus result = (none, self, bus, []) := by
  unfold CreatePeripheral
  by_cases hb : result.m_busType = .PERIPHERAL_BUS_UNKNOWN
  · simp only [hb, if_true]
    rw [GetMappingForDevice_none self.m_mappings bus _ (by simpa using h)]
  · simp only [hb, if_false]
    rw [GetMappingForDevice_none self.m_mappings bus _ h]

/-- C2: when no rule of the table matches the scan result on the bus,
`CreatePeripheral` returns no peripheral, raises no effect, and leaves the bus
(hence the peripherals registered on it) and the registry as they were; an
empty rule table is the case where the condition holds for every device. -/
theorem CreatePeripheral_unmapped (ext : Externals) (self : CPeripherals) (bus : CPeripheralBus)
    (result : PeripheralScanResult)
    (h : ∀ mapping ∈ self.m_mappings,
      mappingMatches mapping bus.m_type result.m_iVendorId result.m_iProductId result.m_type
        = false) :
    CreatePeripheral ext self bus result = (none, self, bus, []) := by
  have hdefault : GetMappingForDevice self.m_mappings bus
      (if result.m_busType = .PERIPHERAL_BUS_UNKNOWN then { result with m_busType := bus.m_type }
       else result) =
      (false, if result.m_busType = .PERIPHERAL_BUS_UNKNOWN then
        { result with m_busType := bus.m_type } else result) := by
    apply GetMappingForDevice_none
    split_ifs <;> simpa using h
  unfold CreatePeripheral
  simp only [hdefault]

/-- C2 at a concrete table: the only rule asks for 1234:abcd, the device is
1234:ffff; nothing is created and nothing is registered on the bus. -/
theorem CreatePeripheral_unmapped_witness :
    (∀ mapping ∈ (sampleRegistry [ruleUsb1234]).m_mappings,
      mappingMatches mapping usbBus.m_type 0x1234 0xffff .PERIPHERAL_UNKNOWN = false) ∧
    CreatePeripheral (specExternals none) (sampleRegistry [ruleUsb1234]) usbBus
        (scanResult .PERIPHERAL_BUS_USB .PERIPHERAL_UNKNOWN 0x1234 0xffff) =
      (none, sampleRegistry [ruleUsb1234], usbBus, []) :=
  ⟨by decide,
   CreatePeripheral_unmapped (specExternals none) (sampleRegistry [ruleUsb1234]) usbBus
     (scanResult .PERIPHERAL_BUS_USB .PERIPHERAL_UNKNOWN 0x1234 0xffff) (by decide)⟩

/-! ## Settings pass: union of the matching rules, later rule wins -/

theorem find_set_self (m : SettingsMap) (k : String) (s : CSetting) :
    (m.set k s).find k = some s := by
  induction m with
  | nil => simp [SettingsMap.set, SettingsMap.find]
  | cons e rest ih =>
    obtain ⟨k0, s0⟩ := e
    unfold SettingsMap.set
    split_ifs with h1 h2
    · simp [SettingsMap.find]
    · simp [SettingsMap.find]
    · simp [SettingsMap.find, h2, ih]

theorem find_set_ne (m : SettingsMap) (k key : String) (s : CSetting) (hne : key ≠ k) :
    (m.set k s).find key = m.find key := by
  induction m with
  | nil => simp [SettingsMap.set, SettingsMap.find, hne]
  | cons e rest ih =>
    obtain ⟨k0, s0⟩ := e
    unfold SettingsMap.set
    split_ifs with h1 h2
    · simp [SettingsMap.find, hne]
    · subst h2
      simp [SettingsMap.find, hne]
    · simp [SettingsMap.find, ih]

theorem find_eq_none_of_not_mem (m : SettingsMap) (key : String)
    (h : key ∉ m.map Prod.fst) : m.find key = none := by
  induction m with
  | nil => rfl
  | cons e rest ih =>
    obtain ⟨k0, s0⟩ := e
    simp only [List.map_cons, List.mem_cons, not_or] at h
    simp [SettingsMap.find, h.1, ih h.2]

theorem addSettingsLoop_device (L : SettingsMap) (p : CPeripheral) :
    addSettingsLoop specAddSetting L p =
      { p with m_settings := (addSettingsLoop specAddSetting L p).m_settings } := by
  induction L generalizing p with
  | nil => rfl
  | cons e rest ih =>
    obtain ⟨k, s⟩ := e
    simp only [addSettingsLoop]
    rw [ih]
    simp [specAddSetting]

theorem addSettingsLoop_find (L : SettingsMap) (p : CPeripheral) (key : String)
    (hu : L.UniqueKeys) :
    (addSettingsLoop specAddSetting L p).m_settings.find key =
      (match L.find key with
       | some s => some s
       | none => p.m_settings.find key) := by
  induction L generalizing p with
  | nil => rfl
  | cons e rest ih =>
    obtain ⟨k, s⟩ := e
    have hu2 : k ∉ rest.map Prod.fst ∧ SettingsMap.UniqueKeys rest := by
      simpa [SettingsMap.UniqueKeys] using hu
    simp only [addSettingsLoop]
    rw [ih _ hu2.2]
    by_cases hk : key = k
    · subst hk
      simp [SettingsMap.find, find_eq_none_of_not_mem rest key hu2.1, specAddSetting,
        find_set_self]
    · simp [SettingsMap.find, hk, specAddSetting, find_set_ne _ _ _ _ hk]

theorem settingsMappingMatches_settings (mapping : PeripheralDeviceMapping) (p : CPeripheral)
    (m : SettingsMap) :
    settingsMappingMatches mapping { p with m_settings := m } =
      settingsMappingMatches mapping p := rfl

theorem GetSettingsFromMapping_device (ms : List PeripheralDeviceMapping) (p : CPeripheral) :
    GetSettingsFromMapping specAddSetting ms p =
      { p with m_settings := (GetSettingsFromMapping specAddSetting ms p).m_settings } := by
  induction ms generalizing p with
  | nil => rfl
  | cons m rest ih =>
    simp only [GetSettingsFromMapping]
    split_ifs with h
    · rw [ih, addSettingsLoop_device]
    · rw [ih]

theorem mergedFind_settings (ms : List PeripheralDeviceMapping) (p : CPeripheral)
    (m : SettingsMap) (key : String) (base : Option CSetting) :
    mergedFind ms { p with m_settings := m } key base = mergedFind ms p key base := by
  induction ms generalizing base with
  | nil => rfl
  | cons r rest ih =>
    simp only [mergedFind, settingsMappingMatches_settings]
    exact ih _

theorem GetSettingsFromMapping_find (ms : List PeripheralDeviceMapping) (p : CPeripheral)
    (key : String) (hu : ∀ mapping ∈ ms, mapping.m_settings.UniqueKeys) :
    (GetSettingsFromMapping specAddSetting ms p).m_settings.find key =
      mergedFind ms p key (p.m_settings.find key) := by
  induction ms generalizing p with
  | nil => rfl
  | cons r rest ih =>
    have hr := hu r (List.mem_cons_self _ _)
    have hrest : ∀ mapping ∈ rest, mapping.m_settings.UniqueKeys :=
      fun x hx => hu x (List.mem_cons_of_mem _ hx)
    simp only [GetSettingsFromMapping, mergedFind]
    split_ifs with h
    · rw [ih _ hrest, addSettingsLoop_find _ _ _ hr, addSettingsLoop_device,
        mergedFind_settings]
    · exact ih _ hrest

theorem mergedFind_append (a b : List PeripheralDeviceMapping) (p : CPeripheral) (key : String)
    (base : Option CSetting) :
    mergedFind (a ++ b) p key base = mergedFind b p key (mergedFind a p key base) := by
  induction a generalizing base with
  | nil => rfl
  | cons r rest ih =>
    simp only [List.cons_append, mergedFind]
    exact ih _

theorem mergedFind_undeclared (ms : List PeripheralDeviceMapping) (p : CPeripheral) (key : String)
    (base : Option CSetting)
    (h : ∀ mapping ∈ ms, settingsMappingMatches mapping p = true →
      mapping.m_settings.find key = none) :
    mergedFind ms p key base = base := by
  induction ms generalizing base with
  | nil => rfl
  | cons r rest ih =>
    have hrest : ∀ mapping ∈ rest, settingsMappingMatches mapping p = true →
        mapping.m_settings.find key = none :=
      fun x hx => h x (List.mem_cons_of_mem _ hx)
    simp only [mergedFind]
    by_cases hm : settingsMappingMatches r p = true
    · simp [hm, h r (List.mem_cons_self _ _) hm, ih base hrest]
    · simp [hm, ih base hrest]

/-- C3: with `AddSetting` storing a setting under its key as the spec words it,
and the settings of each rule keyed uniquely, a key that no matching rule
declares keeps the value the peripheral had (none, for a new peripheral), and
a key declared by a matching rule ends with the setting of the last matching
rule that declares it: the settings are the union over all matching rules,
later rules winning. -/
theorem GetSettingsFromMapping_union_later_wins (m_mappings : List PeripheralDeviceMapping)
    (peripheral : CPeripheral) (key : String)
    (hu : ∀ mapping ∈ m_mappings, mapping.m_settings.UniqueKeys) :
    ((∀ mapping ∈ m_mappings, settingsMappingMatches mapping peripheral = true →
        mapping.m_settings.find key = none) →
      (GetSettingsFromMapping specAddSetting m_mappings peripheral).m_settings.find key =
        peripheral.m_settings.find key) ∧
    (∀ (earlier : List PeripheralDeviceMapping) (rule : PeripheralDeviceMapping)
        (later : List PeripheralDeviceMapping) (setting : CSetting),
      m_mappings = earlier ++ rule :: later →
      settingsMappingMatches rule peripheral = true →
      rule.m_settings.find key = some setting →
      (∀ mapping ∈ later, settingsMappingMatches mapping peripheral = true →
        mapping.m_settings.find key = none) →
      (GetSettingsFromMapping specAddSetting m_mappings peripheral).m_settings.find key =
        some setting) := by
  rw [GetSettingsFromMapping_find m_mappings peripheral key hu]
  refine ⟨fun h => mergedFind_undeclared _ _ _ _ h, ?_⟩
  intro earlier rule later setting hsplit hmatch hfind hlater
  subst hsplit
  rw [mergedFind_append]
  simp only [mergedFind, hmatch, hfind, if_true]
  exact mergedFind_undeclared _ _ _ _ hlater

/-- C3 on the scenario of the spec: wildcard rule A with x = 1, y = 2 before
specific rule B with y = 9; a device matched by both ends with x = 1, y = 9. -/
theorem GetSettingsFromMapping_union_later_wins_witness :
    (GetSettingsFromMapping specAddSetting [ruleA, ruleB] samplePeripheral).m_settings.find "x"
      = some (intSetting "x" 1) ∧
    (GetSettingsFromMapping specAddSetting [ruleA, ruleB] samplePeripheral).m_settings.find "y"
      = some (intSetting "y" 9) ∧
    (GetSettingsFromMapping specAddSetting [ruleA, ruleB] samplePeripheral).m_settings
      = [("x", intSetting "x" 1), ("y", intSetting "y" 9)] :=
  ⟨(GetSettingsFromMapping_union_later_wins [ruleA, ruleB] samplePeripheral "x"
      (by decide)).2 [] ruleA [ruleB] (intSetting "x" 1) rfl (by decide) (by decide)
      (by decide),
   (GetSettingsFromMapping_union_later_wins [ruleA, ruleB] samplePeripheral "y"
      (by decide)).2 [ruleA] ruleB [] (intSetting "y" 9) rfl (by decide) (by decide)
      (by decide),
   by decide⟩

/-! ## Settings loader: the empty-key `continue` -/

theorem settingsLoop_empty_key (ext : Externals) (fuel : Nat) (currentNode : TiXmlElement)
    (siblings : List TiXmlElement) (m : SettingsMap)
    (hkey : (CStdString (currentNode.Attribute "key")).isEmpty = true) :
    settingsLoop ext fuel (currentNode :: siblings) m = .error .outOfFuel := by
  induction fuel with
  | zero => rfl
  | succ n ih =>
    unfold settingsLoop
    simp only [hkey, if_true]
    exact ih

theorem newSetting_returns (ext : Externals) (node : TiXmlElement) (key : String)
    (h : settingReturns ext node = true) :
    ∃ r, newSetting ext node key = .ok r := by
  unfold settingReturns at h
  simp only [Bool.and_eq_true, Bool.or_eq_true, Bool.not_eq_true'] at h
  unfold newSetting
  by_cases hb : ext.Equals (CStdString (node.Attribute "type")) "bool" = true
  · have hv : (node.Attribute "value").isSome = true := by
      rcases h.2 with h2 | h2
      · rw [hb] at h2
        exact absurd h2 (by decide)
      · exact h2
    obtain ⟨v, hv⟩ := Option.isSome_iff_exists.mp hv
    simp only [hb, if_true, hv]
    exact ⟨_, rfl⟩
  · have hbf : ext.Equals (CStdString (node.Attribute "type")) "bool" = false := by
      simpa using hb
    simp only [hbf, Bool.false_eq_true, if_false]
    split_ifs <;> exact ⟨_, rfl⟩

theorem settingsLoop_returns (ext : Externals) (fuel : Nat) (nodes : List TiXmlElement)
    (m : SettingsMap) (hnodes : ∀ n ∈ nodes, settingReturns ext n = true)
    (hfuel : nodes.length ≤ fuel) :
    ∃ r, settingsLoop ext fuel nodes m = .ok r := by
  induction nodes generalizing fuel m with
  | nil =>
    cases fuel <;> exact ⟨m, by simp [settingsLoop]⟩
  | cons node rest ih =>
    cases fuel with
    | zero => simp at hfuel
    | succ k =>
      have hnode := hnodes node (List.mem_cons_self _ _)
      have hrest : ∀ n ∈ rest, settingReturns ext n = true :=
        fun x hx => hnodes x (List.mem_cons_of_mem _ hx)
      have hk : rest.length ≤ k := by simpa using hfuel
      have hkey : (CStdString (node.Attribute "key")).isEmpty = false := by
        unfold settingReturns at hnode
        simp only [Bool.and_eq_true, Bool.not_eq_true'] at hnode
        exact hnode.1
      obtain ⟨r, hr⟩ := newSetting_returns ext node (CStdString (node.Attribute "key")) hnode
      unfold settingsLoop
      simp only [hkey, hr]
      cases r with
      | none => exact ih k m hrest hk
      | some setting => exact ih k _ hrest hk

theorem GetSettingsFromMappingsFile_settingsOf (ext : Externals) (fuel : Nat)
    (xmlNode : TiXmlElement)
    (hnodes : ∀ n ∈ xmlNode.ChildElements "setting", settingReturns ext n = true)
    (hfuel : (xmlNode.ChildElements "setting").length ≤ fuel) :
    GetSettingsFromMappingsFile ext fuel xmlNode [] = .ok (settingsOf ext fuel xmlNode) := by
  obtain ⟨r, hr⟩ := settingsLoop_returns ext fuel _ [] hnodes hfuel
  have h : GetSettingsFromMappingsFile ext fuel xmlNode [] = .ok r := hr
  simp [settingsOf, h]

/-- C4, the code at the failing input: a `peripheral` element whose first
`setting` has an empty key, followed by the well-formed setting `foo`.  For
every amount of fuel and whatever the collaborators do, the loop is still at
the empty-key element when the fuel is spent: the function does not return,
and `foo` is never parsed. -/
theorem GetSettingsFromMappingsFile_empty_key_never_returns (ext : Externals) (fuel : Nat) :
    GetSettingsFromMappingsFile ext fuel emptyKeyRule [] = .error .outOfFuel :=
  settingsLoop_empty_key ext fuel (boolSettingElement "" "yes")
    [boolSettingElement "foo" "yes"] [] (by decide)

/-! ## Registry life cycle -/

theorem initialiseEvents_append_singleton (ext : Externals) (xs : List CPeripheralBus)
    (b : CPeripheralBus) :
    initialiseEvents ext (xs ++ [b]) = busEvents ext b ++ initialiseEvents ext xs := by
  induction xs with
  | nil => simp [initialiseEvents]
  | cons x rest ih => simp [initialiseEvents, ih, List.append_assoc]

theorem initialiseBusses_eq (ext : Externals) (n : Nat) (m_busses : List CPeripheralBus)
    (events : List Event) (hn : n ≤ m_busses.length) :
    initialiseBusses ext n m_busses events =
      .ok ((m_busses.take n).filter ext.BusInitialise ++ m_busses.drop n,
           events ++ initialiseEvents ext (m_busses.take n)) := by
  induction n generalizing m_busses events with
  | zero => simp [initialiseBusses, initialiseEvents]
  | succ k ih =>
    have hk : k < m_busses.length := hn
    have hget : m_busses.get? k = some m_busses[k] := by
      simp [List.getElem?_eq_getElem hk]
    have htake : m_busses.take (k + 1) = m_busses.take k ++ [m_busses[k]] := by
      rw [List.take_succ, List.getElem?_eq_getElem hk]
      rfl
    have hdrop : m_busses.drop k = m_busses[k] :: m_busses.drop (k + 1) :=
      List.drop_eq_getElem_cons hk
    unfold initialiseBusses
    simp only [hget]
    by_cases hinit : ext.BusInitialise m_busses[k] = true
    · simp only [hinit, Bool.not_true, Bool.false_eq_true, if_false]
      rw [ih m_busses _ (Nat.le_of_lt hk), htake, initialiseEvents_append_singleton, hdrop]
      simp only [List.filter_append, List.filter_cons, List.filter_nil, hinit, busEvents,
        if_true, List.append_assoc, List.singleton_append, List.cons_append, List.nil_append]
    · have hfalse : ext.BusInitialise m_busses[k] = false := by simpa using hinit
      have herase : m_busses.eraseIdx k = m_busses.take k ++ m_busses.drop (k + 1) :=
        List.eraseIdx_eq_take_drop_succ m_busses k
      have hlen : (m_busses.take k).length = k := by
        simp [List.length_take, Nat.le_of_lt hk]
      have hle : k ≤ (m_busses.eraseIdx k).length := by
        rw [herase, List.length_append, hlen]
        exact Nat.le_add_right _ _
      simp only [hfalse, Bool.not_false, if_true]
      rw [ih _ _ hle, htake, initialiseEvents_append_singleton, herase]
      have h1 : (m_busses.take k ++ m_busses.drop (k + 1)).take k = m_busses.take k := by
        rw [List.take_append_of_le_length (by rw [hlen])]
        rw [List.take_of_length_le (by rw [hlen])]
      have h2 : (m_busses.take k ++ m_busses.drop (k + 1)).drop k = m_busses.drop (k + 1) := by
        rw [List.drop_append_of_le_length (by rw [hlen])]
        rw [List.drop_of_length_le (by rw [hlen])]
        rfl
      rw [h1, h2]
      simp only [List.filter_append, List.filter_cons, List.filter_nil, hfalse, busEvents,
        Bool.false_eq_true, if_false, List.append_assoc, List.singleton_append,
        List.cons_append, List.nil_append, List.append_nil]

theorem Initialise_not_started (ext : Externals) (fuel : Nat) (self : CPeripherals) (b : Bool)
    (maps : List PeripheralDeviceMapping) (hstart : self.m_bIsStarted = false)
    (hload : LoadMappings ext fuel self.m_mappings = .ok (b, maps)) :
    Initialise ext fuel self =
      .ok ({ self with m_bIsStarted := true, m_bInitialised := true,
                       m_busses := (self.m_busses ++ newBusses ext).filter ext.BusInitialise,
                       m_mappings := maps },
           [.CreateDirectory "special://profile/peripheral_data", .LoadMappings] ++
             (newBusses ext).map (fun b => .BusCreated b.m_type) ++
             initialiseEvents ext (self.m_busses ++ newBusses ext)) := by
  unfold Initialise
  simp only [hstart, Bool.not_false, if_true, hload]
  rw [initialiseBusses_eq ext _ _ [] (Nat.le_refl _)]
  simp only [List.take_length, List.drop_length, List.append_nil, List.nil_append,
    List.append_assoc]

theorem LoadMappings_bad_root (ext : Externals) (fuel : Nat)
    (m_mappings : List PeripheralDeviceMapping) (xmlDoc : CXBMCTinyXML)
    (pRootElement : TiXmlElement) (hfile : ext.LoadFile = some xmlDoc)
    (hroot : xmlDoc.RootElement = some pRootElement)
    (hname : strcmpi pRootElement.Value "peripherals" ≠ 0) :
    LoadMappings ext fuel m_mappings = .ok (false, m_mappings) := by
  unfold LoadMappings
  simp only [hfile, hroot]
  rw [if_pos hname]

/-- C5 (amended): when the mapping document loads but its root element is not
`peripherals` (compared ignoring case), `LoadMappings` returns false and leaves
the rule table as it was; `Initialise` does not use that result: from a
registry that is not started it still creates the compiled-in busses,
initialises every bus, keeps the ones that succeed and ends started and
initialised. -/
theorem Initialise_ignores_bad_root (ext : Externals) (fuel : Nat) (self : CPeripherals)
    (xmlDoc : CXBMCTinyXML) (pRootElement : TiXmlElement)
    (hfile : ext.LoadFile = some xmlDoc) (hroot : xmlDoc.RootElement = some pRootElement)
    (hname : strcmpi pRootElement.Value "peripherals" ≠ 0)
    (hstart : self.m_bIsStarted = false) :
    LoadMappings ext fuel self.m_mappings = .ok (false, self.m_mappings) ∧
    Initialise ext fuel self =
      .ok ({ self with m_bIsStarted := true, m_bInitialised := true,
                       m_busses := (self.m_busses ++ newBusses ext).filter ext.BusInitialise,
                       m_mappings := self.m_mappings },
           [.CreateDirectory "special://profile/peripheral_data", .LoadMappings] ++
             (newBusses ext).map (fun b => .BusCreated b.m_type) ++
             initialiseEvents ext (self.m_busses ++ newBusses ext)) :=
  ⟨LoadMappings_bad_root ext fuel _ xmlDoc pRootElement hfile hroot hname,
   Initialise_not_started ext fuel self false self.m_mappings hstart
     (LoadMappings_bad_root ext fuel _ xmlDoc pRootElement hfile hroot hname)⟩

/-- C5 (amended) at a concrete document with root `devices`, from the registry
the constructor leaves. -/
theorem Initialise_ignores_bad_root_witness :
    strcmpi "devices" "peripherals" ≠ 0 ∧
    LoadMappings (specExternals (some badRootDocument)) 0 emptyRegistry.m_mappings =
      .ok (false, []) ∧
    Initialise (specExternals (some badRootDocument)) 0 emptyRegistry =
      .ok ({ emptyRegistry with
               m_bIsStarted := true, m_bInitialised := true,
               m_busses := (emptyRegistry.m_busses ++
                 newBusses (specExternals (some badRootDocument))).filter
                   (specExternals (some badRootDocument)).BusInitialise,
               m_mappings := emptyRegistry.m_mappings },
           [.CreateDirectory "special://profile/peripheral_data", .LoadMappings] ++
             (newBusses (specExternals (some badRootDocument))).map
               (fun b => .BusCreated b.m_type) ++
             initialiseEvents (specExternals (some badRootDocument))
               (emptyRegistry.m_busses ++ newBusses (specExternals (some badRootDocument)))) :=
  ⟨by decide,
   Initialise_ignores_bad_root (specExternals (some badRootDocument)) 0 emptyRegistry
     badRootDocument _ rfl rfl (by decide) rfl⟩

/-- C5 as stated fails: the document exists and its root is `devices`, so
`LoadMappings` returns false, yet `Initialise` creates the USB bus, initialises
it and leaves the registry started and initialised. -/
theorem Initialise_bad_root_starts_registry :
    LoadMappings (specExternals (some badRootDocument)) 0 [] = .ok (false, []) ∧
    Initialise (specExternals (some badRootDocument)) 0 emptyRegistry =
      .ok ({ m_bIsStarted := true, m_bInitialised := true,
             m_bMissingLibCecWarningDisplayed := false,
             m_busses := [usbBus], m_mappings := [] },
           [.CreateDirectory "special://profile/peripheral_data", .LoadMappings,
            .BusCreated .PERIPHERAL_BUS_USB, .BusInitialise usbBus true]) :=
  ⟨rfl, rfl⟩

/-- C9: once a call of `Initialise` has returned, the registry is started, and
a second call returns the very same registry with no effect at all: no
mapping load, no bus created, no bus initialised. -/
theorem Initialise_idempotent (ext : Externals) (fuel fuel2 : Nat) (self s : CPeripherals)
    (events : List Event) (h : Initialise ext fuel self = .ok (s, events)) :
    s.m_bIsStarted = true ∧ Initialise ext fuel2 s = .ok (s, []) := by
  have hstarted : s.m_bIsStarted = true := by
    unfold Initialise at h
    by_cases hs : self.m_bIsStarted = true
    · simp only [hs, Bool.not_true, Bool.false_eq_true, if_false, Except.ok.injEq,
        Prod.mk.injEq] at h
      rw [← h.1]
      exact hs
    · have hf : self.m_bIsStarted = false := by simpa using hs
      simp only [hf, Bool.not_false, if_true] at h
      split at h
      · exact absurd h (by simp)
      · split at h
        · exact absurd h (by simp)
        · simp only [Except.ok.injEq, Prod.mk.injEq] at h
          rw [← h.1]
  refine ⟨hstarted, ?_⟩
  unfold Initialise
  simp [hstarted]

/-- C9 on the sample document: the first call loads the rule and initialises
the USB bus, the second call changes nothing. -/
theorem Initialise_idempotent_witness :
    Initialise (specExternals (some sampleDocument)) 1 emptyRegistry =
      .ok ({ m_bIsStarted := true, m_bInitialised := true,
             m_bMissingLibCecWarningDisplayed := false,
             m_busses := [usbBus], m_mappings := [ruleUsb1234] },
           [.CreateDirectory "special://profile/peripheral_data", .LoadMappings,
            .BusCreated .PERIPHERAL_BUS_USB, .BusInitialise usbBus true]) ∧
    Initialise (specExternals (some sampleDocument)) 1
        { m_bIsStarted := true, m_bInitialised := true,
          m_bMissingLibCecWarningDisplayed := false,
          m_busses := [usbBus], m_mappings := [ruleUsb1234] } =
      .ok ({ m_bIsStarted := true, m_bInitialised := true,
             m_bMissingLibCecWarningDisplayed := false,
             m_busses := [usbBus], m_mappings := [ruleUsb1234] }, []) :=
  ⟨rfl,
   (Initialise_idempotent (specExternals (some sampleDocument)) 1 1 emptyRegistry _ _ rfl).2⟩

/-- The life cycle after `Clear`, for a mapping load that returns: from any
registry, `Clear` leaves both flags false, no bus and no rule
(every bus it held is deleted), and resets the warning flag of a build without
libCEC (a build with libCEC has no such flag to reset).  When the mapping load
returns, an `Initialise` after `Clear` runs the full sequence again: directory,
mapping load, creation of the compiled-in busses, initialisation of each; it
ends started and initialised, holding the busses that initialised and exactly
the rules the load yields on an empty table. -/
theorem Clear_then_Initialise (ext : Externals) (fuel : Nat) (self : CPeripherals) (b : Bool)
    (maps : List PeripheralDeviceMapping) (hload : LoadMappings ext fuel [] = .ok (b, maps)) :
    (Clear ext self).1.m_bIsStarted = false ∧
    (Clear ext self).1.m_bInitialised = false ∧
    (Clear ext self).1.m_busses = [] ∧
    (Clear ext self).1.m_mappings = [] ∧
    (ext.HAVE_LIBCEC = false → (Clear ext self).1.m_bMissingLibCecWarningDisplayed = false) ∧
    (Clear ext self).2 = self.m_busses.map (fun bus => .BusDeleted bus) ∧
    Initialise ext fuel (Clear ext self).1 =
      .ok ({ m_bIsStarted := true, m_bInitialised := true,
             m_bMissingLibCecWarningDisplayed :=
               (Clear ext self).1.m_bMissingLibCecWarningDisplayed,
             m_busses := (newBusses ext).filter ext.BusInitialise,
             m_mappings := maps },
           [.CreateDirectory "special://profile/peripheral_data", .LoadMappings] ++
             (newBusses ext).map (fun bus => .BusCreated bus.m_type) ++
             initialiseEvents ext (newBusses ext)) := by
  refine ⟨rfl, rfl, rfl, rfl, ?_, rfl, ?_⟩
  · intro hcec
    simp [Clear, hcec]
  · rw [Initialise_not_started ext fuel (Clear ext self).1 b maps rfl hload]
    simp [Clear]

/-- The life cycle after `Clear` on a registry in use (rules A and B, a bus with
a peripheral, warning shown): after `Clear` and `Initialise` on the sample document the table holds
the one rule of the document and nothing of A or B, and the USB bus is new. -/
theorem Clear_then_Initialise_witness :
    LoadMappings (specExternals (some sampleDocument)) 1 [] = .ok (true, [ruleUsb1234]) ∧
    (Clear (specExternals (some sampleDocument)) usedRegistry).1 = emptyRegistry ∧
    Initialise (specExternals (some sampleDocument)) 1
        (Clear (specExternals (some sampleDocument)) usedRegistry).1 =
      .ok ({ m_bIsStarted := true, m_bInitialised := true,
             m_bMissingLibCecWarningDisplayed := false,
             m_busses := [usbBus], m_mappings := [ruleUsb1234] },
           [.CreateDirectory "special://profile/peripheral_data", .LoadMappings,
            .BusCreated .PERIPHERAL_BUS_USB, .BusInitialise usbBus true]) :=
  ⟨rfl, rfl,
   (Clear_then_Initialise (specExternals (some sampleDocument)) 1 usedRegistry true
      [ruleUsb1234] rfl).2.2.2.2.2.2⟩

/-! ## Forwarding a CEC state change -/

theorem toggleLoop_targeted (ext : Externals) (mode : CecStateChange) (iPeripheral : Nat)
    (device : CPeripheral) (rest : List CPeripheral) (ret : Bool) (events : List Event)
    (hn : iPeripheral ≠ 0) :
    toggleLoop ext mode iPeripheral (device :: rest) ret events =
      (ext.CecToggleDeviceState device mode, events ++ [.CecToggleDeviceState device mode]) := by
  simp [toggleLoop, hn]

theorem toggleLoop_all (ext : Externals) (mode : CecStateChange) (remaining : List CPeripheral)
    (ret : Bool) (events : List Event) :
    (toggleLoop ext mode 0 remaining ret events).2 =
      events ++ remaining.map (fun d => .CecToggleDeviceState d mode) := by
  induction remaining generalizing ret events with
  | nil => simp [toggleLoop]
  | cons d rest ih => simp [toggleLoop, ih, List.append_assoc]

/-- C8 (amended): in a build that supports CEC and with a feature query that
reports a non-zero count, a target index `N` other than zero makes
`ToggleDeviceState` forward the state change to the peripheral at index `N` of
the query result only and return its answer (and forward nothing when the
list has no index `N`); the index zero makes it forward the state change to
every peripheral of the list, in list order. -/
theorem ToggleDeviceState_targets (ext : Externals) (self : CPeripherals) (mode : CecStateChange)
    (iPeripheral : Nat) (hcec : ext.SupportsCEC = true)
    (hcount : (GetPeripheralsWithFeature ext self.m_busses [] .FEATURE_CEC
      .PERIPHERAL_BUS_UNKNOWN 0).2 ≠ 0) :
    (iPeripheral ≠ 0 → ∀ device : CPeripheral,
      (GetPeripheralsWithFeature ext self.m_busses [] .FEATURE_CEC
        .PERIPHERAL_BUS_UNKNOWN 0).1.get? iPeripheral = some device →
      ToggleDeviceState ext self mode iPeripheral =
        (ext.CecToggleDeviceState device mode, [.CecToggleDeviceState device mode])) ∧
    ((GetPeripheralsWithFeature ext self.m_busses [] .FEATURE_CEC
        .PERIPHERAL_BUS_UNKNOWN 0).1.length ≤ iPeripheral →
      ToggleDeviceState ext self mode iPeripheral = (false, [])) ∧
    (ToggleDeviceState ext self mode 0).2 =
      (GetPeripheralsWithFeature ext self.m_busses [] .FEATURE_CEC
        .PERIPHERAL_BUS_UNKNOWN 0).1.map (fun d => .CecToggleDeviceState d mode) := by
  refine ⟨?_, ?_, ?_⟩
  · intro hn device hget
    have hlt : iPeripheral < (GetPeripheralsWithFeature ext self.m_busses [] .FEATURE_CEC
        .PERIPHERAL_BUS_UNKNOWN 0).1.length := by
      by_contra hge
      rw [List.get?_eq_none.mpr (Nat.le_of_not_lt hge)] at hget
      exact absurd hget (by simp)
    have hdev : (GetPeripheralsWithFeature ext self.m_busses [] .FEATURE_CEC
        .PERIPHERAL_BUS_UNKNOWN 0).1[iPeripheral] = device := by
      rw [List.get?_eq_getElem?, List.getElem?_eq_getElem hlt] at hget
      exact Option.some.inj hget
    unfold ToggleDeviceState
    simp only [hcec, hcount, ne_eq, not_false_eq_true, decide_True, Bool.and_self, if_true]
    rw [List.drop_eq_getElem_cons hlt, hdev, toggleLoop_targeted _ _ _ _ _ _ _ hn]
    rfl
  · intro hlen
    unfold ToggleDeviceState
    simp only [hcec, hcount, ne_eq, not_false_eq_true, decide_True, Bool.and_self, if_true]
    rw [List.drop_of_length_le hlen]
    rfl
  · unfold ToggleDeviceState
    simp only [hcec, hcount, ne_eq, not_false_eq_true, decide_True, Bool.and_self, if_true]
    rw [List.drop_zero, toggleLoop_all]
    rfl

/-- C8 (amended) on a CEC bus with the adapters a, b, c: index 1 reaches b
only, index 0 reaches a, b and c. -/
theorem ToggleDeviceState_targets_witness :
    ToggleDeviceState cecExternals cecRegistry .STATE_STANDBY 1 =
      (true, [.CecToggleDeviceState (cecAdapter "b") .STATE_STANDBY]) ∧
    (ToggleDeviceState cecExternals cecRegistry .STATE_STANDBY 0).2 =
      [.CecToggleDeviceState (cecAdapter "a") .STATE_STANDBY,
       .CecToggleDeviceState (cecAdapter "b") .STATE_STANDBY,
       .CecToggleDeviceState (cecAdapter "c") .STATE_STANDBY] :=
  ⟨(ToggleDeviceState_targets cecExternals cecRegistry .STATE_STANDBY 1 rfl
      (by decide)).1 (by decide) (cecAdapter "b") rfl,
   (ToggleDeviceState_targets cecExternals cecRegistry .STATE_STANDBY 0 rfl
      (by decide)).2.2⟩

/-- C8 as stated fails at index 0: with the adapters a, b, c on the CEC bus,
`ToggleDeviceState(mode, 0)` forwards the state change to b and c as well. -/
theorem ToggleDeviceState_index_zero_reaches_all :
    ToggleDeviceState cecExternals cecRegistry .STATE_STANDBY 0 =
      (true, [.CecToggleDeviceState (cecAdapter "a") .STATE_STANDBY,
              .CecToggleDeviceState (cecAdapter "b") .STATE_STANDBY,
              .CecToggleDeviceState (cecAdapter "c") .STATE_STANDBY]) ∧
    ToggleDeviceState cecExternals cecRegistry .STATE_STANDBY 0 ≠
      (true, [.CecToggleDeviceState (cecAdapter "a") .STATE_STANDBY]) :=
  ⟨by decide, by decide⟩

/-! ## Loading rules: malformed identities are skipped -/

theorem vendorProductLoop_eq (ext : Externals) (vpArray : List String)
    (ids : List PeripheralID) :
    vendorProductLoop ext vpArray ids = ids ++ vpArray.filterMap (twoTokenIdentity ext) := by
  induction vpArray generalizing ids with
  | nil => simp [vendorProductLoop]
  | cons vp rest ih =>
    rcases h : ext.SplitString vp ":" with _ | ⟨a, _ | ⟨b, _ | ⟨c, t⟩⟩⟩ <;>
      simp [vendorProductLoop, List.filterMap_cons, twoTokenIdentity, h, ih, List.append_assoc]

theorem loadMappingsLoop_eq (ext : Externals) (fuel : Nat) (nodes : List TiXmlElement)
    (m_mappings : List PeripheralDeviceMapping)
    (hsettings : ∀ node ∈ nodes, ∀ s ∈ node.ChildElements "setting",
      settingReturns ext s = true)
    (hfuel : ∀ node ∈ nodes, (node.ChildElements "setting").length ≤ fuel) :
    loadMappingsLoop ext fuel nodes m_mappings =
      .ok (m_mappings ++ nodes.map (fun node =>
        { m_PeripheralID :=
            (match node.Attribute "vendor_product" with
             | some vp => (ext.SplitString vp ",").filterMap (twoTokenIdentity ext)
             | none => [])
          m_busType := ext.GetBusTypeFromString (node.Attribute "bus")
          m_class := ext.GetTypeFromString (node.Attribute "class")
          m_strDeviceName := (node.Attribute "name").getD ""
          m_mappedTo := ext.GetTypeFromString (node.Attribute "mapTo")
          m_settings := settingsOf ext fuel node })) := by
  induction nodes generalizing m_mappings with
  | nil => simp [loadMappingsLoop]
  | cons node rest ih =>
    have hs := GetSettingsFromMappingsFile_settingsOf ext fuel node
      (hsettings node (List.mem_cons_self _ _)) (hfuel node (List.mem_cons_self _ _))
    unfold loadMappingsLoop
    unfold loadMapping
    simp only [hs]
    rw [ih _ (fun n hn => hsettings n (List.mem_cons_of_mem _ hn))
      (fun n hn => hfuel n (List.mem_cons_of_mem _ hn))]
    congr 1
    rw [List.map_cons, List.append_assoc, List.singleton_append]
    congr 2
    cases hvp : node.Attribute "vendor_product" <;> cases hname : node.Attribute "name" <;>
      simp [vendorProductLoop_eq]

/-- C6: for a document rooted at `peripherals` whose setting elements all let
the settings loop return, `LoadMappings` appends one rule per `peripheral`
element, in document order.  The identity list of a rule holds exactly the
comma-separated entries of `vendor_product` that split into two tokens at
`:`, in order; any other entry is skipped, and the name, the bus, class and
mapTo fields and the settings of the rule, and all rules after it, are
loaded all the same. -/
theorem LoadMappings_skips_malformed_identities (ext : Externals) (fuel : Nat)
    (m_mappings : List PeripheralDeviceMapping) (xmlDoc : CXBMCTinyXML)
    (pRootElement : TiXmlElement) (hfile : ext.LoadFile = some xmlDoc)
    (hroot : xmlDoc.RootElement = some pRootElement)
    (hname : strcmpi pRootElement.Value "peripherals" = 0)
    (hsettings : ∀ node ∈ pRootElement.ChildElements "peripheral",
      ∀ s ∈ node.ChildElements "setting", settingReturns ext s = true)
    (hfuel : ∀ node ∈ pRootElement.ChildElements "peripheral",
      (node.ChildElements "setting").length ≤ fuel) :
    LoadMappings ext fuel m_mappings =
      .ok (true, m_mappings ++ (pRootElement.ChildElements "peripheral").map (fun node =>
        { m_PeripheralID :=
            (match node.Attribute "vendor_product" with
             | some vp => (ext.SplitString vp ",").filterMap (twoTokenIdentity ext)
             | none => [])
          m_busType := ext.GetBusTypeFromString (node.Attribute "bus")
          m_class := ext.GetTypeFromString (node.Attribute "class")
          m_strDeviceName := (node.Attribute "name").getD ""
          m_mappedTo := ext.GetTypeFromString (node.Attribute "mapTo")
          m_settings := settingsOf ext fuel node })) ∧
    (∀ node ∈ pRootElement.ChildElements "peripheral",
      GetSettingsFromMappingsFile ext fuel node [] = .ok (settingsOf ext fuel node)) := by
  refine ⟨?_, fun node hnode =>
    GetSettingsFromMappingsFile_settingsOf ext fuel node (hsettings node hnode)
      (hfuel node hnode)⟩
  unfold LoadMappings
  simp only [hfile, hroot, hname, ne_eq, not_true_eq_false, if_false]
  rw [loadMappingsLoop_eq ext fuel _ m_mappings hsettings hfuel]

/-- C6 on a document with two rules: of `0451,1234:abcd,12:34:56` only
`1234:abcd` becomes an identity, the rule keeps its fields and its setting,
and the second rule, whose only entry `0451` is skipped, is loaded too. -/
theorem LoadMappings_skips_malformed_identities_witness :
    LoadMappings (specExternals (some malformedIdentityDocument)) 1 [] =
      .ok (true,
        [{ m_PeripheralID := [{ m_iVendorId := 0x1234, m_iProductId := 0xabcd }],
           m_busType := .PERIPHERAL_BUS_USB, m_class := .PERIPHERAL_HID,
           m_strDeviceName := "first", m_mappedTo := .PERIPHERAL_HID,
           m_settings :=
             [("foo", { id := "foo", label := -1, visible := true, value := .bool true })] },
         { m_PeripheralID := [],
           m_busType := .PERIPHERAL_BUS_USB, m_class := .PERIPHERAL_UNKNOWN,
           m_strDeviceName := "second", m_mappedTo := .PERIPHERAL_DISK,
           m_settings := [] }]) :=
  (LoadMappings_skips_malformed_identities (specExternals (some malformedIdentityDocument)) 1 []
    malformedIdentityDocument _ rfl rfl (by decide) (by decide) (by decide)).1

/-! ## Load, then resolve -/

theorem LoadMappings_singleRule (ext : Externals) (fuel : Nat)
    (vp bus mapTo key value vendor product : String)
    (hfile : ext.LoadFile = some (singleRuleDocument vp bus mapTo key value))
    (hcomma : ext.SplitString vp "," = [vp])
    (hcolon : ext.SplitString vp ":" = [vendor, product])
    (hbool : ext.Equals "bool" "bool" = true) (hkey : key.isEmpty = false)
    (hfuel : 0 < fuel) :
    LoadMappings ext fuel [] =
      .ok (true, [singleRule ext vendor product bus mapTo key value]) := by
  obtain ⟨k, rfl⟩ : ∃ k, fuel = k + 1 := ⟨fuel - 1, by omega⟩
  have hset : settingsLoop ext (k + 1) [boolSettingElement key value] [] =
      .ok [(key, { id := key, label := -1, visible := true,
                   value := .bool (decide (strcmp value "no" ≠ 0) &&
                     decide (strcmp value "false" ≠ 0) && decide (strcmp value "0" ≠ 0)) })] := by
    have hk : CStdString ((boolSettingElement key value).Attribute "key") = key := by
      simp [boolSettingElement, TiXmlElement.Attribute, CStdString, List.lookup]
    have ht : CStdString ((boolSettingElement key value).Attribute "type") = "bool" := by
      simp [boolSettingElement, TiXmlElement.Attribute, CStdString, List.lookup]
    have hv : (boolSettingElement key value).Attribute "value" = some value := by
      simp [boolSettingElement, TiXmlElement.Attribute, List.lookup]
    have hl : (boolSettingElement key value).Attribute "label" = none := by
      simp [boolSettingElement, TiXmlElement.Attribute, List.lookup]
    have hc : bConfigurable (boolSettingElement key value) = true := by
      simp [bConfigurable, boolSettingElement, TiXmlElement.Attribute, List.lookup]
    unfold settingsLoop
    simp only [hk, hkey, Bool.false_eq_true, if_false]
    unfold newSetting
    simp only [ht, hbool, if_true, hv, hl, hc]
    cases k <;> simp [settingsLoop, SettingsMap.set]
  unfold LoadMappings
  simp only [hfile, singleRuleDocument]
  have hroot : strcmpi (TiXmlElement.mk "peripherals" []
      [.mk "peripheral" [("vendor_product", vp), ("bus", bus), ("mapTo", mapTo)]
        [boolSettingElement key value]]).Value "peripherals" = 0 := by
    show strcmpi "peripherals" "peripherals" = 0
    decide
  simp only [hroot, ne_eq, not_true_eq_false, if_false]
  have hchildren : (TiXmlElement.mk "peripherals" []
      [.mk "peripheral" [("vendor_product", vp), ("bus", bus), ("mapTo", mapTo)]
        [boolSettingElement key value]]).ChildElements "peripheral" =
      [.mk "peripheral" [("vendor_product", vp), ("bus", bus), ("mapTo", mapTo)]
        [boolSettingElement key value]] := by
    simp [TiXmlElement.ChildElements, TiXmlElement.Value]
  have hsettingChildren : (TiXmlElement.mk "peripheral"
      [("vendor_product", vp), ("bus", bus), ("mapTo", mapTo)]
        [boolSettingElement key value]).ChildElements "setting" =
      [boolSettingElement key value] := by
    simp [TiXmlElement.ChildElements, TiXmlElement.Value, boolSettingElement]
  rw [hchildren]
  simp only [loadMappingsLoop, loadMapping, GetSettingsFromMappingsFile, hsettingChildren, hset]
  simp [TiXmlElement.Attribute, List.lookup, hcomma, hcolon, vendorProductLoop, singleRule]

theorem mappingMatches_singleRule (ext : Externals) (vendor product bus mapTo key value : String)
    (busType : PeripheralBusType) (v p : Int) (t : PeripheralType)
    (hbus : busType = ext.GetBusTypeFromString (some bus))
    (hclass : ext.GetTypeFromString none = .PERIPHERAL_UNKNOWN) :
    mappingMatches (singleRule ext vendor product bus mapTo key value) busType v p t =
      decide (v = ext.HexStringToInt vendor ∧ p = ext.HexStringToInt product) := by
  rw [Bool.eq_iff_iff, mappingMatches_iff]
  simp only [singleRule, hclass, hbus, List.mem_singleton, PeripheralID.mk.injEq,
    decide_eq_true_eq]
  constructor
  · rintro ⟨h | h, -, -⟩
    · exact absurd h (by simp)
    · exact h
  · intro h
    exact ⟨Or.inr h, Or.inr trivial, Or.inl trivial⟩

/-- C7: load then resolve.  A document declaring a single rule, with one
identity pair that splits into the tokens `vendor` and `product`, a bus, a
target type and one bool setting, loads as that one rule.  On a bus of the
rule's bus type a scan result resolves to the rule's target type exactly when
its vendor and product ids are the values of the two tokens; the settings
pass then gives a new peripheral of those ids exactly the declared setting;
any other scan result resolves to nothing and `CreatePeripheral` creates
nothing for it. -/
theorem single_rule_load_then_resolve (ext : Externals) (fuel : Nat)
    (vp bus mapTo key value vendor product : String)
    (hfile : ext.LoadFile = some (singleRuleDocument vp bus mapTo key value))
    (hcomma : ext.SplitString vp "," = [vp])
    (hcolon : ext.SplitString vp ":" = [vendor, product])
    (hbool : ext.Equals "bool" "bool" = true) (hkey : key.isEmpty = false)
    (hclass : ext.GetTypeFromString none = .PERIPHERAL_UNKNOWN) (hfuel : 0 < fuel) :
    LoadMappings ext fuel [] =
      .ok (true, [singleRule ext vendor product bus mapTo key value]) ∧
    (∀ (theBus : CPeripheralBus) (result : PeripheralScanResult),
      theBus.m_type = ext.GetBusTypeFromString (some bus) →
      GetMappingForDevice [singleRule ext vendor product bus mapTo key value] theBus result =
        if result.m_iVendorId = ext.HexStringToInt vendor ∧
            result.m_iProductId = ext.HexStringToInt product then
          (true, { result with m_mappedType := ext.GetTypeFromString (some mapTo),
                               m_strDeviceName := "" })
        else (false, result)) ∧
    (∀ peripheral : CPeripheral,
      peripheral.m_busType = ext.GetBusTypeFromString (some bus) →
      peripheral.m_iVendorId = ext.HexStringToInt vendor →
      peripheral.m_iProductId = ext.HexStringToInt product →
      peripheral.m_settings = [] →
      (GetSettingsFromMapping specAddSetting
          [singleRule ext vendor product bus mapTo key value] peripheral).m_settings =
        [(key, { id := key, label := -1, visible := true,
                 value := .bool (decide (strcmp value "no" ≠ 0) &&
                   decide (strcmp value "false" ≠ 0) && decide (strcmp value "0" ≠ 0)) })]) ∧
    (∀ (self : CPeripherals) (theBus : CPeripheralBus) (result : PeripheralScanResult),
      self.m_mappings = [singleRule ext vendor product bus mapTo key value] →
      theBus.m_type = ext.GetBusTypeFromString (some bus) →
      ¬ (result.m_iVendorId = ext.HexStringToInt vendor ∧
          result.m_iProductId = ext.HexStringToInt product) →
      CreatePeripheral ext self theBus result = (none, self, theBus, [])) := by
  refine ⟨LoadMappings_singleRule ext fuel vp bus mapTo key value vendor product hfile hcomma
    hcolon hbool hkey hfuel, ?_, ?_, ?_⟩
  · intro theBus result hbus
    simp only [GetMappingForDevice,
      mappingMatches_singleRule ext vendor product bus mapTo key value _ _ _ _ hbus hclass,
      decide_eq_true_eq]
    split_ifs <;> simp [singleRule]
  · intro peripheral hbus hv hp hs
    have hm : settingsMappingMatches (singleRule ext vendor product bus mapTo key value)
        peripheral = true := by
      simp [settingsMappingMatches, singleRule, hclass, hbus, hv, hp, productMatchLoop]
    simp only [GetSettingsFromMapping, hm, if_true]
    simp [singleRule, addSettingsLoop, specAddSetting, hs, SettingsMap.set]
  · intro self theBus result hmaps hbus hne
    apply CreatePeripheral_no_match
    intro mapping hmem
    rw [hmaps, List.mem_singleton] at hmem
    subst hmem
    rw [mappingMatches_singleRule ext vendor product bus mapTo key value _ _ _ _ hbus hclass]
    simpa using hne

/-- C7 on the scenario of the spec: the rule `1234:abcd`, usb, hid with the
bool setting foo = yes.  The scan result 1234:abcd on the USB bus resolves to
hid and its peripheral gets foo = true; the scan result 1234:ffff resolves to
nothing and no peripheral is created. -/
theorem single_rule_load_then_resolve_witness :
    LoadMappings (specExternals (some sampleDocument)) 1 [] = .ok (true, [ruleUsb1234]) ∧
    GetMappingForDevice [ruleUsb1234] usbBus
        (scanResult .PERIPHERAL_BUS_USB .PERIPHERAL_UNKNOWN 0x1234 0xabcd) =
      (true, { scanResult .PERIPHERAL_BUS_USB .PERIPHERAL_UNKNOWN 0x1234 0xabcd with
                 m_mappedType := .PERIPHERAL_HID }) ∧
    (GetSettingsFromMapping specAddSetting [ruleUsb1234] samplePeripheral).m_settings =
      [("foo", { id := "foo", label := -1, visible := true, value := .bool true })] ∧
    GetMappingForDevice [ruleUsb1234] usbBus
        (scanResult .PERIPHERAL_BUS_USB .PERIPHERAL_UNKNOWN 0x1234 0xffff) =
      (false, scanResult .PERIPHERAL_BUS_USB .PERIPHERAL_UNKNOWN 0x1234 0xffff) ∧
    CreatePeripheral (specExternals (some sampleDocument)) (sampleRegistry [ruleUsb1234]) usbBus
        (scanResult .PERIPHERAL_BUS_USB .PERIPHERAL_UNKNOWN 0x1234 0xffff) =
      (none, sampleRegistry [ruleUsb1234], usbBus, []) ∧
    CreatePeripheral (specExternals (some sampleDocument)) (sampleRegistry [ruleUsb1234]) usbBus
        (scanResult .PERIPHERAL_BUS_USB .PERIPHERAL_UNKNOWN 0x1234 0xabcd) =
      (some { m_type := .PERIPHERAL_UNKNOWN, m_busType := .PERIPHERAL_BUS_USB,
              m_strLocation := "1-1", m_strDeviceName := "", m_iVendorId := 0x1234,
              m_iProductId := 0xabcd,
              m_settings :=
                [("foo", { id := "foo", label := -1, visible := true, value := .bool true })],
              m_features := [] },
       sampleRegistry [ruleUsb1234],
       { m_type := .PERIPHERAL_BUS_USB,
         m_peripherals :=
           [{ m_type := .PERIPHERAL_UNKNOWN, m_busType := .PERIPHERAL_BUS_USB,
              m_strLocation := "1-1", m_strDeviceName := "", m_iVendorId := 0x1234,
              m_iProductId := 0xabcd,
              m_settings :=
                [("foo", { id := "foo", label := -1, visible := true, value := .bool true })],
              m_features := [] }] },
       []) :=
  have h := single_rule_load_then_resolve (specExternals (some sampleDocument)) 1
    "1234:abcd" "usb" "hid" "foo" "yes" "1234" "abcd" rfl (by decide) (by decide) (by decide)
    (by decide) (by decide) (by decide)
  ⟨h.1,
   h.2.1 usbBus (scanResult .PERIPHERAL_BUS_USB .PERIPHERAL_UNKNOWN 0x1234 0xabcd) (by decide),
   h.2.2.1 samplePeripheral (by decide) (by decide) (by decide) rfl,
   h.2.1 usbBus (scanResult .PERIPHERAL_BUS_USB .PERIPHERAL_UNKNOWN 0x1234 0xffff) (by decide),
   h.2.2.2 (sampleRegistry [ruleUsb1234]) usbBus
     (scanResult .PERIPHERAL_BUS_USB .PERIPHERAL_UNKNOWN 0x1234 0xffff) rfl (by decide)
     (by decide),
   by decide⟩

/-! ## The missing-libCEC warning -/

theorem resolve_fields (m_mappings : List PeripheralDeviceMapping) (bus : CPeripheralBus)
    (result : PeripheralScanResult) :
    (GetMappingForDevice m_mappings bus result).2.m_strLocation = result.m_strLocation := by
  induction m_mappings with
  | nil => rfl
  | cons m rest ih =>
    unfold GetMappingForDevice
    split_ifs
    · rfl
    · exact ih

theorem CreatePeripheral_resolved (ext : Externals) (self : CPeripherals) (bus : CPeripheralBus)
    (result : PeripheralScanResult) (h : (resolve self.m_mappings bus result).1 = true) :
    CreatePeripheral ext self bus result =
      (match constructPeripheral ext self bus (resolve self.m_mappings bus result).2 with
       | (none, self, events) => (none, self, bus, events)
       | (some peripheral, self, events) =>
         match ext.PeripheralInitialise self.m_mappings peripheral with
         | (true, peripheral) => (some peripheral, self, ext.Register bus peripheral, events)
         | (false, _) => (none, self, bus, events)) := by
  have hr : GetMappingForDevice self.m_mappings bus
      (if result.m_busType = .PERIPHERAL_BUS_UNKNOWN then { result with m_busType := bus.m_type }
       else result) = (true, (resolve self.m_mappings bus result).2) := by
    have hpair : resolve self.m_mappings bus result =
        ((resolve self.m_mappings bus result).1, (resolve self.m_mappings bus result).2) := rfl
    rw [h] at hpair
    exact hpair
  unfold CreatePeripheral
  simp only [hr]

theorem CreatePeripheral_cec_without_libcec (ext : Externals) (self : CPeripherals)
    (bus : CPeripheralBus) (result : PeripheralScanResult) (hcec : ext.HAVE_LIBCEC = false)
    (h : resolvesTo self.m_mappings bus result .PERIPHERAL_CEC = true) :
    CreatePeripheral ext self bus result =
      (none, { self with m_bMissingLibCecWarningDisplayed := true }, bus,
       if self.m_bMissingLibCecWarningDisplayed then [] else [.MissingLibCecWarning]) := by
  unfold resolvesTo at h
  simp only [Bool.and_eq_true, decide_eq_true_eq] at h
  rw [CreatePeripheral_resolved ext self bus result h.1]
  unfold constructPeripheral
  simp only [h.2, hcec, Bool.false_eq_true, if_false]
  cases hf : self.m_bMissingLibCecWarningDisplayed
  · simp
  · obtain ⟨a, b, c, d, e⟩ := self
    simp only at hf
    subst hf
    simp

theorem createPeripherals_warned (ext : Externals) (self : CPeripherals)
    (calls : List (CPeripheralBus × PeripheralScanResult)) (hcec : ext.HAVE_LIBCEC = false)
    (hflag : self.m_bMissingLibCecWarningDisplayed = true)
    (hcalls : ∀ c ∈ calls, resolvesTo self.m_mappings c.1 c.2 .PERIPHERAL_CEC = true) :
    createPeripherals ext self calls = (self, calls.map (fun c => (none, c.1, []))) := by
  induction calls with
  | nil => rfl
  | cons c rest ih =>
    have hc := hcalls c (List.mem_cons_self _ _)
    have hself : ({ self with m_bMissingLibCecWarningDisplayed := true } : CPeripherals) = self := by
      obtain ⟨a, b, f, d, e⟩ := self
      simp only at hflag
      subst hflag
      rfl
    unfold createPeripherals
    simp only [CreatePeripheral_cec_without_libcec ext self c.1 c.2 hcec hc, hflag, if_true,
      hself, ih (fun x hx => hcalls x (List.mem_cons_of_mem _ hx)), List.map_cons]

theorem Initialise_flag (ext : Externals) (fuel : Nat) (self s : CPeripherals)
    (events : List Event) (h : Initialise ext fuel self = .ok (s, events)) :
    s.m_bMissingLibCecWarningDisplayed = self.m_bMissingLibCecWarningDisplayed := by
  unfold Initialise at h
  by_cases hs : self.m_bIsStarted = true
  · simp only [hs, Bool.not_true, Bool.false_eq_true, if_false, Except.ok.injEq,
      Prod.mk.injEq] at h
    rw [← h.1]
  · have hf : self.m_bIsStarted = false := by simpa using hs
    simp only [hf, Bool.not_false, if_true] at h
    split at h
    · exact absurd h (by simp)
    · split at h
      · exact absurd h (by simp)
      · simp only [Except.ok.injEq, Prod.mk.injEq] at h
        rw [← h.1]

/-- C11: in a build without libCEC, from a registry whose warning has not been
shown, a sequence of `CreatePeripheral` calls that all resolve to the CEC type
emits the warning once, in the first call; every call returns no peripheral
and leaves its bus as it was.  After `Clear` and the `Initialise` that loads
the rules again, the next such call emits the warning again. -/
theorem missing_libcec_warning_once (ext : Externals) (self : CPeripherals)
    (calls : List (CPeripheralBus × PeripheralScanResult)) (hcec : ext.HAVE_LIBCEC = false)
    (hflag : self.m_bMissingLibCecWarningDisplayed = false)
    (hcalls : ∀ c ∈ calls, resolvesTo self.m_mappings c.1 c.2 .PERIPHERAL_CEC = true) :
    (createPeripherals ext self calls).2 =
      (match calls with
       | [] => []
       | first :: rest =>
         (none, first.1, [.MissingLibCecWarning]) :: rest.map (fun c => (none, c.1, []))) ∧
    (∀ (self0 : CPeripherals) (fuel : Nat) (s : CPeripherals) (events : List Event)
        (bus : CPeripheralBus) (result : PeripheralScanResult),
      Initialise ext fuel (Clear ext self0).1 = .ok (s, events) →
      resolvesTo s.m_mappings bus result .PERIPHERAL_CEC = true →
      CreatePeripheral ext s bus result =
        (none, { s with m_bMissingLibCecWarningDisplayed := true }, bus,
         [.MissingLibCecWarning])) := by
  constructor
  · cases calls with
    | nil => rfl
    | cons c rest =>
      have hc := hcalls c (List.mem_cons_self _ _)
      unfold createPeripherals
      simp only [CreatePeripheral_cec_without_libcec ext self c.1 c.2 hcec hc, hflag,
        Bool.false_eq_true, if_false]
      rw [createPeripherals_warned ext
        { self with m_bMissingLibCecWarningDisplayed := true } rest hcec rfl
        (fun x hx => hcalls x (List.mem_cons_of_mem _ hx))]
  · intro self0 fuel s events bus result hinit hres
    have hs : s.m_bMissingLibCecWarningDisplayed = false := by
      rw [Initialise_flag ext fuel _ s events hinit]
      simp [Clear, hcec]
    rw [CreatePeripheral_cec_without_libcec ext s bus result hcec hres, hs]
    simp

/-- C11 on a table that maps every device to cec, in the build without libCEC:
of two calls the first warns and the second does not, neither creates a
peripheral; after `Clear` and `Initialise` a call warns again. -/
theorem missing_libcec_warning_once_witness :
    (createPeripherals (specExternals (some cecDocument)) (sampleRegistry [ruleCec])
        [(usbBus, scanResult .PERIPHERAL_BUS_USB .PERIPHERAL_UNKNOWN 0x2548 0x1001),
         (usbBus, scanResult .PERIPHERAL_BUS_USB .PERIPHERAL_UNKNOWN 0x2548 0x1002)]).2 =
      [(none, usbBus, [.MissingLibCecWarning]), (none, usbBus, [])] ∧
    CreatePeripheral (specExternals (some cecDocument))
        { m_bIsStarted := true, m_bInitialised := true,
          m_bMissingLibCecWarningDisplayed := false,
          m_busses := [usbBus], m_mappings := [ruleCec] }
        usbBus (scanResult .PERIPHERAL_BUS_USB .PERIPHERAL_UNKNOWN 0x2548 0x1001) =
      (none,
       { m_bIsStarted := true, m_bInitialised := true,
         m_bMissingLibCecWarningDisplayed := true,
         m_busses := [usbBus], m_mappings := [ruleCec] },
       usbBus, [.MissingLibCecWarning]) :=
  have h := missing_libcec_warning_once (specExternals (some cecDocument))
    (sampleRegistry [ruleCec])
    [(usbBus, scanResult .PERIPHERAL_BUS_USB .PERIPHERAL_UNKNOWN 0x2548 0x1001),
     (usbBus, scanResult .PERIPHERAL_BUS_USB .PERIPHERAL_UNKNOWN 0x2548 0x1002)]
    rfl rfl (by decide)
  ⟨h.1,
   h.2 usedRegistry 1
     { m_bIsStarted := true, m_bInitialised := true,
       m_bMissingLibCecWarningDisplayed := false,
       m_busses := [usbBus], m_mappings := [ruleCec] }
     [.CreateDirectory "special://profile/peripheral_data", .LoadMappings,
      .BusCreated .PERIPHERAL_BUS_USB, .BusInitialise usbBus true]
     usbBus (scanResult .PERIPHERAL_BUS_USB .PERIPHERAL_UNKNOWN 0x2548 0x1001) rfl (by decide)⟩

/-! ## Peripheral initialisation decides registration -/

theorem constructPeripheral_constructible (ext : Externals) (self : CPeripherals)
    (bus : CPeripheralBus) (mapped : PeripheralScanResult) (type : PeripheralType)
    (htype : mapped.m_mappedType = type) (hcons : constructible ext bus type = true) :
    constructPeripheral ext self bus mapped = (some (ext.Construct type mapped), self, []) := by
  unfold constructPeripheral
  rw [htype]
  cases type <;> simp_all [constructible]

theorem CreatePeripheral_unresolved (ext : Externals) (self : CPeripherals) (bus : CPeripheralBus)
    (result : PeripheralScanResult) (h : (resolve self.m_mappings bus result).1 = false) :
    CreatePeripheral ext self bus result = (none, self, bus, []) := by
  have hr : GetMappingForDevice self.m_mappings bus
      (if result.m_busType = .PERIPHERAL_BUS_UNKNOWN then { result with m_busType := bus.m_type }
       else result) = (false, (resolve self.m_mappings bus result).2) := by
    have hpair : resolve self.m_mappings bus result =
        ((resolve self.m_mappings bus result).1, (resolve self.m_mappings bus result).2) := rfl
    rw [h] at hpair
    exact hpair
  unfold CreatePeripheral
  simp only [hr]

theorem constructPeripheral_registry (ext : Externals) (self : CPeripherals) (bus : CPeripheralBus)
    (mapped : PeripheralScanResult) :
    (constructPeripheral ext self bus mapped).2.1.m_busses = self.m_busses ∧
    (constructPeripheral ext self bus mapped).2.1.m_mappings = self.m_mappings := by
  unfold constructPeripheral
  cases mapped.m_mappedType <;> simp only [and_self]
  split_ifs <;> simp

theorem CreatePeripheral_registry (ext : Externals) (self : CPeripherals) (bus : CPeripheralBus)
    (result : PeripheralScanResult) :
    (CreatePeripheral ext self bus result).2.1.m_busses = self.m_busses ∧
    (CreatePeripheral ext self bus result).2.1.m_mappings = self.m_mappings := by
  cases h : (resolve self.m_mappings bus result).1
  · rw [CreatePeripheral_unresolved ext self bus result h]
    exact ⟨rfl, rfl⟩
  · rw [CreatePeripheral_resolved ext self bus result h]
    have hc := constructPeripheral_registry ext self bus (resolve self.m_mappings bus result).2
    generalize constructPeripheral ext self bus (resolve self.m_mappings bus result).2 = r at hc
    obtain ⟨p, self2, events⟩ := r
    cases p with
    | none => exact hc
    | some peripheral =>
      simp only
      generalize ext.PeripheralInitialise self2.m_mappings peripheral = q
      obtain ⟨ok, p2⟩ := q
      cases ok <;> exact hc

/-- C12: for a scan result that resolves to a type the `switch` constructs, the
outcome of the new peripheral's `Initialise` decides: on failure `CreatePeripheral`
returns nothing and leaves the bus and the registry as they were; on success
it returns the initialised peripheral and hands it to `Register` of the bus it
was called with, and the other busses of the registry are not touched. -/
theorem CreatePeripheral_initialise_outcome (ext : Externals) (self : CPeripherals)
    (bus : CPeripheralBus) (result : PeripheralScanResult) (type : PeripheralType)
    (hres : resolvesTo self.m_mappings bus result type = true)
    (hcons : constructible ext bus type = true) :
    ((ext.PeripheralInitialise self.m_mappings
          (ext.Construct type (resolve self.m_mappings bus result).2)).1 = false →
      CreatePeripheral ext self bus result = (none, self, bus, [])) ∧
    ((ext.PeripheralInitialise self.m_mappings
          (ext.Construct type (resolve self.m_mappings bus result).2)).1 = true →
      CreatePeripheral ext self bus result =
        (some (ext.PeripheralInitialise self.m_mappings
            (ext.Construct type (resolve self.m_mappings bus result).2)).2,
         self,
         ext.Register bus (ext.PeripheralInitialise self.m_mappings
            (ext.Construct type (resolve self.m_mappings bus result).2)).2,
         [])) ∧
    (∀ iBusPtr j : Nat, self.m_busses.get? iBusPtr = some bus → j ≠ iBusPtr →
      (CreatePeripheralAt ext self iBusPtr result).2.m_busses.get? j = self.m_busses.get? j) := by
  unfold resolvesTo at hres
  simp only [Bool.and_eq_true, decide_eq_true_eq] at hres
  have hcreate := CreatePeripheral_resolved ext self bus result hres.1
  rw [constructPeripheral_constructible ext self bus _ type hres.2 hcons] at hcreate
  simp only at hcreate
  refine ⟨?_, ?_, ?_⟩
  · intro hfail
    rw [hcreate]
    generalize ext.PeripheralInitialise self.m_mappings
      (ext.Construct type (resolve self.m_mappings bus result).2) = q at hfail
    obtain ⟨ok, p2⟩ := q
    simp only at hfail
    subst hfail
    rfl
  · intro hok
    rw [hcreate]
    generalize ext.PeripheralInitialise self.m_mappings
      (ext.Construct type (resolve self.m_mappings bus result).2) = q at hok
    obtain ⟨ok, p2⟩ := q
    simp only at hok
    subst hok
    rfl
  · intro iBusPtr j hget hne
    unfold CreatePeripheralAt
    simp only [hget, (CreatePeripheral_registry ext self bus result).1]
    rw [List.get?_eq_getElem?, List.get?_eq_getElem?, List.getElem?_set_ne (Ne.symm hne)]

/-- C12 on the device 1234:abcd, which resolves to hid: when its `Initialise`
succeeds it is returned and registered on the USB bus it was created for,
the CEC bus staying empty; when its `Initialise` fails nothing is returned and
the USB bus stays empty. -/
theorem CreatePeripheral_initialise_outcome_witness :
    CreatePeripheral (specExternals none) (twoBusRegistry [ruleUsb1234]) usbBus
        (scanResult .PERIPHERAL_BUS_USB .PERIPHERAL_UNKNOWN 0x1234 0xabcd) =
      (some createdPeripheral, twoBusRegistry [ruleUsb1234],
       { m_type := .PERIPHERAL_BUS_USB, m_peripherals := [createdPeripheral] }, []) ∧
    (CreatePeripheralAt (specExternals none) (twoBusRegistry [ruleUsb1234]) 0
        (scanResult .PERIPHERAL_BUS_USB .PERIPHERAL_UNKNOWN 0x1234 0xabcd)).2.m_busses.get? 1 =
      some cecBus ∧
    CreatePeripheral failingInitExternals (twoBusRegistry [ruleUsb1234]) usbBus
        (scanResult .PERIPHERAL_BUS_USB .PERIPHERAL_UNKNOWN 0x1234 0xabcd) =
      (none, twoBusRegistry [ruleUsb1234], usbBus, []) :=
  ⟨(CreatePeripheral_initialise_outcome (specExternals none) (twoBusRegistry [ruleUsb1234])
      usbBus (scanResult .PERIPHERAL_BUS_USB .PERIPHERAL_UNKNOWN 0x1234 0xabcd) .PERIPHERAL_HID
      (by decide) (by decide)).2.1 (by decide),
   (CreatePeripheral_initialise_outcome (specExternals none) (twoBusRegistry [ruleUsb1234])
      usbBus (scanResult .PERIPHERAL_BUS_USB .PERIPHERAL_UNKNOWN 0x1234 0xabcd) .PERIPHERAL_HID
      (by decide) (by decide)).2.2 0 1 rfl (by decide),
   (CreatePeripheral_initialise_outcome failingInitExternals (twoBusRegistry [ruleUsb1234])
      usbBus (scanResult .PERIPHERAL_BUS_USB .PERIPHERAL_UNKNOWN 0x1234 0xabcd) .PERIPHERAL_HID
      (by decide) (by decide)).1 (by decide)⟩

/-! ## Virtual paths and the wildcard `all` -/

theorem getByPathLoop_no_match (ext : Externals) (strBus strPath : String)
    (m_busses : List CPeripheralBus)
    (h : ∀ bus ∈ m_busses, ext.Equals strBus (ext.BusTypeToString bus.m_type) = false) :
    getByPathLoop ext strBus strPath m_busses = (none, []) := by
  induction m_busses with
  | nil => rfl
  | cons bus rest ih =>
    unfold getByPathLoop
    simp only [h bus (List.mem_cons_self _ _), Bool.false_eq_true, if_false]
    exact ih (fun b hb => h b (List.mem_cons_of_mem _ hb))

theorem getDirectoryLoop_no_match (ext : Externals) (strBus strPath : String)
    (m_busses : List CPeripheralBus) (items : CFileItemList) (events : List Event)
    (h : ∀ bus ∈ m_busses, ext.Equals strBus "all" = false ∧
      ext.Equals strBus (ext.BusTypeToString bus.m_type) = false) :
    getDirectoryLoop ext strBus strPath m_busses items events = (items, events) := by
  induction m_busses with
  | nil => rfl
  | cons bus rest ih =>
    unfold getDirectoryLoop
    simp only [(h bus (List.mem_cons_self _ _)).1, (h bus (List.mem_cons_self _ _)).2,
      Bool.or_self, Bool.false_eq_true, if_false]
    exact ih (fun b hb => h b (List.mem_cons_of_mem _ hb))

theorem getDirectoryLoop_all (ext : Externals) (strBus strPath : String)
    (m_busses : List CPeripheralBus) (items : CFileItemList) (events : List Event)
    (h : ext.Equals strBus "all" = true) :
    (getDirectoryLoop ext strBus strPath m_busses items events).2 =
      events ++ m_busses.map (fun bus => .BusGetDirectory bus strPath) := by
  induction m_busses generalizing items events with
  | nil => simp [getDirectoryLoop]
  | cons bus rest ih =>
    unfold getDirectoryLoop
    simp only [h, Bool.true_or, if_true]
    rw [ih]
    simp [List.append_assoc]

theorem GetByPath_all (ext : Externals) (self : CPeripherals) (strPath : String)
    (h : ∀ bus ∈ self.m_busses,
      ext.Equals (busSegment strPath) (ext.BusTypeToString bus.m_type) = false) :
    GetByPath ext self strPath = (none, []) := by
  unfold GetByPath
  split_ifs
  · rfl
  · exact getByPathLoop_no_match ext _ _ _ h

/-- C13, the code at the failing input: the USB bus holds a peripheral at
location 1-1 and resolves the path `peripherals://all/1-1` to it, and
`GetDirectory` forwards that path to the bus; `GetByPath` compares the segment
`all` with the type name of each bus only, consults no bus and returns
nothing, while it does return the peripheral for `peripherals://usb/1-1`. -/
theorem GetByPath_does_not_honour_all :
    specBusGetByPath usbBusWithDevice "peripherals://all/1-1" = some samplePeripheral ∧
    GetDirectory (specExternals none) usbRegistry "peripherals://all/1-1" [] =
      (["1-1"], [.BusGetDirectory usbBusWithDevice "peripherals://all/1-1"]) ∧
    GetByPath (specExternals none) usbRegistry "peripherals://all/1-1" = (none, []) ∧
    GetByPath (specExternals none) usbRegistry "peripherals://usb/1-1" =
      (some samplePeripheral, [.BusGetByPath usbBusWithDevice "peripherals://usb/1-1"]) :=
  ⟨by decide, by decide, by decide, by decide⟩

/-! ## Enum settings without options -/

theorem newSetting_enum_without_tokens (ext : Externals) (node : TiXmlElement) (key : String)
    (lvalues : String) (hbool : ext.Equals (CStdString (node.Attribute "type")) "bool" = false)
    (hint : ext.Equals (CStdString (node.Attribute "type")) "int" = false)
    (hfloat : ext.Equals (CStdString (node.Attribute "type")) "float" = false)
    (henum : ext.Equals (CStdString (node.Attribute "type")) "enum" = true)
    (hattr : node.Attribute "lvalues" = some lvalues) (hne : lvalues.isEmpty = false)
    (htokens : ext.Tokenize lvalues "|" = []) :
    ∃ label value, newSetting ext node key =
      .ok (some { id := key, label := label, visible := true, value := .enum value [] }) := by
  have hl : CStdString (node.Attribute "lvalues") = lvalues := by
    simp [CStdString, hattr]
  unfold newSetting
  simp only [hbool, hint, hfloat, henum, hl, hne, htokens, Bool.false_eq_true, if_false,
    if_true, Bool.not_false, List.map_nil]
  exact ⟨_, _, rfl⟩

/-- C14, the code at the failing input: a rule with the enum settings `mode`
(`lvalues` is the single separator), `empty` (`lvalues` is empty) and `level`
(`lvalues` is 1, 2, 3).  The settings loop drops `empty` and keeps `level`, and
it also stores `mode`, an enum setting with no option at all. -/
theorem GetSettingsFromMappingsFile_keeps_enum_without_options :
    specTokenize "|" "|" = [] ∧
    GetSettingsFromMappingsFile (specExternals none) 3 enumRule [] =
      .ok [("level", { id := "level", label := -1, visible := true,
                        value := .enum 2 [(1, 1), (2, 2), (3, 3)] }),
           ("mode", { id := "mode", label := -1, visible := true, value := .enum 1 [] })] :=
  ⟨by decide, rfl⟩

/-! ## Registered locations -/

theorem resolve_location (m_mappings : List PeripheralDeviceMapping) (bus : CPeripheralBus)
    (result : PeripheralScanResult) :
    (resolve m_mappings bus result).2.m_strLocation = result.m_strLocation := by
  unfold resolve
  rw [resolve_fields]
  split_ifs <;> rfl

theorem constructPeripheral_peripheral (ext : Externals) (self : CPeripherals)
    (bus : CPeripheralBus) (mapped : PeripheralScanResult) (peripheral : CPeripheral)
    (h : (constructPeripheral ext self bus mapped).1 = some peripheral) :
    ∃ type, peripheral = ext.Construct type mapped := by
  unfold constructPeripheral at h
  cases hm : mapped.m_mappedType <;> simp only [hm] at h
  · exact absurd h (by simp)
  · exact ⟨_, (Option.some.inj h).symm⟩
  · exact ⟨_, (Option.some.inj h).symm⟩
  · exact ⟨_, (Option.some.inj h).symm⟩
  · exact ⟨_, (Option.some.inj h).symm⟩
  · split_ifs at h
    · exact ⟨_, (Option.some.inj h).symm⟩
  · exact ⟨_, (Option.some.inj h).symm⟩
  · exact ⟨_, (Option.some.inj h).symm⟩
  · exact ⟨_, (Option.some.inj h).symm⟩

theorem CreatePeripheral_bus (ext : Externals) (self : CPeripherals) (bus : CPeripheralBus)
    (result : PeripheralScanResult)
    (hcons : ∀ t r, (ext.Construct t r).m_strLocation = r.m_strLocation)
    (hinit : ∀ m p, (ext.PeripheralInitialise m p).2.m_strLocation = p.m_strLocation) :
    (CreatePeripheral ext self bus result).2.2.1 = bus ∨
    ∃ peripheral : CPeripheral, peripheral.m_strLocation = result.m_strLocation ∧
      (CreatePeripheral ext self bus result).2.2.1 = ext.Register bus peripheral := by
  cases h : (resolve self.m_mappings bus result).1
  · rw [CreatePeripheral_unresolved ext self bus result h]
    exact Or.inl rfl
  · rw [CreatePeripheral_resolved ext self bus result h]
    have hp := constructPeripheral_peripheral ext self bus (resolve self.m_mappings bus result).2
    generalize constructPeripheral ext self bus (resolve self.m_mappings bus result).2 = r at hp
    obtain ⟨p, self2, events⟩ := r
    cases p with
    | none => exact Or.inl rfl
    | some peripheral =>
      obtain ⟨type, htype⟩ := hp peripheral rfl
      simp only
      have hq := hinit self2.m_mappings peripheral
      generalize ext.PeripheralInitialise self2.m_mappings peripheral = q at hq
      obtain ⟨ok, p2⟩ := q
      cases ok
      · exact Or.inl rfl
      · refine Or.inr ⟨p2, ?_, rfl⟩
        simp only at hq
        rw [hq, htype, hcons, resolve_location]

theorem registrations_append (xs ys : List CPeripheralBus) (location : String) :
    registrations (xs ++ ys) location = registrations xs location + registrations ys location := by
  induction xs with
  | nil => simp [registrations]
  | cons x rest ih => simp [registrations, ih, Nat.add_assoc]

theorem registrations_filter_le (f : CPeripheralBus → Bool) (xs : List CPeripheralBus)
    (location : String) :
    registrations (xs.filter f) location ≤ registrations xs location := by
  induction xs with
  | nil => simp [registrations]
  | cons x rest ih =>
    rw [List.filter_cons]
    split_ifs
    · simp only [registrations]
      omega
    · simp only [registrations]
      omega

theorem registrations_newBusses (ext : Externals) (location : String) :
    registrations (newBusses ext) location = 0 := by
  unfold newBusses
  cases ext.HAVE_PERIPHERAL_BUS_USB <;> cases ext.HAVE_LIBCEC <;>
    simp [registrations, registeredOn]

theorem registrations_set (xs : List CPeripheralBus) (i : Nat) (bus bus2 : CPeripheralBus)
    (location : String) (hget : xs.get? i = some bus) :
    registrations (xs.set i bus2) location + registeredOn bus location =
      registrations xs location + registeredOn bus2 location := by
  induction xs generalizing i with
  | nil => simp at hget
  | cons x rest ih =>
    cases i with
    | zero =>
      simp only [List.get?_cons_zero, Option.some.injEq] at hget
      subst hget
      simp only [List.set_cons_zero, registrations]
      omega
    | succ k =>
      simp only [List.get?_cons_succ] at hget
      have := ih k hget
      simp only [List.set_cons_succ, registrations]
      omega

theorem registrations_ge_of_get (xs : List CPeripheralBus) (i : Nat) (bus : CPeripheralBus)
    (location : String) (hget : xs.get? i = some bus) :
    registeredOn bus location ≤ registrations xs location := by
  induction xs generalizing i with
  | nil => simp at hget
  | cons x rest ih =>
    cases i with
    | zero =>
      simp only [List.get?_cons_zero, Option.some.injEq] at hget
      subst hget
      simp only [registrations]
      omega
    | succ k =>
      simp only [List.get?_cons_succ] at hget
      have := ih k hget
      simp only [registrations]
      omega

theorem Initialise_busses (ext : Externals) (fuel : Nat) (self s : CPeripherals)
    (events : List Event) (h : Initialise ext fuel self = .ok (s, events)) :
    s.m_busses = self.m_busses ∨
    s.m_busses = (self.m_busses ++ newBusses ext).filter ext.BusInitialise := by
  by_cases hs : self.m_bIsStarted = true
  · left
    unfold Initialise at h
    simp only [hs, Bool.not_true, Bool.false_eq_true, if_false, Except.ok.injEq,
      Prod.mk.injEq] at h
    rw [← h.1]
  · right
    have hf : self.m_bIsStarted = false := by simpa using hs
    cases hload : LoadMappings ext fuel self.m_mappings with
    | error f =>
      unfold Initialise at h
      simp only [hf, Bool.not_false, if_true, hload] at h
      exact absurd h (by simp)
    | ok r =>
      obtain ⟨b, maps⟩ := r
      rw [Initialise_not_started ext fuel self b maps hf hload] at h
      simp only [Except.ok.injEq, Prod.mk.injEq] at h
      rw [← h.1]

theorem CreatePeripheralAt_unique (ext : Externals) (self : CPeripherals) (iBusPtr : Nat)
    (result : PeripheralScanResult)
    (hreg : ∀ bus p, ext.Register bus p = { bus with m_peripherals := bus.m_peripherals ++ [p] })
    (hcons : ∀ t r, (ext.Construct t r).m_strLocation = r.m_strLocation)
    (hinit : ∀ m p, (ext.PeripheralInitialise m p).2.m_strLocation = p.m_strLocation)
    (hunique : LocationsUnique self)
    (hfree : registrations self.m_busses result.m_strLocation = 0) :
    LocationsUnique (CreatePeripheralAt ext self iBusPtr result).2 := by
  intro location
  unfold CreatePeripheralAt
  cases hget : self.m_busses.get? iBusPtr with
  | none => exact hunique location
  | some bus =>
    simp only [(CreatePeripheral_registry ext self bus result).1]
    have hset := registrations_set self.m_busses iBusPtr bus
      (CreatePeripheral ext self bus result).2.2.1 location hget
    have hle := registrations_ge_of_get self.m_busses iBusPtr bus location hget
    have hu := hunique location
    rcases CreatePeripheral_bus ext self bus result hcons hinit with hb | ⟨p, hp, hb⟩
    · rw [hb] at hset ⊢
      omega
    · rw [hb] at hset ⊢
      have hcount : registeredOn (ext.Register bus p) location =
          registeredOn bus location + (if p.m_strLocation = location then 1 else 0) := by
        rw [hreg]
        simp [registeredOn, List.countP_append, List.countP_cons]
      rw [hcount] at hset
      by_cases hloc : p.m_strLocation = location
      · have h0 : registrations self.m_busses location = 0 := by
          rw [← hloc, hp]
          exact hfree
        simp only [hloc, if_true] at hset
        omega
      · simp only [hloc, if_false] at hset
        omega

/-- C15 (amended): `CreatePeripheral` does not look up the location of the scan
result on any bus; it hands the initialised peripheral to `Register` of the bus
it was called with.  With `Register` taking ownership of the peripheral and a
peripheral keeping the location of its scan result, every state reached from
the constructed registry through `Initialise`, `Clear` and `CreatePeripheral`
calls made for a location that no bus holds has every location registered on
at most one bus, and at most once there. -/
theorem locations_unique_when_created_fresh (ext : Externals)
    (hreg : ∀ bus p, ext.Register bus p = { bus with m_peripherals := bus.m_peripherals ++ [p] })
    (hcons : ∀ t r, (ext.Construct t r).m_strLocation = r.m_strLocation)
    (hinit : ∀ m p, (ext.PeripheralInitialise m p).2.m_strLocation = p.m_strLocation)
    (self : CPeripherals) (hreach : ReachableFresh ext self) :
    LocationsUnique self := by
  induction hreach with
  | constructed =>
    intro location
    simp [emptyRegistry, registrations]
  | initialise fuel self s events _ hinitialise ih =>
    intro location
    have hu := ih location
    rcases Initialise_busses ext fuel self s events hinitialise with hb | hb
    · rw [hb]
      exact hu
    · rw [hb]
      have h1 := registrations_filter_le ext.BusInitialise (self.m_busses ++ newBusses ext)
        location
      rw [registrations_append, registrations_newBusses] at h1
      omega
  | clear self _ _ =>
    intro location
    simp [Clear, registrations]
  | create self iBusPtr result _ hfree ih =>
    exact CreatePeripheralAt_unique ext self iBusPtr result hreg hcons hinit ih hfree

theorem GetSettingsFromMapping_location (ms : List PeripheralDeviceMapping) (p : CPeripheral) :
    (GetSettingsFromMapping specAddSetting ms p).m_strLocation = p.m_strLocation := by
  rw [GetSettingsFromMapping_device]

/-- C15 (amended) on the build with both busses: after `Initialise` on the
wildcard document and one `CreatePeripheral` call of the USB bus for the free
location 1-1, every location is registered at most once. -/
theorem locations_unique_when_created_fresh_witness :
    Initialise (cecBuildExternals (some wildcardDocument)) 1 emptyRegistry =
      .ok (twoBusRegistry [ruleGeneric],
        [.CreateDirectory "special://profile/peripheral_data", .LoadMappings,
         .BusCreated .PERIPHERAL_BUS_USB, .BusCreated .PERIPHERAL_BUS_CEC,
         .BusInitialise cecBus true, .BusInitialise usbBus true]) ∧
    registrations (twoBusRegistry [ruleGeneric]).m_busses "1-1" = 0 ∧
    LocationsUnique (CreatePeripheralAt (cecBuildExternals (some wildcardDocument))
      (twoBusRegistry [ruleGeneric]) 0
      (scanResult .PERIPHERAL_BUS_UNKNOWN .PERIPHERAL_UNKNOWN 1 2)).2 :=
  ⟨rfl, by decide,
   locations_unique_when_created_fresh (cecBuildExternals (some wildcardDocument))
     (fun _ _ => rfl) (fun _ _ => rfl)
     (fun m p => GetSettingsFromMapping_location m p)
     _ (.create (twoBusRegistry [ruleGeneric]) 0
          (scanResult .PERIPHERAL_BUS_UNKNOWN .PERIPHERAL_UNKNOWN 1 2)
          (.initialise 1 emptyRegistry (twoBusRegistry [ruleGeneric]) _ .constructed rfl)
          (by decide))⟩

/-- C15 as stated fails: in the build with both busses, after `Initialise` on
the wildcard document the USB bus and then the CEC bus each call
`CreatePeripheral` for a device at location 1-1; the second call registers its
peripheral although the USB bus already holds that location, and the
location ends registered on two busses. -/
theorem location_registered_on_two_busses :
    Initialise (cecBuildExternals (some wildcardDocument)) 1 emptyRegistry =
      .ok (twoBusRegistry [ruleGeneric],
        [.CreateDirectory "special://profile/peripheral_data", .LoadMappings,
         .BusCreated .PERIPHERAL_BUS_USB, .BusCreated .PERIPHERAL_BUS_CEC,
         .BusInitialise cecBus true, .BusInitialise usbBus true]) ∧
    (CreatePeripheralAt (cecBuildExternals (some wildcardDocument))
        (CreatePeripheralAt (cecBuildExternals (some wildcardDocument))
          (twoBusRegistry [ruleGeneric]) 0
          (scanResult .PERIPHERAL_BUS_UNKNOWN .PERIPHERAL_UNKNOWN 1 2)).2 1
        (scanResult .PERIPHERAL_BUS_UNKNOWN .PERIPHERAL_UNKNOWN 1 2)).2.m_busses =
      [{ m_type := .PERIPHERAL_BUS_USB,
         m_peripherals := [genericPeripheral .PERIPHERAL_BUS_USB] },
       { m_type := .PERIPHERAL_BUS_CEC,
         m_peripherals := [genericPeripheral .PERIPHERAL_BUS_CEC] }] ∧
    ¬ LocationsUnique
      (CreatePeripheralAt (cecBuildExternals (some wildcardDocument))
        (CreatePeripheralAt (cecBuildExternals (some wildcardDocument))
          (twoBusRegistry [ruleGeneric]) 0
          (scanResult .PERIPHERAL_BUS_UNKNOWN .PERIPHERAL_UNKNOWN 1 2)).2 1
        (scanResult .PERIPHERAL_BUS_UNKNOWN .PERIPHERAL_UNKNOWN 1 2)).2 :=
  ⟨rfl, by decide, fun h => absurd (h "1-1") (by decide)⟩

/-! ## CEC operations without a CEC peripheral -/

theorem GetPeripheralsWithFeature_none (ext : Externals) (m_busses : List CPeripheralBus)
    (results : List CPeripheral) (feature : PeripheralFeature) (busType : PeripheralBusType)
    (iReturn : Int)
    (h : ∀ bus ∈ m_busses, ∀ r, ext.BusGetPeripheralsWithFeature bus r feature = (r, 0)) :
    GetPeripheralsWithFeature ext m_busses results feature busType iReturn =
      (results, iReturn) := by
  induction m_busses with
  | nil => rfl
  | cons bus rest ih =>
    have hrest := ih (fun b hb => h b (List.mem_cons_of_mem _ hb))
    unfold GetPeripheralsWithFeature
    split_ifs
    · exact hrest
    · simp only [h bus (List.mem_cons_self _ _), Int.add_zero]
      exact hrest

/-- C16: when every bus of the registry answers the CEC feature query with
nothing (it appends no peripheral and returns the count 0), `ToggleMute`
returns false and `IsMuted` is false, the registry being the same before and
after; `ToggleDeviceState` for any mode and index, `GetNextKeypress` and
`OnAction` for any action return false as well, the caller's key is left as it
was, and no call is forwarded to any peripheral. -/
theorem cec_operations_without_cec_peripheral (ext : Externals) (self : CPeripherals)
    (h : ∀ bus ∈ self.m_busses, ∀ r,
      ext.BusGetPeripheralsWithFeature bus r .FEATURE_CEC = (r, 0)) :
    ToggleMute ext self = (false, []) ∧
    IsMuted ext self = false ∧
    (∀ (mode : CecStateChange) (iPeripheral : Nat),
      ToggleDeviceState ext self mode iPeripheral = (false, [])) ∧
    (∀ key : CKey, GetNextKeypress ext self key = (false, key, [])) ∧
    (∀ action : CAction, OnAction ext self action = (false, [])) := by
  have hq := GetPeripheralsWithFeature_none ext self.m_busses [] .FEATURE_CEC
    .PERIPHERAL_BUS_UNKNOWN 0 h
  have hmute : ToggleMute ext self = (false, []) := by
    unfold ToggleMute
    simp [hq]
  refine ⟨hmute, ?_, ?_, ?_, ?_⟩
  · unfold IsMuted
    simp [hq]
  · intro mode iPeripheral
    unfold ToggleDeviceState
    simp [hq]
  · intro key
    unfold GetNextKeypress
    simp [hq]
  · intro action
    unfold OnAction
    rw [hmute]
    simp [hq]

/-- C16 on a registry whose only bus holds a peripheral without the CEC
feature, in a build with libCEC. -/
theorem cec_operations_without_cec_peripheral_witness :
    ToggleMute cecExternals usbRegistry = (false, []) ∧
    IsMuted cecExternals usbRegistry = false ∧
    ToggleDeviceState cecExternals usbRegistry .STATE_SWITCH_TOGGLE 0 = (false, []) ∧
    GetNextKeypress cecExternals usbRegistry { button := 7, held := 0 } =
      (false, { button := 7, held := 0 }, []) ∧
    OnAction cecExternals usbRegistry { GetID := .ACTION_VOLUME_UP, amountNonZero := true } =
      (false, []) :=
  have h := cec_operations_without_cec_peripheral cecExternals usbRegistry (by
    intro bus hb r
    simp only [usbRegistry, List.mem_singleton] at hb
    subst hb
    simp [cecExternals, specExternals, usbBusWithDevice, samplePeripheral])
  ⟨h.1, h.2.1, h.2.2.1 .STATE_SWITCH_TOGGLE 0, h.2.2.2.1 { button := 7, held := 0 },
   h.2.2.2.2 { GetID := .ACTION_VOLUME_UP, amountNonZero := true }⟩

/-! ## Triggering device scans -/

theorem triggerDeviceScanLoop_skip (type : PeripheralBusType) (pre rest : List CPeripheralBus)
    (htype : type ≠ .PERIPHERAL_BUS_UNKNOWN) (hpre : ∀ b ∈ pre, b.m_type ≠ type) :
    triggerDeviceScanLoop type (pre ++ rest) = triggerDeviceScanLoop type rest := by
  induction pre with
  | nil => rfl
  | cons b tail ih =>
    have hb := hpre b (List.mem_cons_self _ _)
    simp only [List.cons_append, triggerDeviceScanLoop, htype, hb, or_self, if_false]
    exact ih (fun x hx => hpre x (List.mem_cons_of_mem _ hx))

/-- C17: `TriggerDeviceScan(PERIPHERAL_BUS_UNKNOWN)` asks every bus of the
collection to scan, once each and in collection order; for a specific type
it asks the first bus of that type and no other bus, and it asks no bus when
no bus has that type. -/
theorem TriggerDeviceScan_targets (self : CPeripherals) (type : PeripheralBusType) :
    (type = .PERIPHERAL_BUS_UNKNOWN →
      TriggerDeviceScan self type = self.m_busses.map (fun bus => .BusTriggerDeviceScan bus)) ∧
    (type ≠ .PERIPHERAL_BUS_UNKNOWN →
      ∀ (earlier : List CPeripheralBus) (bus : CPeripheralBus) (later : List CPeripheralBus),
        self.m_busses = earlier ++ bus :: later → bus.m_type = type →
        (∀ b ∈ earlier, b.m_type ≠ type) →
        TriggerDeviceScan self type = [.BusTriggerDeviceScan bus]) ∧
    (type ≠ .PERIPHERAL_BUS_UNKNOWN → (∀ b ∈ self.m_busses, b.m_type ≠ type) →
      TriggerDeviceScan self type = []) := by
  refine ⟨?_, ?_, ?_⟩
  · intro hany
    subst hany
    unfold TriggerDeviceScan
    induction self.m_busses with
    | nil => rfl
    | cons b rest ih => simp [triggerDeviceScanLoop, ih]
  · intro htype earlier bus later hsplit hbus hearlier
    unfold TriggerDeviceScan
    rw [hsplit, triggerDeviceScanLoop_skip type earlier _ htype hearlier]
    simp [triggerDeviceScanLoop, hbus, htype]
  · intro htype hnone
    unfold TriggerDeviceScan
    have h := triggerDeviceScanLoop_skip type self.m_busses [] htype hnone
    rw [List.append_nil] at h
    rw [h]
    rfl

/-- C17 on a registry with a USB bus and a CEC bus: "any" reaches both in
order, the CEC type reaches the CEC bus only, the PCI type reaches none. -/
theorem TriggerDeviceScan_targets_witness :
    TriggerDeviceScan (twoBusRegistry []) .PERIPHERAL_BUS_UNKNOWN =
      [.BusTriggerDeviceScan usbBus, .BusTriggerDeviceScan cecBus] ∧
    TriggerDeviceScan (twoBusRegistry []) .PERIPHERAL_BUS_CEC = [.BusTriggerDeviceScan cecBus] ∧
    TriggerDeviceScan (twoBusRegistry []) .PERIPHERAL_BUS_PCI = [] :=
  ⟨(TriggerDeviceScan_targets (twoBusRegistry []) .PERIPHERAL_BUS_UNKNOWN).1 rfl,
   (TriggerDeviceScan_targets (twoBusRegistry []) .PERIPHERAL_BUS_CEC).2.1 (by decide)
     [usbBus] cecBus [] rfl rfl (by decide),
   (TriggerDeviceScan_targets (twoBusRegistry []) .PERIPHERAL_BUS_PCI).2.2 (by decide)
     (by decide)⟩

/-! ## Fanning out a feature query -/

theorem GetPeripheralsWithFeature_foldl (ext : Externals) (m_busses : List CPeripheralBus)
    (results : List CPeripheral) (feature : PeripheralFeature) (busType : PeripheralBusType)
    (iReturn : Int) :
    GetPeripheralsWithFeature ext m_busses results feature busType iReturn =
      (m_busses.filter (passesFilter busType)).foldl (queryBus ext feature)
        (results, iReturn) := by
  induction m_busses generalizing results iReturn with
  | nil => rfl
  | cons bus rest ih =>
    unfold GetPeripheralsWithFeature
    by_cases hpass : busType = .PERIPHERAL_BUS_UNKNOWN ∨ bus.m_type = busType
    · have hcond : ¬ (busType ≠ .PERIPHERAL_BUS_UNKNOWN ∧ bus.m_type ≠ busType) := by
        rintro ⟨h1, h2⟩
        rcases hpass with h | h
        · exact h1 h
        · exact h2 h
      have hp : passesFilter busType bus = true := by simp [passesFilter, hpass]
      rw [if_neg hcond, List.filter_cons_of_pos hp, List.foldl_cons, ih]
      rfl
    · have hcond : busType ≠ .PERIPHERAL_BUS_UNKNOWN ∧ bus.m_type ≠ busType :=
        ⟨fun h => hpass (Or.inl h), fun h => hpass (Or.inr h)⟩
      have hp : ¬ passesFilter busType bus = true := by simp [passesFilter, hpass]
      rw [if_pos hcond, List.filter_cons_of_neg hp, ih]

theorem foldl_queryBus_append (ext : Externals) (feature : PeripheralFeature)
    (found : CPeripheralBus → List CPeripheral) (count : CPeripheralBus → Int)
    (happend : ∀ bus r, ext.BusGetPeripheralsWithFeature bus r feature =
      (r ++ found bus, count bus))
    (busses : List CPeripheralBus) (results : List CPeripheral) (iReturn : Int) :
    busses.foldl (queryBus ext feature) (results, iReturn) =
      (results ++ (busses.map found).foldr (fun a b => a ++ b) [],
       iReturn + (busses.map count).sum) := by
  induction busses generalizing results iReturn with
  | nil => simp
  | cons bus rest ih =>
    have hstep : queryBus ext feature (results, iReturn) bus =
        (results ++ found bus, iReturn + count bus) := by
      simp [queryBus, happend]
    rw [List.foldl_cons, hstep, ih]
    simp [List.append_assoc, Int.add_assoc]

theorem foldr_append_length (xss : List (List CPeripheral)) :
    ((xss.foldr (fun a b => a ++ b) []).length : Int) =
      (xss.map (fun xs => (xs.length : Int))).sum := by
  induction xss with
  | nil => rfl
  | cons xs rest ih => simp [ih]

/-- C18: `GetPeripheralsWithFeature` queries exactly the busses that pass the
type filter (all of them for `PERIPHERAL_BUS_UNKNOWN`), in collection order,
each working on the results left by the ones before it, and returns the sum
of their counts.  When every bus appends its peripherals with the feature and
returns a count, the results are the entries already there followed by the
peripherals of the queried busses in bus order, and the returned value is the
sum of the counts; when each count is the number appended, it equals the
growth of the results.  `HasPeripheralWithFeature` is true iff the sum returned
for an empty list is positive. -/
theorem GetPeripheralsWithFeature_fans_out (ext : Externals) (self : CPeripherals)
    (results : List CPeripheral) (feature : PeripheralFeature) (busType : PeripheralBusType) :
    GetPeripheralsWithFeature ext self.m_busses results feature busType 0 =
      (self.m_busses.filter (passesFilter busType)).foldl (queryBus ext feature) (results, 0) ∧
    (∀ (found : CPeripheralBus → List CPeripheral) (count : CPeripheralBus → Int),
      (∀ bus r, ext.BusGetPeripheralsWithFeature bus r feature = (r ++ found bus, count bus)) →
      GetPeripheralsWithFeature ext self.m_busses results feature busType 0 =
        (results ++
          ((self.m_busses.filter (passesFilter busType)).map found).foldr (fun a b => a ++ b) [],
         ((self.m_busses.filter (passesFilter busType)).map count).sum) ∧
      ((∀ bus, count bus = ((found bus).length : Int)) →
        (GetPeripheralsWithFeature ext self.m_busses results feature busType 0).2 =
          ((GetPeripheralsWithFeature ext self.m_busses results feature busType 0).1.length : Int)
            - (results.length : Int))) ∧
    (HasPeripheralWithFeature ext self feature busType = true ↔
      0 < (GetPeripheralsWithFeature ext self.m_busses [] feature busType 0).2) := by
  refine ⟨GetPeripheralsWithFeature_foldl ext _ _ _ _ _, ?_, ?_⟩
  · intro found count happend
    have heq : GetPeripheralsWithFeature ext self.m_busses results feature busType 0 =
        (results ++
          ((self.m_busses.filter (passesFilter busType)).map found).foldr (fun a b => a ++ b) [],
         ((self.m_busses.filter (passesFilter busType)).map count).sum) := by
      rw [GetPeripheralsWithFeature_foldl, foldl_queryBus_append ext feature found count happend]
      simp
    refine ⟨heq, ?_⟩
    intro hcount
    rw [heq]
    simp only [List.length_append, Nat.cast_add, foldr_append_length, List.map_map]
    have hfun : (fun xs : List CPeripheral => (xs.length : Int)) ∘ found = count := by
      funext bus
      simp [hcount bus]
    rw [hfun]
    omega
  · unfold HasPeripheralWithFeature
    simp

/-- C18 on a registry whose USB bus holds one CEC adapter among two peripherals
and whose CEC bus holds two: the query for "any" bus appends the three
adapters in bus order after the entry already there and returns 3; the query
for the CEC bus returns its two adapters. -/
theorem GetPeripheralsWithFeature_fans_out_witness :
    GetPeripheralsWithFeature cecExternals mixedRegistry.m_busses [samplePeripheral]
        .FEATURE_CEC .PERIPHERAL_BUS_UNKNOWN 0 =
      ([samplePeripheral, cecAdapter "u", cecAdapter "a", cecAdapter "b"], 3) ∧
    GetPeripheralsWithFeature cecExternals mixedRegistry.m_busses []
        .FEATURE_CEC .PERIPHERAL_BUS_CEC 0 =
      ([cecAdapter "a", cecAdapter "b"], 2) ∧
    HasPeripheralWithFeature cecExternals mixedRegistry .FEATURE_CEC .PERIPHERAL_BUS_PCI = false :=
  ⟨((GetPeripheralsWithFeature_fans_out cecExternals mixedRegistry [samplePeripheral]
      .FEATURE_CEC .PERIPHERAL_BUS_UNKNOWN).2.1
      (featurePeripherals .FEATURE_CEC)
      (fun bus => ((featurePeripherals .FEATURE_CEC bus).length : Int))
      (fun _ _ => rfl)).1,
   ((GetPeripheralsWithFeature_fans_out cecExternals mixedRegistry []
      .FEATURE_CEC .PERIPHERAL_BUS_CEC).2.1
      (featurePeripherals .FEATURE_CEC)
      (fun bus => ((featurePeripherals .FEATURE_CEC bus).length : Int))
      (fun _ _ => rfl)).1,
   by decide⟩

/-! ## Looking up a location -/

theorem GetPeripheralAtLocation_cons_skip (ext : Externals) (bus : CPeripheralBus)
    (rest : List CPeripheralBus) (strLocation : String) (busType : PeripheralBusType)
    (h : passesFilter busType bus = true → ext.BusGetPeripheral bus strLocation = none) :
    GetPeripheralAtLocation ext (bus :: rest) strLocation busType =
      GetPeripheralAtLocation ext rest strLocation busType := by
  by_cases hcond : busType ≠ .PERIPHERAL_BUS_UNKNOWN ∧ bus.m_type ≠ busType
  · rw [GetPeripheralAtLocation, if_pos hcond]
  · have hp : passesFilter busType bus = true := by
      unfold passesFilter
      by_contra hn
      simp only [decide_eq_true_eq, not_or] at hn
      exact hcond hn
    rw [GetPeripheralAtLocation, if_neg hcond, h hp]

theorem GetPeripheralAtLocation_cons_hit (ext : Externals) (bus : CPeripheralBus)
    (rest : List CPeripheralBus) (strLocation : String) (busType : PeripheralBusType)
    (peripheral : CPeripheral) (hp : passesFilter busType bus = true)
    (h : ext.BusGetPeripheral bus strLocation = some peripheral) :
    GetPeripheralAtLocation ext (bus :: rest) strLocation busType = some peripheral := by
  have hcond : ¬ (busType ≠ .PERIPHERAL_BUS_UNKNOWN ∧ bus.m_type ≠ busType) := by
    rintro ⟨h1, h2⟩
    unfold passesFilter at hp
    rcases of_decide_eq_true hp with h3 | h3
    · exact h1 h3
    · exact h2 h3
  rw [GetPeripheralAtLocation, if_neg hcond, h]

theorem GetPeripheralAtLocation_eq_none (ext : Externals) (m_busses : List CPeripheralBus)
    (strLocation : String) (busType : PeripheralBusType) :
    GetPeripheralAtLocation ext m_busses strLocation busType = none ↔
      ∀ b ∈ m_busses, passesFilter busType b = true →
        ext.BusGetPeripheral b strLocation = none := by
  induction m_busses with
  | nil => simp [GetPeripheralAtLocation]
  | cons bus rest ih =>
    by_cases hskip : passesFilter busType bus = true → ext.BusGetPeripheral bus strLocation = none
    · rw [GetPeripheralAtLocation_cons_skip ext bus rest strLocation busType hskip, ih]
      constructor
      · intro h b hb
        rcases List.mem_cons.mp hb with rfl | hb
        · exact hskip
        · exact h b hb
      · intro h b hb
        exact h b (List.mem_cons_of_mem _ hb)
    · have hp : passesFilter busType bus = true := by
        by_contra hn
        exact hskip (fun h => absurd h hn)
      have hsome : ext.BusGetPeripheral bus strLocation ≠ none := fun hn => hskip (fun _ => hn)
      obtain ⟨p, hpq⟩ := Option.ne_none_iff_exists'.mp hsome
      rw [GetPeripheralAtLocation_cons_hit ext bus rest strLocation busType p hp hpq]
      constructor
      · intro h
        exact absurd h (by simp)
      · intro h
        exact absurd (h bus (List.mem_cons_self _ _) hp) hsome

/-- C19: `GetPeripheralAtLocation` returns what `GetPeripheral(location)` gives on
the first bus, in collection order, that passes the type filter (every bus
for `PERIPHERAL_BUS_UNKNOWN`) and holds a peripheral at the location; it returns
nothing iff no bus passes the filter and holds one; `HasPeripheralAtLocation` is
true exactly when it returns a peripheral. -/
theorem GetPeripheralAtLocation_first_holder (ext : Externals) (m_busses : List CPeripheralBus)
    (strLocation : String) (busType : PeripheralBusType) :
    (∀ (earlier : List CPeripheralBus) (bus : CPeripheralBus) (later : List CPeripheralBus)
        (peripheral : CPeripheral),
      m_busses = earlier ++ bus :: later → passesFilter busType bus = true →
      ext.BusGetPeripheral bus strLocation = some peripheral →
      (∀ b ∈ earlier, passesFilter busType b = true →
        ext.BusGetPeripheral b strLocation = none) →
      GetPeripheralAtLocation ext m_busses strLocation busType = some peripheral) ∧
    (GetPeripheralAtLocation ext m_busses strLocation busType = none ↔
      ∀ b ∈ m_busses, passesFilter busType b = true →
        ext.BusGetPeripheral b strLocation = none) ∧
    (HasPeripheralAtLocation ext m_busses strLocation busType = true ↔
      ∃ peripheral, GetPeripheralAtLocation ext m_busses strLocation busType =
        some peripheral) := by
  refine ⟨?_, GetPeripheralAtLocation_eq_none ext m_busses strLocation busType, ?_⟩
  · intro earlier bus later peripheral hsplit hpass hget hearlier
    subst hsplit
    induction earlier with
    | nil => exact GetPeripheralAtLocation_cons_hit ext bus later strLocation busType _ hpass hget
    | cons b tail ih =>
      rw [List.cons_append, GetPeripheralAtLocation_cons_skip ext b _ strLocation busType
        (hearlier b (List.mem_cons_self _ _))]
      exact ih (fun x hx => hearlier x (List.mem_cons_of_mem _ hx))
  · unfold HasPeripheralAtLocation
    cases GetPeripheralAtLocation ext m_busses strLocation busType <;> simp

/-- C19 on a registry with an empty CEC bus before the USB bus that holds
location 1-1: the lookup passes over the CEC bus and returns the peripheral
of the USB bus; filtered to the CEC type it returns nothing. -/
theorem GetPeripheralAtLocation_first_holder_witness :
    GetPeripheralAtLocation (specExternals none) [cecBus, usbBusWithDevice] "1-1"
        .PERIPHERAL_BUS_UNKNOWN = some samplePeripheral ∧
    GetPeripheralAtLocation (specExternals none) [cecBus, usbBusWithDevice] "1-1"
        .PERIPHERAL_BUS_CEC = none ∧
    HasPeripheralAtLocation (specExternals none) [cecBus, usbBusWithDevice] "1-1"
        .PERIPHERAL_BUS_USB = true :=
  ⟨(GetPeripheralAtLocation_first_holder (specExternals none) [cecBus, usbBusWithDevice] "1-1"
      .PERIPHERAL_BUS_UNKNOWN).1 [cecBus] usbBusWithDevice [] samplePeripheral rfl (by decide)
      (by decide) (by decide),
   (GetPeripheralAtLocation_first_holder (specExternals none) [cecBus, usbBusWithDevice] "1-1"
      .PERIPHERAL_BUS_CEC).2.1.mpr (by decide),
   (GetPeripheralAtLocation_first_holder (specExternals none) [cecBus, usbBusWithDevice] "1-1"
      .PERIPHERAL_BUS_USB).2.2.mpr ⟨samplePeripheral, by decide⟩⟩

/-! ## Paths that name no bus -/

/-- C20: for a path that fails the scheme test, and for a path whose bus
segment names no bus of the registry (it equals the type name of no bus, and
it is not the wildcard `all`, which names every bus), `GetByPath` returns
nothing, `GetDirectory` returns the items it was given, and no bus is
consulted by either. -/
theorem path_without_registered_bus (ext : Externals) (self : CPeripherals) (strPath : String)
    (items : CFileItemList) :
    (ext.Equals (Left strPath 14) "peripherals://" = false →
      GetByPath ext self strPath = (none, []) ∧
      GetDirectory ext self strPath items = (items, [])) ∧
    ((∀ bus ∈ self.m_busses,
        ext.Equals (busSegment strPath) "all" = false ∧
        ext.Equals (busSegment strPath) (ext.BusTypeToString bus.m_type) = false) →
      GetByPath ext self strPath = (none, []) ∧
      GetDirectory ext self strPath items = (items, [])) := by
  constructor
  · intro hscheme
    unfold GetByPath GetDirectory
    simp [hscheme]
  · intro hseg
    constructor
    · unfold GetByPath
      split_ifs
      · rfl
      · exact getByPathLoop_no_match ext _ _ _ (fun bus hbus => (hseg bus hbus).2)
    · unfold GetDirectory
      split_ifs
      · rfl
      · exact getDirectoryLoop_no_match ext _ _ _ _ _ hseg

/-- C20 on a registry with a USB bus only: a path of another scheme and a
path whose segment is `cec` find nothing and list nothing. -/
theorem path_without_registered_bus_witness :
    busSegment "peripherals://cec/1-1" = "cec" ∧
    GetByPath (specExternals none) usbRegistry "devices://usb/1-1" = (none, []) ∧
    GetDirectory (specExternals none) usbRegistry "devices://usb/1-1" ["x"] = (["x"], []) ∧
    GetByPath (specExternals none) usbRegistry "peripherals://cec/1-1" = (none, []) ∧
    GetDirectory (specExternals none) usbRegistry "peripherals://cec/1-1" ["x"] = (["x"], []) :=
  ⟨by decide,
   ((path_without_registered_bus (specExternals none) usbRegistry "devices://usb/1-1"
      ["x"]).1 (by decide)).1,
   ((path_without_registered_bus (specExternals none) usbRegistry "devices://usb/1-1"
      ["x"]).1 (by decide)).2,
   ((path_without_registered_bus (specExternals none) usbRegistry "peripherals://cec/1-1"
      ["x"]).2 (by decide)).1,
   ((path_without_registered_bus (specExternals none) usbRegistry "peripherals://cec/1-1"
      ["x"]).2 (by decide)).2⟩

/-! ## Resolver and settings pass -/

theorem GetMappingForDevice_scan_fields (m_mappings : List PeripheralDeviceMapping)
    (bus : CPeripheralBus) (result : PeripheralScanResult) :
    (GetMappingForDevice m_mappings bus result).2.m_type = result.m_type ∧
    (GetMappingForDevice m_mappings bus result).2.m_iVendorId = result.m_iVendorId ∧
    (GetMappingForDevice m_mappings bus result).2.m_iProductId = result.m_iProductId ∧
    (GetMappingForDevice m_mappings bus result).2.m_busType = result.m_busType := by
  induction m_mappings with
  | nil => exact ⟨rfl, rfl, rfl, rfl⟩
  | cons m rest ih =>
    unfold GetMappingForDevice
    split_ifs
    · exact ⟨rfl, rfl, rfl, rfl⟩
    · exact ih

theorem resolve_scan_fields (m_mappings : List PeripheralDeviceMapping) (bus : CPeripheralBus)
    (result : PeripheralScanResult) :
    (resolve m_mappings bus result).2.m_type = result.m_type ∧
    (resolve m_mappings bus result).2.m_iVendorId = result.m_iVendorId ∧
    (resolve m_mappings bus result).2.m_iProductId = result.m_iProductId ∧
    (resolve m_mappings bus result).2.m_busType = defaultedBusType bus result := by
  unfold resolve defaultedBusType
  obtain ⟨h1, h2, h3, h4⟩ := GetMappingForDevice_scan_fields m_mappings bus
    (if result.m_busType = .PERIPHERAL_BUS_UNKNOWN then { result with m_busType := bus.m_type }
     else result)
  rw [h1, h2, h3, h4]
  split_ifs <;> exact ⟨rfl, rfl, rfl, rfl⟩

theorem settingsMappingMatches_eq (mapping : PeripheralDeviceMapping) (p : CPeripheral) :
    settingsMappingMatches mapping p =
      mappingMatches mapping p.m_busType p.m_iVendorId p.m_iProductId p.m_type := by
  unfold settingsMappingMatches mappingMatches
  simp only
  rw [Bool.and_comm (decide (mapping.m_busType = .PERIPHERAL_BUS_UNKNOWN ∨
    mapping.m_busType = p.m_busType))]

theorem settingsMappingMatches_addSettingsLoop (mapping : PeripheralDeviceMapping)
    (L : SettingsMap) (p : CPeripheral) :
    settingsMappingMatches mapping (addSettingsLoop specAddSetting L p) =
      settingsMappingMatches mapping p := by
  rw [addSettingsLoop_device]
  rfl

theorem GetSettingsFromMapping_applyRules (ms : List PeripheralDeviceMapping) (p q : CPeripheral)
    (hq : ∀ mapping, settingsMappingMatches mapping q = settingsMappingMatches mapping p) :
    GetSettingsFromMapping specAddSetting ms q =
      applyRules specAddSetting (ms.filter (fun m => settingsMappingMatches m p)) q := by
  induction ms generalizing q with
  | nil => rfl
  | cons m rest ih =>
    rw [GetSettingsFromMapping, List.filter_cons]
    by_cases hm : settingsMappingMatches m p = true
    · have hmq : settingsMappingMatches m q = true := by rw [hq, hm]
      rw [if_pos hmq, if_pos hm, applyRules]
      exact ih _ (fun mapping => by rw [settingsMappingMatches_addSettingsLoop, hq])
    · have hmq : ¬ settingsMappingMatches m q = true := by rw [hq]; exact hm
      rw [if_neg hmq, if_neg hm]
      exact ih q hq

/-- C21 (amended): for a peripheral that carries the bus type, device class and
vendor/product ids of the scan result it is constructed from, the settings
pass applies the settings of exactly the rules that pass the resolver's
identity and class predicates and whose bus filter is Unknown or equals the
bus type of the scan result (defaulted to the calling bus when unset).  When
the scan result's bus type is unset or is the type of the calling bus, these
are exactly the rules that match under `GetMappingForDevice`. -/
theorem settings_pass_agrees_with_resolver (ext : Externals)
    (m_mappings : List PeripheralDeviceMapping) (bus : CPeripheralBus)
    (result : PeripheralScanResult) (type : PeripheralType)
    (hcons : ∀ t r, (ext.Construct t r).m_busType = r.m_busType ∧
      (ext.Construct t r).m_type = r.m_type ∧
      (ext.Construct t r).m_iVendorId = r.m_iVendorId ∧
      (ext.Construct t r).m_iProductId = r.m_iProductId) :
    (∀ mapping : PeripheralDeviceMapping,
      settingsMappingMatches mapping (ext.Construct type (resolve m_mappings bus result).2) =
        mappingMatches mapping (defaultedBusType bus result) result.m_iVendorId
          result.m_iProductId result.m_type) ∧
    (result.m_busType = .PERIPHERAL_BUS_UNKNOWN ∨ result.m_busType = bus.m_type →
      (∀ mapping : PeripheralDeviceMapping,
        settingsMappingMatches mapping (ext.Construct type (resolve m_mappings bus result).2) =
          mappingMatches mapping bus.m_type result.m_iVendorId result.m_iProductId
            result.m_type) ∧
      GetSettingsFromMapping specAddSetting m_mappings
          (ext.Construct type (resolve m_mappings bus result).2) =
        applyRules specAddSetting
          (m_mappings.filter (fun m =>
            mappingMatches m bus.m_type result.m_iVendorId result.m_iProductId result.m_type))
          (ext.Construct type (resolve m_mappings bus result).2)) := by
  obtain ⟨hb, ht, hv, hp⟩ := hcons type (resolve m_mappings bus result).2
  obtain ⟨rt, rv, rp, rb⟩ := resolve_scan_fields m_mappings bus result
  have hall : ∀ mapping : PeripheralDeviceMapping,
      settingsMappingMatches mapping (ext.Construct type (resolve m_mappings bus result).2) =
        mappingMatches mapping (defaultedBusType bus result) result.m_iVendorId
          result.m_iProductId result.m_type := by
    intro mapping
    rw [settingsMappingMatches_eq, hb, ht, hv, hp, rt, rv, rp, rb]
  refine ⟨hall, ?_⟩
  intro hbus
  have hdef : defaultedBusType bus result = bus.m_type := by
    unfold defaultedBusType
    rcases hbus with h | h
    · rw [if_pos h]
    · split_ifs
      · rfl
      · exact h
  have hsame : ∀ mapping : PeripheralDeviceMapping,
      settingsMappingMatches mapping (ext.Construct type (resolve m_mappings bus result).2) =
        mappingMatches mapping bus.m_type result.m_iVendorId result.m_iProductId
          result.m_type := by
    intro mapping
    rw [hall, hdef]
  refine ⟨hsame, ?_⟩
  rw [GetSettingsFromMapping_applyRules m_mappings _ _ (fun _ => rfl)]
  congr 1
  apply List.filter_congr
  intro m _
  exact hsame m

/-- C21 (amended) on the rules A and B and the device 1234:abcd scanned on the
USB bus with its bus type unset: both rules match under the resolver, and
the settings of both are applied, A before B. -/
theorem settings_pass_agrees_with_resolver_witness :
    [ruleA, ruleB].filter (fun m =>
        mappingMatches m usbBus.m_type 0x1234 0xabcd .PERIPHERAL_UNKNOWN) = [ruleA, ruleB] ∧
    GetSettingsFromMapping specAddSetting [ruleA, ruleB]
        ((specExternals none).Construct .PERIPHERAL_HID
          (resolve [ruleA, ruleB] usbBus
            (scanResult .PERIPHERAL_BUS_UNKNOWN .PERIPHERAL_UNKNOWN 0x1234 0xabcd)).2) =
      applyRules specAddSetting
        ([ruleA, ruleB].filter (fun m =>
          mappingMatches m usbBus.m_type 0x1234 0xabcd .PERIPHERAL_UNKNOWN))
        ((specExternals none).Construct .PERIPHERAL_HID
          (resolve [ruleA, ruleB] usbBus
            (scanResult .PERIPHERAL_BUS_UNKNOWN .PERIPHERAL_UNKNOWN 0x1234 0xabcd)).2) :=
  ⟨by decide,
   ((settings_pass_agrees_with_resolver (specExternals none) [ruleA, ruleB] usbBus
      (scanResult .PERIPHERAL_BUS_UNKNOWN .PERIPHERAL_UNKNOWN 0x1234 0xabcd) .PERIPHERAL_HID
      (fun _ _ => ⟨rfl, rfl, rfl, rfl⟩)).2 (Or.inl rfl)).2⟩

/-- C21 as stated fails: the scan result of the device 1234:abcd names the CEC
bus and is handed to `CreatePeripheral` by the USB bus.  The rule for 1234:abcd
on the USB bus matches under `GetMappingForDevice`, which compares with the
type of the calling bus, and the peripheral is created; the settings pass
compares with the bus type of the peripheral, the rule does not match there
and its setting foo is not applied. -/
theorem settings_pass_disagrees_on_explicit_bus_type :
    GetMappingForDevice [ruleUsb1234] usbBus
        (scanResult .PERIPHERAL_BUS_CEC .PERIPHERAL_UNKNOWN 0x1234 0xabcd) =
      (true, { scanResult .PERIPHERAL_BUS_CEC .PERIPHERAL_UNKNOWN 0x1234 0xabcd with
                 m_mappedType := .PERIPHERAL_HID }) ∧
    settingsMappingMatches ruleUsb1234 cecTypedPeripheral = false ∧
    CreatePeripheral (specExternals none) (sampleRegistry [ruleUsb1234]) usbBus
        (scanResult .PERIPHERAL_BUS_CEC .PERIPHERAL_UNKNOWN 0x1234 0xabcd) =
      (some cecTypedPeripheral, sampleRegistry [ruleUsb1234],
       { m_type := .PERIPHERAL_BUS_USB, m_peripherals := [cecTypedPeripheral] }, []) :=
  ⟨by decide, by decide, by decide⟩

/-! ## A rule without a well-formed identity -/

theorem lookup_filter_ne (attrs : List (String × String)) (k n : String) (h : n ≠ k) :
    (attrs.filter (fun a => a.1 != k)).lookup n = attrs.lookup n := by
  induction attrs with
  | nil => rfl
  | cons a rest ih =>
    obtain ⟨key, value⟩ := a
    by_cases hk : key = k
    · subst hk
      have hn : (n == key) = false := by simpa using h
      simp [List.filter_cons, List.lookup, hn, ih]
    · have hkeep : (key != k) = true := by simpa using hk
      rw [List.filter_cons]
      simp only [hkeep, if_true, List.lookup]
      cases n == key
      · exact ih
      · rfl

theorem lookup_filter_self (attrs : List (String × String)) (k : String) :
    (attrs.filter (fun a => a.1 != k)).lookup k = none := by
  induction attrs with
  | nil => rfl
  | cons a rest ih =>
    obtain ⟨key, value⟩ := a
    by_cases hk : key = k
    · subst hk
      simp [List.filter_cons, ih]
    · have hkeep : (key != k) = true := by simpa using hk
      have hn : (k == key) = false := by simpa using fun h : k = key => hk h.symm
      rw [List.filter_cons]
      simp only [hkeep, if_true, List.lookup, hn]
      exact ih

theorem withoutAttribute_Attribute (node : TiXmlElement) (k n : String) (h : n ≠ k) :
    (withoutAttribute node k).Attribute n = node.Attribute n := by
  obtain ⟨value, attrs, children⟩ := node
  exact lookup_filter_ne attrs k n h

theorem withoutAttribute_removed (node : TiXmlElement) (k : String) :
    (withoutAttribute node k).Attribute k = none := by
  obtain ⟨value, attrs, children⟩ := node
  exact lookup_filter_self attrs k

theorem withoutAttribute_ChildElements (node : TiXmlElement) (k name : String) :
    (withoutAttribute node k).ChildElements name = node.ChildElements name := by
  obtain ⟨value, attrs, children⟩ := node
  rfl

theorem vendorProductLoop_all_malformed (ext : Externals) (vpArray : List String)
    (h : ∀ entry ∈ vpArray, twoTokenIdentity ext entry = none) :
    vendorProductLoop ext vpArray [] = [] := by
  rw [vendorProductLoop_eq, List.nil_append, List.filterMap_eq_nil_iff]
  exact h

theorem loadMapping_malformed (ext : Externals) (fuel : Nat) (node : TiXmlElement) (vp : String)
    (hvp : node.Attribute "vendor_product" = some vp)
    (hnone : ∀ entry ∈ ext.SplitString vp ",", twoTokenIdentity ext entry = none) :
    loadMapping ext fuel node =
      (match GetSettingsFromMappingsFile ext fuel node [] with
       | .error f => .error f
       | .ok m_settings =>
         .ok { m_PeripheralID := []
               m_busType := ext.GetBusTypeFromString (node.Attribute "bus")
               m_class := ext.GetTypeFromString (node.Attribute "class")
               m_strDeviceName := (node.Attribute "name").getD ""
               m_mappedTo := ext.GetTypeFromString (node.Attribute "mapTo")
               m_settings := m_settings }) := by
  unfold loadMapping
  simp only [hvp, vendorProductLoop_all_malformed ext _ hnone]
  cases node.Attribute "name" <;> rfl

theorem loadMapping_without_vendor_product (ext : Externals) (fuel : Nat) (node : TiXmlElement) :
    loadMapping ext fuel (withoutAttribute node "vendor_product") =
      (match GetSettingsFromMappingsFile ext fuel node [] with
       | .error f => .error f
       | .ok m_settings =>
         .ok { m_PeripheralID := []
               m_busType := ext.GetBusTypeFromString (node.Attribute "bus")
               m_class := ext.GetTypeFromString (node.Attribute "class")
               m_strDeviceName := (node.Attribute "name").getD ""
               m_mappedTo := ext.GetTypeFromString (node.Attribute "mapTo")
               m_settings := m_settings }) := by
  unfold loadMapping GetSettingsFromMappingsFile
  simp only [withoutAttribute_removed, withoutAttribute_ChildElements,
    withoutAttribute_Attribute node "vendor_product" "name" (by decide),
    withoutAttribute_Attribute node "vendor_product" "bus" (by decide),
    withoutAttribute_Attribute node "vendor_product" "class" (by decide),
    withoutAttribute_Attribute node "vendor_product" "mapTo" (by decide)]
  cases node.Attribute "name" <;> rfl

/-- C22: a `peripheral` element whose `vendor_product` attribute is present but
has no entry that splits into two tokens is loaded as the very rule that the
same element without the attribute gives: its identity list is empty, so it
matches a device of any vendor and product id, the bus and class filters
alone deciding; the rule is loaded whenever the settings loop returns. -/
theorem malformed_vendor_product_is_wildcard (ext : Externals) (fuel : Nat)
    (node : TiXmlElement) (vp : String)
    (hvp : node.Attribute "vendor_product" = some vp)
    (hnone : ∀ entry ∈ ext.SplitString vp ",", twoTokenIdentity ext entry = none) :
    loadMapping ext fuel node = loadMapping ext fuel (withoutAttribute node "vendor_product") ∧
    (∀ rule : PeripheralDeviceMapping, loadMapping ext fuel node = .ok rule →
      rule.m_PeripheralID = [] ∧
      ∀ (busType : PeripheralBusType) (vendor product : Int) (type : PeripheralType),
        mappingMatches rule busType vendor product type =
          (decide (rule.m_busType = .PERIPHERAL_BUS_UNKNOWN ∨ rule.m_busType = busType) &&
           decide (rule.m_class = .PERIPHERAL_UNKNOWN ∨ rule.m_class = type))) ∧
    ((∀ s ∈ node.ChildElements "setting", settingReturns ext s = true) →
      (node.ChildElements "setting").length ≤ fuel →
      ∃ rule : PeripheralDeviceMapping, loadMapping ext fuel node = .ok rule) := by
  have hload := loadMapping_malformed ext fuel node vp hvp hnone
  refine ⟨?_, ?_, ?_⟩
  · rw [hload, loadMapping_without_vendor_product]
  · intro rule hrule
    rw [hload] at hrule
    have hids : rule.m_PeripheralID = [] := by
      cases hs : GetSettingsFromMappingsFile ext fuel node [] with
      | error f =>
        rw [hs] at hrule
        exact absurd hrule (by simp)
      | ok m =>
        rw [hs] at hrule
        simp only [Except.ok.injEq] at hrule
        rw [← hrule]
    refine ⟨hids, ?_⟩
    intro busType vendor product type
    unfold mappingMatches
    simp [hids]
  · intro hsettings hfuel
    rw [hload, GetSettingsFromMappingsFile_settingsOf ext fuel node hsettings hfuel]
    exact ⟨_, rfl⟩

/-- C22 on the declaration `vendor_product="0451"`, usb, disk: it loads with no
identity, as the declaration without the attribute does, and matches the
device dead:beef on the USB bus. -/
theorem malformed_vendor_product_is_wildcard_witness :
    loadMapping (specExternals none) 0 malformedOnlyRule =
      .ok { m_PeripheralID := [], m_busType := .PERIPHERAL_BUS_USB,
            m_class := .PERIPHERAL_UNKNOWN, m_strDeviceName := "second",
            m_mappedTo := .PERIPHERAL_DISK, m_settings := [] } ∧
    loadMapping (specExternals none) 0 malformedOnlyRule =
      loadMapping (specExternals none) 0
        (.mk "peripheral" [("name", "second"), ("bus", "usb"), ("mapTo", "disk")] []) ∧
    mappingMatches
        { m_PeripheralID := [], m_busType := .PERIPHERAL_BUS_USB,
          m_class := .PERIPHERAL_UNKNOWN, m_strDeviceName := "second",
          m_mappedTo := .PERIPHERAL_DISK, m_settings := [] }
        .PERIPHERAL_BUS_USB 0xdead 0xbeef .PERIPHERAL_HID = true :=
  have h := malformed_vendor_product_is_wildcard (specExternals none) 0 malformedOnlyRule
    "0451" rfl (by decide)
  ⟨rfl, h.1,
   ((h.2.1 _ rfl).2 .PERIPHERAL_BUS_USB 0xdead 0xbeef .PERIPHERAL_HID).trans (by decide)⟩

/-! ## Busses that fail to initialise -/

theorem initialiseCalls_initialiseEvents (ext : Externals) (busses : List CPeripheralBus) :
    initialiseCalls (initialiseEvents ext busses) =
      busses.reverse.map (fun bus => (bus, ext.BusInitialise bus)) := by
  induction busses with
  | nil => rfl
  | cons bus rest ih =>
    unfold initialiseCalls at ih ⊢
    rw [initialiseEvents, List.filterMap_append, ih, List.reverse_cons, List.map_append]
    congr 1
    unfold busEvents
    cases h : ext.BusInitialise bus <;> simp [h]

theorem deletedBusses_initialiseEvents (ext : Externals) (busses : List CPeripheralBus) :
    deletedBusses (initialiseEvents ext busses) =
      busses.reverse.filter (fun bus => !ext.BusInitialise bus) := by
  induction busses with
  | nil => rfl
  | cons bus rest ih =>
    unfold deletedBusses at ih ⊢
    rw [initialiseEvents, List.filterMap_append, ih, List.reverse_cons, List.filter_append]
    congr 1
    unfold busEvents
    cases h : ext.BusInitialise bus <;> simp [h]

/-- C23: when `Initialise` runs on a registry that is not started and holds no
bus, and the mapping load returns, the bus collection afterwards is exactly
the created busses whose `Initialise()` returned true, in the order they were
created; `Initialise()` is called once on every created bus, from the last to
the first, every bus for which it returned false is deleted, and the
registry is started and initialised, also when no bus is left. -/
theorem Initialise_keeps_initialised_busses (ext : Externals) (fuel : Nat) (self : CPeripherals)
    (b : Bool) (maps : List PeripheralDeviceMapping) (hstart : self.m_bIsStarted = false)
    (hbusses : self.m_busses = [])
    (hload : LoadMappings ext fuel self.m_mappings = .ok (b, maps)) :
    Initialise ext fuel self =
      .ok ({ self with m_bIsStarted := true, m_bInitialised := true,
                       m_busses := (newBusses ext).filter ext.BusInitialise,
                       m_mappings := maps },
           [.CreateDirectory "special://profile/peripheral_data", .LoadMappings] ++
             (newBusses ext).map (fun bus => .BusCreated bus.m_type) ++
             initialiseEvents ext (newBusses ext)) ∧
    initialiseCalls (initialiseEvents ext (newBusses ext)) =
      (newBusses ext).reverse.map (fun bus => (bus, ext.BusInitialise bus)) ∧
    deletedBusses (initialiseEvents ext (newBusses ext)) =
      (newBusses ext).reverse.filter (fun bus => !ext.BusInitialise bus) ∧
    ((∀ bus ∈ newBusses ext, ext.BusInitialise bus = false) →
      (newBusses ext).filter ext.BusInitialise = []) := by
  refine ⟨?_, initialiseCalls_initialiseEvents ext _, deletedBusses_initialiseEvents ext _, ?_⟩
  · rw [Initialise_not_started ext fuel self b maps hstart hload, hbusses]
    simp only [List.nil_append]
  · intro hfail
    rw [List.filter_eq_nil_iff]
    intro bus hbus
    rw [hfail bus hbus]
    decide

/-- C23 on the build with both busses: when the USB bus fails and the CEC bus
succeeds the collection is the CEC bus alone, the CEC bus being initialised
first and the USB bus deleted; when both fail the collection is empty and
the registry is initialised all the same. -/
theorem Initialise_keeps_initialised_busses_witness :
    Initialise (usbFailsExternals none) 0 emptyRegistry =
      .ok ({ m_bIsStarted := true, m_bInitialised := true,
             m_bMissingLibCecWarningDisplayed := false,
             m_busses := [cecBus], m_mappings := [] },
           [.CreateDirectory "special://profile/peripheral_data", .LoadMappings,
            .BusCreated .PERIPHERAL_BUS_USB, .BusCreated .PERIPHERAL_BUS_CEC,
            .BusInitialise cecBus true, .BusInitialise usbBus false, .BusDeleted usbBus]) ∧
    Initialise (allFailExternals none) 0 emptyRegistry =
      .ok ({ m_bIsStarted := true, m_bInitialised := true,
             m_bMissingLibCecWarningDisplayed := false,
             m_busses := [], m_mappings := [] },
           [.CreateDirectory "special://profile/peripheral_data", .LoadMappings,
            .BusCreated .PERIPHERAL_BUS_USB, .BusCreated .PERIPHERAL_BUS_CEC,
            .BusInitialise cecBus false, .BusDeleted cecBus,
            .BusInitialise usbBus false, .BusDeleted usbBus]) :=
  ⟨(Initialise_keeps_initialised_busses (usbFailsExternals none) 0 emptyRegistry true []
      rfl rfl rfl).1,
   (Initialise_keeps_initialised_busses (allFailExternals none) 0 emptyRegistry true []
      rfl rfl rfl).1⟩

/-! ## Restart on a source with an empty setting key -/

theorem LoadMappings_emptyKeyDocument (ext : Externals) (fuel : Nat)
    (m_mappings : List PeripheralDeviceMapping) :
    LoadMappings (withDocument ext emptyKeyDocument) fuel m_mappings = .error .outOfFuel := by
  have hsettings : GetSettingsFromMappingsFile (withDocument ext emptyKeyDocument) fuel
      emptyKeyRule [] = .error .outOfFuel :=
    settingsLoop_empty_key _ fuel (boolSettingElement "" "yes")
      [boolSettingElement "foo" "yes"] [] (by decide)
  have hroot : strcmpi (TiXmlElement.mk "peripherals" [] [emptyKeyRule]).Value "peripherals"
      = 0 := by decide
  have hchildren : (TiXmlElement.mk "peripherals" [] [emptyKeyRule]).ChildElements "peripheral"
      = [emptyKeyRule] := rfl
  unfold LoadMappings
  simp only [withDocument, emptyKeyDocument, hroot, ne_eq, not_true_eq_false, if_false,
    hchildren]
  unfold loadMappingsLoop loadMapping
  have hsettings2 : GetSettingsFromMappingsFile
      { ext with LoadFile := some { RootElement := some (.mk "peripherals" [] [emptyKeyRule]) } }
      fuel emptyKeyRule [] = .error .outOfFuel := hsettings
  simp only [hsettings2]

theorem Initialise_after_Clear_returns (ext : Externals) (fuel : Nat) (self : CPeripherals)
    (xmlDoc : CXBMCTinyXML) (pRootElement : TiXmlElement) (hfile : ext.LoadFile = some xmlDoc)
    (hroot : xmlDoc.RootElement = some pRootElement)
    (hname : strcmpi pRootElement.Value "peripherals" = 0)
    (hsettings : ∀ node ∈ pRootElement.ChildElements "peripheral",
      ∀ s ∈ node.ChildElements "setting", settingReturns ext s = true)
    (hfuel : ∀ node ∈ pRootElement.ChildElements "peripheral",
      (node.ChildElements "setting").length ≤ fuel) :
    ∃ maps : List PeripheralDeviceMapping,
      LoadMappings ext fuel [] = .ok (true, maps) ∧
      Initialise ext fuel (Clear ext self).1 =
        .ok ({ m_bIsStarted := true, m_bInitialised := true,
               m_bMissingLibCecWarningDisplayed :=
                 (Clear ext self).1.m_bMissingLibCecWarningDisplayed,
               m_busses := (newBusses ext).filter ext.BusInitialise,
               m_mappings := maps },
             [.CreateDirectory "special://profile/peripheral_data", .LoadMappings] ++
               (newBusses ext).map (fun bus => .BusCreated bus.m_type) ++
               initialiseEvents ext (newBusses ext)) := by
  have hload : ∃ maps, LoadMappings ext fuel [] = .ok (true, maps) := by
    unfold LoadMappings
    simp only [hfile, hroot, hname, ne_eq, not_true_eq_false, if_false]
    rw [loadMappingsLoop_eq ext fuel _ [] hsettings hfuel]
    exact ⟨_, rfl⟩
  obtain ⟨maps, hmaps⟩ := hload
  refine ⟨maps, hmaps, ?_⟩
  rw [Initialise_not_started ext fuel (Clear ext self).1 true maps rfl hmaps]
  simp [Clear]

/-- C10, the code at the failing input: a mapping document rooted at
`peripherals` whose rule has a setting with an empty key.  Whatever the
collaborators do, whatever the registry held and for every amount of fuel,
`Clear` resets the registry, and the `Initialise` that follows does not return:
the mapping load is still in the settings loop, at the empty-key element,
when the fuel is spent, so no bus is created and the registry is never
marked initialised. -/
theorem Initialise_after_Clear_never_returns_on_empty_key (ext : Externals) (fuel : Nat)
    (self : CPeripherals) :
    (Clear (withDocument ext emptyKeyDocument) self).1.m_bIsStarted = false ∧
    (Clear (withDocument ext emptyKeyDocument) self).1.m_bInitialised = false ∧
    (Clear (withDocument ext emptyKeyDocument) self).1.m_busses = [] ∧
    (Clear (withDocument ext emptyKeyDocument) self).1.m_mappings = [] ∧
    LoadMappings (withDocument ext emptyKeyDocument) fuel [] = .error .outOfFuel ∧
    Initialise (withDocument ext emptyKeyDocument) fuel
        (Clear (withDocument ext emptyKeyDocument) self).1 = .error .outOfFuel := by
  refine ⟨rfl, rfl, rfl, rfl, LoadMappings_emptyKeyDocument ext fuel [], ?_⟩
  have hload : LoadMappings (withDocument ext emptyKeyDocument) fuel
      (Clear (withDocument ext emptyKeyDocument) self).1.m_mappings = .error .outOfFuel :=
    LoadMappings_emptyKeyDocument ext fuel _
  have hstart : (Clear (withDocument ext emptyKeyDocument) self).1.m_bIsStarted = false := rfl
  unfold Initialise
  simp only [hstart, Bool.not_false, if_true, hload]

end PERIPHERALS
